import Mathlib

/-!
# S3TC block codec of vogl (`src/voglcore/vogl_dxt.cpp`)

A shallow embedding of the DXT1 / DXT5 block helpers of `vogl_dxt.cpp`
and the properties of them that the specification states.

Conventions of the embedding
* C++ unsigned machine integers are `Nat`; a narrowing conversion or a
  32-bit wrap is written out as `% 2 ^ w` at the place the C++ performs it.
* `color_quad_u8 *pDst` / `uint32_t *pDst` is the destination memory, a
  `List` that the function receives and returns updated, next to its
  `uint32_t` return value.
-/

namespace vogl

/-! ## Machine integers -/

/-- The conversion `static_cast<uint8_t>(x)`. -/
def u8 (x : Nat) : Nat := x % 2 ^ 8

/-- The conversion `static_cast<uint16_t>(x)`. -/
def u16 (x : Nat) : Nat := x % 2 ^ 16

/-- The value of a `uint32_t` expression whose mathematical value is `x`. -/
def u32 (x : Nat) : Nat := x % 2 ^ 32

/-! ## Colors -/

/-- Modelled from the spec: the type `color_quad_u8` is declared in a header
(`vogl_color.h`) that is not among the sources. The spec describes it as
"8-bit-per-channel RGBA"; the code reads and writes its members `r`, `g`,
`b`, `a`. -/
structure color_quad_u8 where
  r : Nat
  g : Nat
  b : Nat
  a : Nat
deriving DecidableEq

/-- Modelled from the spec: `color_quad_u8::set_noclamp_rgba` and the
constructor `color_quad_u8(cNoClamp, r, g, b, a)` live in the same missing
header. As their name says they store the four arguments without clamping;
storing into an 8-bit channel is the narrowing `static_cast<uint8_t>`. -/
def color_quad_u8.set_noclamp_rgba (r g b a : Nat) : color_quad_u8 :=
  { r := u8 r, g := u8 g, b := u8 b, a := u8 a }

/-- Modelled from the spec: `math::minimum` (header `vogl_math.h`, not among
the sources) is the smaller of its two arguments ("clamped to its bit
width", "clamped to [0,255]"). -/
def math.minimum (a b : Nat) : Nat := if a < b then a else b

/-- Modelled from the spec: the default value of the `alpha` parameter of
`dxt1_block::unpack_color`, given in the missing header `vogl_dxt.h`
("Alpha defaults to 255 for opaque contexts"). -/
def cDefaultAlpha : Nat := 255

/-! ## Packing primitives (`vogl_dxt.cpp` 132-179) -/

/-- The function `dxt1_block::pack_color(const color_quad_u8 &, bool, uint32_t)`.
The channels are read into `uint32_t` locals, so the scaled sums wrap at
`2 ^ 32`; after the clamps the shifts cannot overflow. -/
def dxt1_block.pack_color (color : color_quad_u8) (scaled : Bool) (bias : Nat) : Nat :=
  let r := color.r
  let g := color.g
  let b := color.b
  let r := if scaled then u32 (r * 31 + bias) / 255 else r
  let g := if scaled then u32 (g * 63 + bias) / 255 else g
  let b := if scaled then u32 (b * 31 + bias) / 255 else b
  let r := math.minimum r 31
  let g := math.minimum g 63
  let b := math.minimum b 31
  u16 (b ||| (g <<< 5) ||| (r <<< 11))

/-- The function `dxt1_block::unpack_color(uint16_t, bool, uint32_t)`. -/
def dxt1_block.unpack_color (packed_color : Nat) (scaled : Bool) (alpha : Nat) : color_quad_u8 :=
  let b := packed_color &&& 31
  let g := (packed_color >>> 5) &&& 63
  let r := (packed_color >>> 11) &&& 31
  let b := if scaled then (b <<< 3) ||| (b >>> 2) else b
  let g := if scaled then (g <<< 2) ||| (g >>> 4) else g
  let r := if scaled then (r <<< 3) ||| (r >>> 2) else r
  color_quad_u8.set_noclamp_rgba r g b (math.minimum alpha 255)

/-! ## DXT1 palettes (`vogl_dxt.cpp` 224-295) -/

/-- The function `dxt1_block::get_block_colors3`: the updated `pDst` and the
returned count. -/
def dxt1_block.get_block_colors3 (pDst : List color_quad_u8) (color0 color1 : Nat) :
    Nat × List color_quad_u8 :=
  let c0 := dxt1_block.unpack_color color0 true cDefaultAlpha
  let c1 := dxt1_block.unpack_color color1 true cDefaultAlpha
  let pDst := pDst.set 0 c0
  let pDst := pDst.set 1 c1
  let pDst := pDst.set 2 (color_quad_u8.set_noclamp_rgba
    ((c0.r + c1.r) >>> 1) ((c0.g + c1.g) >>> 1) ((c0.b + c1.b) >>> 1) 255)
  let pDst := pDst.set 3 (color_quad_u8.set_noclamp_rgba 0 0 0 0)
  (3, pDst)

/-- The function `dxt1_block::get_block_colors4`. -/
def dxt1_block.get_block_colors4 (pDst : List color_quad_u8) (color0 color1 : Nat) :
    Nat × List color_quad_u8 :=
  let c0 := dxt1_block.unpack_color color0 true cDefaultAlpha
  let c1 := dxt1_block.unpack_color color1 true cDefaultAlpha
  let pDst := pDst.set 0 c0
  let pDst := pDst.set 1 c1
  let pDst := pDst.set 2 (color_quad_u8.set_noclamp_rgba
    ((c0.r * 2 + c1.r) / 3) ((c0.g * 2 + c1.g) / 3) ((c0.b * 2 + c1.b) / 3) 255)
  let pDst := pDst.set 3 (color_quad_u8.set_noclamp_rgba
    ((c1.r * 2 + c0.r) / 3) ((c1.g * 2 + c0.g) / 3) ((c1.b * 2 + c0.b) / 3) 255)
  (4, pDst)

/-- The function `dxt1_block::get_block_colors3_round`. -/
def dxt1_block.get_block_colors3_round (pDst : List color_quad_u8) (color0 color1 : Nat) :
    Nat × List color_quad_u8 :=
  let c0 := dxt1_block.unpack_color color0 true cDefaultAlpha
  let c1 := dxt1_block.unpack_color color1 true cDefaultAlpha
  let pDst := pDst.set 0 c0
  let pDst := pDst.set 1 c1
  let pDst := pDst.set 2 (color_quad_u8.set_noclamp_rgba
    ((c0.r + c1.r + 1) >>> 1) ((c0.g + c1.g + 1) >>> 1) ((c0.b + c1.b + 1) >>> 1) 255)
  let pDst := pDst.set 3 (color_quad_u8.set_noclamp_rgba 0 0 0 0)
  (3, pDst)

/-- The function `dxt1_block::get_block_colors4_round`. -/
def dxt1_block.get_block_colors4_round (pDst : List color_quad_u8) (color0 color1 : Nat) :
    Nat × List color_quad_u8 :=
  let c0 := dxt1_block.unpack_color color0 true cDefaultAlpha
  let c1 := dxt1_block.unpack_color color1 true cDefaultAlpha
  let pDst := pDst.set 0 c0
  let pDst := pDst.set 1 c1
  let pDst := pDst.set 2 (color_quad_u8.set_noclamp_rgba
    ((c0.r * 2 + c1.r + 1) / 3) ((c0.g * 2 + c1.g + 1) / 3) ((c0.b * 2 + c1.b + 1) / 3) 255)
  let pDst := pDst.set 3 (color_quad_u8.set_noclamp_rgba
    ((c1.r * 2 + c0.r + 1) / 3) ((c1.g * 2 + c0.g + 1) / 3) ((c1.b * 2 + c0.b + 1) / 3) 255)
  (4, pDst)

/-- The function `dxt1_block::get_block_colors`. -/
def dxt1_block.get_block_colors (pDst : List color_quad_u8) (color0 color1 : Nat) :
    Nat × List color_quad_u8 :=
  if color0 > color1 then dxt1_block.get_block_colors4 pDst color0 color1
  else dxt1_block.get_block_colors3 pDst color0 color1

/-- The function `dxt1_block::get_block_colors_round`. -/
def dxt1_block.get_block_colors_round (pDst : List color_quad_u8) (color0 color1 : Nat) :
    Nat × List color_quad_u8 :=
  if color0 > color1 then dxt1_block.get_block_colors4_round pDst color0 color1
  else dxt1_block.get_block_colors3_round pDst color0 color1

/-! ## DXT5 alpha ramps (`vogl_dxt.cpp` 347-425) -/

/-- The assignment `pDst[i].a = static_cast<uint8_t>(v)`: only the alpha
channel of entry `i` is written. -/
def set_a (pDst : List color_quad_u8) (i v : Nat) : List color_quad_u8 :=
  match pDst[i]? with
  | some c => pDst.set i { c with a := u8 v }
  | none => pDst

/-- The function `dxt5_block::get_block_values6(color_quad_u8 *, uint32_t, uint32_t)`. -/
def dxt5_block.get_block_values6_quad (pDst : List color_quad_u8) (l h : Nat) :
    Nat × List color_quad_u8 :=
  let pDst := set_a pDst 0 l
  let pDst := set_a pDst 1 h
  let pDst := set_a pDst 2 (u32 (l * 4 + h) / 5)
  let pDst := set_a pDst 3 (u32 (l * 3 + h * 2) / 5)
  let pDst := set_a pDst 4 (u32 (l * 2 + h * 3) / 5)
  let pDst := set_a pDst 5 (u32 (l + h * 4) / 5)
  let pDst := set_a pDst 6 0
  let pDst := set_a pDst 7 255
  (6, pDst)

/-- The function `dxt5_block::get_block_values8(color_quad_u8 *, uint32_t, uint32_t)`. -/
def dxt5_block.get_block_values8_quad (pDst : List color_quad_u8) (l h : Nat) :
    Nat × List color_quad_u8 :=
  let pDst := set_a pDst 0 l
  let pDst := set_a pDst 1 h
  let pDst := set_a pDst 2 (u32 (l * 6 + h) / 7)
  let pDst := set_a pDst 3 (u32 (l * 5 + h * 2) / 7)
  let pDst := set_a pDst 4 (u32 (l * 4 + h * 3) / 7)
  let pDst := set_a pDst 5 (u32 (l * 3 + h * 4) / 7)
  let pDst := set_a pDst 6 (u32 (l * 2 + h * 5) / 7)
  let pDst := set_a pDst 7 (u32 (l + h * 6) / 7)
  (8, pDst)

/-- The function `dxt5_block::get_block_values(color_quad_u8 *, uint32_t, uint32_t)`. -/
def dxt5_block.get_block_values_quad (pDst : List color_quad_u8) (l h : Nat) :
    Nat × List color_quad_u8 :=
  if l > h then dxt5_block.get_block_values8_quad pDst l h
  else dxt5_block.get_block_values6_quad pDst l h

/-- The function `dxt5_block::get_block_values6(uint32_t *, uint32_t, uint32_t)`. -/
def dxt5_block.get_block_values6 (pDst : List Nat) (l h : Nat) : Nat × List Nat :=
  let pDst := pDst.set 0 l
  let pDst := pDst.set 1 h
  let pDst := pDst.set 2 (u32 (l * 4 + h) / 5)
  let pDst := pDst.set 3 (u32 (l * 3 + h * 2) / 5)
  let pDst := pDst.set 4 (u32 (l * 2 + h * 3) / 5)
  let pDst := pDst.set 5 (u32 (l + h * 4) / 5)
  let pDst := pDst.set 6 0
  let pDst := pDst.set 7 255
  (6, pDst)

/-- The function `dxt5_block::get_block_values8(uint32_t *, uint32_t, uint32_t)`. -/
def dxt5_block.get_block_values8 (pDst : List Nat) (l h : Nat) : Nat × List Nat :=
  let pDst := pDst.set 0 l
  let pDst := pDst.set 1 h
  let pDst := pDst.set 2 (u32 (l * 6 + h) / 7)
  let pDst := pDst.set 3 (u32 (l * 5 + h * 2) / 7)
  let pDst := pDst.set 4 (u32 (l * 4 + h * 3) / 7)
  let pDst := pDst.set 5 (u32 (l * 3 + h * 4) / 7)
  let pDst := pDst.set 6 (u32 (l * 2 + h * 5) / 7)
  let pDst := pDst.set 7 (u32 (l + h * 6) / 7)
  (8, pDst)

/-- The function `dxt5_block::get_block_values(uint32_t *, uint32_t, uint32_t)`. -/
def dxt5_block.get_block_values (pDst : List Nat) (l h : Nat) : Nat × List Nat :=
  if l > h then dxt5_block.get_block_values8 pDst l h
  else dxt5_block.get_block_values6 pDst l h

/-! ## Selector tables (`vogl_dxt.cpp` 37-46) -/

/-- The table `g_dxt5_from_linear`. -/
def g_dxt5_from_linear : List Nat := [0, 2, 3, 4, 5, 6, 7, 1]

/-- The table `g_dxt5_to_linear`. -/
def g_dxt5_to_linear : List Nat := [0, 7, 1, 2, 3, 4, 5, 6]

/-- The table `g_dxt5_alpha6_to_linear`. -/
def g_dxt5_alpha6_to_linear : List Nat := [0, 5, 1, 2, 3, 4, 0, 0]

/-- The table `g_dxt1_from_linear`. -/
def g_dxt1_from_linear : List Nat := [0, 2, 3, 1]

/-- The table `g_dxt1_to_linear`. -/
def g_dxt1_to_linear : List Nat := [0, 3, 1, 2]

/-- The table `g_six_alpha_invert_table`. -/
def g_six_alpha_invert_table : List Nat := [1, 0, 5, 4, 3, 2, 6, 7]

/-- The table `g_eight_alpha_invert_table`. -/
def g_eight_alpha_invert_table : List Nat := [1, 0, 7, 6, 5, 4, 3, 2]

/-- The composition `t2[t1[i]]` of two table lookups; `none` when a lookup
leaves its table. -/
def lookup2 (t1 t2 : List Nat) (i : Nat) : Option Nat :=
  match t1[i]? with
  | some j => t2[j]?
  | none => none

/-! ## DXT3 explicit alpha (`vogl_dxt.cpp` 309-345) -/

/-- Modelled from the spec: the constant `cDXTBlockSize` of the missing header
`vogl_dxt.h`; a block is a "4x4 texel tile". -/
def cDXTBlockSize : Nat := 4

/-- Modelled from the spec: the macro `VOGL_ASSERT` (header `vogl_assert.h`,
not among the sources) makes the call "fail fast (assertion)" when its
condition is false. A method that may hit an assertion therefore ends in one
of two ways: `ok s`, with the state `s` of the object after the call, or
`assert_failed s`, with the state of the object at the failed assertion. -/
inductive Outcome (σ : Type) where
  | ok (s : σ)
  | assert_failed (s : σ)
deriving DecidableEq

/-- The conversion of the `int` value `~x` to `uint32_t`, for `0 ≤ x < 2 ^ 32`. -/
def not32 (x : Nat) : Nat := 2 ^ 32 - 1 - x

/-- Lines 323-329 of `dxt3_block::set_alpha`: the read-modify-write of the
byte that holds texel (x, y). `m_alpha` is the 8-byte array of the block. -/
def dxt3_block.set_alpha_store (m_alpha : List Nat) (x y value : Nat) : List Nat :=
  let ofs := (y <<< 1) + (x >>> 1)
  let c := m_alpha.getD ofs 0
  let c := c &&& not32 (0xF <<< ((x &&& 1) <<< 2))
  let c := c ||| (value <<< ((x &&& 1) <<< 2))
  m_alpha.set ofs (u8 c)

/-- The function `dxt3_block::set_alpha`. Every assertion precedes the store;
past the assertions `x, y < 4` and `value ≤ 255`, so no 32-bit operation of
the body can wrap. -/
def dxt3_block.set_alpha (m_alpha : List Nat) (x y value : Nat) (scaled : Bool) :
    Outcome (List Nat) :=
  if x < cDXTBlockSize ∧ y < cDXTBlockSize then
    if scaled then
      if value ≤ 0xFF then
        Outcome.ok (dxt3_block.set_alpha_store m_alpha x y ((value * 15 + 128) / 255))
      else Outcome.assert_failed m_alpha
    else
      if value ≤ 0xF then Outcome.ok (dxt3_block.set_alpha_store m_alpha x y value)
      else Outcome.assert_failed m_alpha
  else Outcome.assert_failed m_alpha

/-- The function `dxt3_block::get_alpha` (a `const` method: the array is only
read); `none` is the failed assertion. -/
def dxt3_block.get_alpha (m_alpha : List Nat) (x y : Nat) (scaled : Bool) : Option Nat :=
  if x < cDXTBlockSize ∧ y < cDXTBlockSize then
    let value := m_alpha.getD ((y <<< 1) + (x >>> 1)) 0
    let value := if x &&& 1 ≠ 0 then value >>> 4 else value
    let value := value &&& 0xF
    let value := if scaled then (value <<< 4) ||| value else value
    some value
  else none

/-! ## Format metadata (`vogl_dxt.cpp` 48-130) -/

/-- Modelled from the spec: the enumeration `dxt_format` of the missing
header `vogl_dxt.h`. The code names eight format tags; `other` stands for
every other value a `dxt_format` argument can hold, `tag` being its
underlying integer. -/
inductive dxt_format where
  | cDXT1
  | cDXT1A
  | cDXT3
  | cDXT5
  | cDXT5A
  | cDXN_XY
  | cDXN_YX
  | cETC1
  | other (tag : Int)
deriving DecidableEq

/-- The function `get_dxt_format_string`. A tag that leaves the `switch`
through `default` reaches `VOGL_ASSERT(false)`, the result `none`. -/
def get_dxt_format_string (fmt : dxt_format) : Option String :=
  match fmt with
  | dxt_format.cDXT1 => some "DXT1"
  | dxt_format.cDXT1A => some "DXT1A"
  | dxt_format.cDXT3 => some "DXT3"
  | dxt_format.cDXT5 => some "DXT5"
  | dxt_format.cDXT5A => some "DXT5A"
  | dxt_format.cDXN_XY => some "DXN_XY"
  | dxt_format.cDXN_YX => some "DXN_YX"
  | dxt_format.cETC1 => some "ETC1"
  | dxt_format.other _ => none

/-- The function `get_dxt_format_bits_per_pixel`; `none` is the
`VOGL_ASSERT(false)` behind the `switch`. -/
def get_dxt_format_bits_per_pixel (fmt : dxt_format) : Option Nat :=
  match fmt with
  | dxt_format.cDXT1 => some 4
  | dxt_format.cDXT1A => some 4
  | dxt_format.cDXT5A => some 4
  | dxt_format.cETC1 => some 4
  | dxt_format.cDXT3 => some 8
  | dxt_format.cDXT5 => some 8
  | dxt_format.cDXN_XY => some 8
  | dxt_format.cDXN_YX => some 8
  | dxt_format.other _ => none

/-- The function `get_dxt_format_has_alpha`. Its `switch` names four tags;
every other tag leaves through `default` and reaches `return false`. There
is no `VOGL_ASSERT` in this function, so the result is never `none`. -/
def get_dxt_format_has_alpha (fmt : dxt_format) : Option Bool :=
  match fmt with
  | dxt_format.cDXT1A => some true
  | dxt_format.cDXT3 => some true
  | dxt_format.cDXT5 => some true
  | dxt_format.cDXT5A => some true
  | _ => some false

/-! ## Endpoint words (`vogl_dxt.cpp` 297-307, 407-417) -/

/-- The function `dxt1_block::unpack_endpoint`; `none` is the failed
`VOGL_ASSERT(index < 2)`. -/
def dxt1_block.unpack_endpoint (endpoints index : Nat) (scaled : Bool) (alpha : Nat) :
    Option color_quad_u8 :=
  if index < 2 then
    some (dxt1_block.unpack_color (u16 ((endpoints >>> (index * 16)) &&& 0xFFFF)) scaled alpha)
  else none

/-- The function `dxt1_block::pack_endpoints`; `none` is the failed assertion. -/
def dxt1_block.pack_endpoints (lo hi : Nat) : Option Nat :=
  if lo ≤ 0xFFFF ∧ hi ≤ 0xFFFF then some (lo ||| u32 (hi <<< 16)) else none

/-- The function `dxt5_block::unpack_endpoint`; `none` is the failed
`VOGL_ASSERT(index < 2)`. -/
def dxt5_block.unpack_endpoint (packed index : Nat) : Option Nat :=
  if index < 2 then some ((packed >>> (8 * index)) &&& 0xFF) else none

/-- The function `dxt5_block::pack_endpoints`; `none` is the failed assertion. -/
def dxt5_block.pack_endpoints (lo hi : Nat) : Option Nat :=
  if lo ≤ 0xFF ∧ hi ≤ 0xFF then some (lo ||| u32 (hi <<< 8)) else none

/-! ## The NV5x palette (`vogl_dxt.cpp` 181-222) -/

/-- The conversion of an `int` value to `uint8_t`. -/
def u8i (x : Int) : Nat := (x % 256).toNat

/-- The assignment `pDst[i].r = v`. -/
def set_r (pDst : List color_quad_u8) (i v : Nat) : List color_quad_u8 :=
  match pDst[i]? with
  | some c => pDst.set i { c with r := u8 v }
  | none => pDst

/-- The assignment `pDst[i].g = v`. -/
def set_g (pDst : List color_quad_u8) (i v : Nat) : List color_quad_u8 :=
  match pDst[i]? with
  | some c => pDst.set i { c with g := u8 v }
  | none => pDst

/-- The assignment `pDst[i].b = v`. -/
def set_b (pDst : List color_quad_u8) (i v : Nat) : List color_quad_u8 :=
  match pDst[i]? with
  | some c => pDst.set i { c with b := u8 v }
  | none => pDst

/-- The read `pDst[i].g`. -/
def get_g (pDst : List color_quad_u8) (i : Nat) : Nat :=
  match pDst[i]? with
  | some c => c.g
  | none => 0

/-- The function `dxt1_block::get_block_colors_NV5x`. The red and blue
expressions are sums of non-negative `int`s; `gdiff` and the green
expressions are signed, and `/` on them is the C division, which truncates
toward zero (`Int.tdiv`). -/
def dxt1_block.get_block_colors_NV5x (pDst : List color_quad_u8)
    (packed_col0 packed_col1 : Nat) (color4 : Bool) : List color_quad_u8 :=
  let col0 := dxt1_block.unpack_color packed_col0 false cDefaultAlpha
  let col1 := dxt1_block.unpack_color packed_col1 false cDefaultAlpha
  let pDst := set_r pDst 0 ((3 * col0.r * 22) / 8)
  let pDst := set_b pDst 0 ((3 * col0.b * 22) / 8)
  let pDst := set_g pDst 0 ((col0.g <<< 2) ||| (col0.g >>> 4))
  let pDst := set_a pDst 0 0xFF
  let pDst := set_r pDst 1 ((3 * col1.r * 22) / 8)
  let pDst := set_g pDst 1 ((col1.g <<< 2) ||| (col1.g >>> 4))
  let pDst := set_b pDst 1 ((3 * col1.b * 22) / 8)
  let pDst := set_a pDst 1 0xFF
  let gdiff : Int := (get_g pDst 1 : Int) - (get_g pDst 0 : Int)
  if color4 then
    let pDst := set_r pDst 2 (((2 * col0.r + col1.r) * 22) / 8)
    let pDst := set_g pDst 2
      (u8i ((256 * (get_g pDst 0 : Int) + gdiff.tdiv 4 + 128 + gdiff * 80).tdiv 256))
    let pDst := set_b pDst 2 (((2 * col0.b + col1.b) * 22) / 8)
    let pDst := set_a pDst 2 0xFF
    let pDst := set_r pDst 3 (((2 * col1.r + col0.r) * 22) / 8)
    let pDst := set_g pDst 3
      (u8i ((256 * (get_g pDst 1 : Int) - gdiff.tdiv 4 + 128 - gdiff * 80).tdiv 256))
    let pDst := set_b pDst 3 (((2 * col1.b + col0.b) * 22) / 8)
    let pDst := set_a pDst 3 0xFF
    pDst
  else
    let pDst := set_r pDst 2 (((col0.r + col1.r) * 33) / 8)
    let pDst := set_g pDst 2
      (u8i ((256 * (get_g pDst 0 : Int) + gdiff.tdiv 4 + 128 + gdiff * 128).tdiv 256))
    let pDst := set_b pDst 2 (((col0.b + col1.b) * 33) / 8)
    let pDst := set_a pDst 2 0xFF
    let pDst := set_r pDst 3 0x00
    let pDst := set_g pDst 3 0x00
    let pDst := set_b pDst 3 0x00
    let pDst := set_a pDst 3 0x00
    pDst

/-! ## The optional native decoder (`pxfmt_s3tc.cpp` 47-251) -/

/-- Modelled from the spec: the enumeration `pxfmt_sized_format` of the
missing header `pxfmt.h`. `decompress_dxt` names four tags; `other` stands
for every other value. -/
inductive pxfmt_sized_format where
  | PXFMT_COMPRESSED_RGB_DXT1
  | PXFMT_COMPRESSED_RGBA_DXT1
  | PXFMT_COMPRESSED_RGBA_DXT3
  | PXFMT_COMPRESSED_RGBA_DXT5
  | other (tag : Int)
deriving DecidableEq

/-- The type `ext_dxt_decomp_func`: a fetch function of the native library
gets `src_row_stride`, `pSrc`, `x`, `y` and the buffer behind `pDst`, and
leaves that buffer as its result. -/
abbrev ext_dxt_decomp_func : Type := Nat → List Nat → Int → Int → List Nat → List Nat

/-- The dynamic loader of the platform as the process sees it: what
`dlopen` and `dlsym` answer. `none` is the null pointer. -/
structure Loader where
  dlopen : String → Option Nat
  dlsym : Nat → String → Option ext_dxt_decomp_func

/-- One call of the loader. -/
inductive LoaderCall where
  | dlopen (libname : String)
  | dlsym (handle : Nat) (fname : String)
  | dlclose (handle : Nat)
deriving DecidableEq

/-- The file-scope variables of `pxfmt_s3tc.cpp`, and with them the calls of
the loader made so far (oldest first), which the code does not store. -/
structure PluginState where
  external_dxt_library_initialized : Bool
  external_dxt_functions_loaded : Bool
  ext_decomp_rgb_dxt1 : Option ext_dxt_decomp_func
  ext_decomp_rgba_dxt1 : Option ext_dxt_decomp_func
  ext_decomp_rgba_dxt3 : Option ext_dxt_decomp_func
  ext_decomp_rgba_dxt5 : Option ext_dxt_decomp_func
  dxtlibhandle : Option Nat
  loader_calls : List LoaderCall

/-- The initial values of the file-scope variables. -/
def PluginState.initial : PluginState :=
  { external_dxt_library_initialized := false
    external_dxt_functions_loaded := false
    ext_decomp_rgb_dxt1 := none
    ext_decomp_rgba_dxt1 := none
    ext_decomp_rgba_dxt3 := none
    ext_decomp_rgba_dxt5 := none
    dxtlibhandle := none
    loader_calls := [] }

/-- The macro `DXTN_LIBNAME` (its value outside Windows and DJGPP). -/
def DXTN_LIBNAME : String := "libtxc_dxtn.so"

/-- The function `init_external_dxt_library`. -/
def init_external_dxt_library (ld : Loader) (s : PluginState) : PluginState :=
  let s := { s with external_dxt_library_initialized := true }
  match s.dxtlibhandle with
  | some _ => s
  | none =>
    let s := { s with
      dxtlibhandle := ld.dlopen DXTN_LIBNAME
      loader_calls := s.loader_calls ++ [LoaderCall.dlopen DXTN_LIBNAME] }
    match s.dxtlibhandle with
    | none => s
    | some h =>
      let s := { s with
        ext_decomp_rgb_dxt1 := ld.dlsym h "fetch_2d_texel_rgb_dxt1"
        ext_decomp_rgba_dxt1 := ld.dlsym h "fetch_2d_texel_rgba_dxt1"
        ext_decomp_rgba_dxt3 := ld.dlsym h "fetch_2d_texel_rgba_dxt3"
        ext_decomp_rgba_dxt5 := ld.dlsym h "fetch_2d_texel_rgba_dxt5"
        loader_calls := s.loader_calls ++
          [LoaderCall.dlsym h "fetch_2d_texel_rgb_dxt1",
           LoaderCall.dlsym h "fetch_2d_texel_rgba_dxt1",
           LoaderCall.dlsym h "fetch_2d_texel_rgba_dxt3",
           LoaderCall.dlsym h "fetch_2d_texel_rgba_dxt5"] }
      if s.ext_decomp_rgb_dxt1.isNone || s.ext_decomp_rgba_dxt1.isNone ||
          s.ext_decomp_rgba_dxt3.isNone || s.ext_decomp_rgba_dxt5.isNone then
        { s with
          ext_decomp_rgb_dxt1 := none
          ext_decomp_rgba_dxt1 := none
          ext_decomp_rgba_dxt3 := none
          ext_decomp_rgba_dxt5 := none
          loader_calls := s.loader_calls ++ [LoaderCall.dlclose h] }
      else
        { s with external_dxt_functions_loaded := true }

/-- A call through a function pointer; `none` is the call of a null pointer. -/
def call_decomp (f : Option ext_dxt_decomp_func) (row_stride : Nat) (pSrc : List Nat)
    (x y : Int) (tex : List Nat) : Option (List Nat) :=
  match f with
  | some g => some (g row_stride pSrc x y tex)
  | none => none

/-- The function `decompress_dxt`. `F` is the type `float` and
`UBYTE_TO_FLOAT` the macro of that name, both left open; `tex` is the content
of the uninitialised local array `tex[4]` when the call begins. The result is
the state and the `intermediate` array after the call, `none` when the call
goes through a null function pointer. -/
def decompress_dxt {F : Type} (UBYTE_TO_FLOAT : Nat → F) (ld : Loader) (s : PluginState)
    (intermediate : List F) (pSrc : List Nat) (row_stride : Nat) (x y : Int)
    (fmt : pxfmt_sized_format) (tex : List Nat) : Option (PluginState × List F) :=
  let s := if !s.external_dxt_library_initialized then init_external_dxt_library ld s else s
  if s.external_dxt_functions_loaded then
    let fetched :=
      match fmt with
      | pxfmt_sized_format.PXFMT_COMPRESSED_RGB_DXT1 =>
          call_decomp s.ext_decomp_rgb_dxt1 row_stride pSrc x y tex
      | pxfmt_sized_format.PXFMT_COMPRESSED_RGBA_DXT1 =>
          call_decomp s.ext_decomp_rgba_dxt1 row_stride pSrc x y tex
      | pxfmt_sized_format.PXFMT_COMPRESSED_RGBA_DXT3 =>
          call_decomp s.ext_decomp_rgba_dxt3 row_stride pSrc x y tex
      | pxfmt_sized_format.PXFMT_COMPRESSED_RGBA_DXT5 =>
          call_decomp s.ext_decomp_rgba_dxt5 row_stride pSrc x y tex
      | pxfmt_sized_format.other _ => some tex
    match fetched with
    | none => none
    | some tex =>
      let intermediate := intermediate.set 0 (UBYTE_TO_FLOAT (tex.getD 0 0))
      let intermediate := intermediate.set 1 (UBYTE_TO_FLOAT (tex.getD 1 0))
      let intermediate := intermediate.set 2 (UBYTE_TO_FLOAT (tex.getD 2 0))
      let intermediate := intermediate.set 3 (UBYTE_TO_FLOAT (tex.getD 3 0))
      some (s, intermediate)
  else some (s, intermediate)

/-- One call from outside the file: the two functions of `pxfmt_s3tc.cpp`
with external linkage. -/
inductive PluginCall (F : Type) where
  | init
  | decompress (intermediate : List F) (pSrc : List Nat) (row_stride : Nat) (x y : Int)
      (fmt : pxfmt_sized_format) (tex : List Nat)

/-- The state after one call; a call through a null pointer ends the run. -/
def plugin_step {F : Type} (UBYTE_TO_FLOAT : Nat → F) (ld : Loader) (s : PluginState)
    (c : PluginCall F) : Option PluginState :=
  match c with
  | PluginCall.init => some (init_external_dxt_library ld s)
  | PluginCall.decompress intermediate pSrc row_stride x y fmt tex =>
      (decompress_dxt UBYTE_TO_FLOAT ld s intermediate pSrc row_stride x y fmt tex).map Prod.fst

/-- The state after a sequence of calls, starting in state `s`. -/
def plugin_run {F : Type} (UBYTE_TO_FLOAT : Nat → F) (ld : Loader) (s : PluginState) :
    List (PluginCall F) → Option PluginState
  | [] => some s
  | c :: cs =>
    match plugin_step UBYTE_TO_FLOAT ld s c with
    | some s1 => plugin_run UBYTE_TO_FLOAT ld s1 cs
    | none => none

/-- A loader for examples: the library opens as handle 7 and has every fetch
symbol except `fetch_2d_texel_rgba_dxt5`. -/
def loader_missing_dxt5 : Loader :=
  { dlopen := fun _ => some 7
    dlsym := fun _ name =>
      if name = "fetch_2d_texel_rgba_dxt5" then none else some (fun _ _ _ _ tex => tex) }

/-- The invariant of the file-scope variables of `pxfmt_s3tc.cpp` under a
loader `ld`: the flag `external_dxt_functions_loaded` is true only with four
non-null function pointers and only after symbol lookups that all succeeded,
it is false only with four null pointers, and while `dxtlibhandle` is null
nothing has been loaded or looked up. -/
def PluginInv (ld : Loader) (s : PluginState) : Prop :=
  (s.external_dxt_functions_loaded = true →
    (s.ext_decomp_rgb_dxt1.isSome = true ∧ s.ext_decomp_rgba_dxt1.isSome = true ∧
      s.ext_decomp_rgba_dxt3.isSome = true ∧ s.ext_decomp_rgba_dxt5.isSome = true) ∧
    ∀ h n, LoaderCall.dlsym h n ∈ s.loader_calls → (ld.dlsym h n).isSome = true) ∧
  (s.external_dxt_functions_loaded = false →
    s.ext_decomp_rgb_dxt1.isNone = true ∧ s.ext_decomp_rgba_dxt1.isNone = true ∧
      s.ext_decomp_rgba_dxt3.isNone = true ∧ s.ext_decomp_rgba_dxt5.isNone = true) ∧
  (s.dxtlibhandle = none →
    s.external_dxt_functions_loaded = false ∧
    ∀ h n, LoaderCall.dlsym h n ∉ s.loader_calls)

/-! ## Auxiliary facts -/

theorem u8_of_le {x : Nat} (h : x ≤ 255) : u8 x = x := by
  unfold u8; omega

theorem minimum_eq_min (a b : Nat) : math.minimum a b = min a b := by
  unfold math.minimum; split <;> omega

theorem expand5_le : ∀ v < 32, (v <<< 3) ||| (v >>> 2) ≤ 255 := by decide

theorem expand6_le : ∀ v < 64, (v <<< 2) ||| (v >>> 4) ≤ 255 := by decide

theorem and31_lt (p : Nat) : p &&& 31 < 32 := Nat.and_lt_two_pow p (n := 5) (by decide)

theorem and63_lt (p : Nat) : p &&& 63 < 64 := Nat.and_lt_two_pow p (n := 6) (by decide)

/-- What `unpack_color` returns, with the narrowing conversions of the color
constructor discharged: no channel is changed by them. -/
theorem unpack_color_eq (p : Nat) (scaled : Bool) (a : Nat) :
    dxt1_block.unpack_color p scaled a =
      { r := if scaled then ((p >>> 11 &&& 31) <<< 3) ||| ((p >>> 11 &&& 31) >>> 2)
             else p >>> 11 &&& 31,
        g := if scaled then ((p >>> 5 &&& 63) <<< 2) ||| ((p >>> 5 &&& 63) >>> 4)
             else p >>> 5 &&& 63,
        b := if scaled then ((p &&& 31) <<< 3) ||| ((p &&& 31) >>> 2) else p &&& 31,
        a := min a 255 } := by
  have hb := and31_lt p
  have hg := and63_lt (p >>> 5)
  have hr := and31_lt (p >>> 11)
  have eb := expand5_le _ hb
  have eg := expand6_le _ hg
  have er := expand5_le _ hr
  cases scaled
  · simp only [dxt1_block.unpack_color, color_quad_u8.set_noclamp_rgba, minimum_eq_min]
    simp only [Bool.false_eq_true, if_false]
    rw [u8_of_le (by omega), u8_of_le (by omega), u8_of_le (by omega), u8_of_le (by omega)]
  · simp only [dxt1_block.unpack_color, color_quad_u8.set_noclamp_rgba, minimum_eq_min]
    simp only [if_true]
    rw [u8_of_le er, u8_of_le eg, u8_of_le eb, u8_of_le (by omega)]

theorem unpack_color_le (p : Nat) (scaled : Bool) (a : Nat) :
    (dxt1_block.unpack_color p scaled a).r ≤ 255 ∧ (dxt1_block.unpack_color p scaled a).g ≤ 255 ∧
    (dxt1_block.unpack_color p scaled a).b ≤ 255 ∧ (dxt1_block.unpack_color p scaled a).a ≤ 255 := by
  have hb := and31_lt p
  have hg := and63_lt (p >>> 5)
  have hr := and31_lt (p >>> 11)
  have eb := expand5_le _ hb
  have eg := expand6_le _ hg
  have er := expand5_le _ hr
  rw [unpack_color_eq]
  cases scaled
  · simp only [Bool.false_eq_true, if_false]; omega
  · simp only [if_true]; omega

theorem length_four {α : Type} (l : List α) (h : l.length = 4) :
    ∃ a b c d, l = [a, b, c, d] := by
  match l, h with
  | [a, b, c, d], _ => exact ⟨a, b, c, d, rfl⟩

/-! ## DXT1 palettes -/

/-- C1. For every pair of packed endpoints and every four-entry destination,
get_block_colors4 returns 4 and leaves the palette [c0, c1, E2, E3], where
c0, c1 are unpack_color of the two endpoints (scaled) and per channel
E2 = (c0*2 + c1) / 3 and E3 = (c1*2 + c0) / 3 with truncating division, and
every entry has alpha 255. -/
theorem get_block_colors4_spec (pDst : List color_quad_u8) (color0 color1 : Nat)
    (c0 c1 : color_quad_u8) (hlen : pDst.length = 4)
    (h0 : c0 = dxt1_block.unpack_color color0 true 255)
    (h1 : c1 = dxt1_block.unpack_color color1 true 255) :
    dxt1_block.get_block_colors4 pDst color0 color1 =
      (4, [c0, c1,
           ⟨(c0.r * 2 + c1.r) / 3, (c0.g * 2 + c1.g) / 3, (c0.b * 2 + c1.b) / 3, 255⟩,
           ⟨(c1.r * 2 + c0.r) / 3, (c1.g * 2 + c0.g) / 3, (c1.b * 2 + c0.b) / 3, 255⟩]) ∧
    c0.a = 255 ∧ c1.a = 255 := by
  subst h0 h1
  obtain ⟨w, x, y, z, rfl⟩ := length_four pDst hlen
  obtain ⟨h0r, h0g, h0b, -⟩ := unpack_color_le color0 true 255
  obtain ⟨h1r, h1g, h1b, -⟩ := unpack_color_le color1 true 255
  refine ⟨?_, ?_, ?_⟩
  · simp only [dxt1_block.get_block_colors4, cDefaultAlpha, List.set,
      color_quad_u8.set_noclamp_rgba]
    rw [u8_of_le (by omega), u8_of_le (by omega), u8_of_le (by omega), u8_of_le (by omega),
      u8_of_le (by omega), u8_of_le (by omega), u8_of_le (by omega)]
  · simp [unpack_color_eq]
  · simp [unpack_color_eq]

/-- Witness of C1: endpoints 0xFFFF and 0x0000 give entry 1 = (0,0,0,255) and
entry 2 = (170,170,170,255). -/
theorem get_block_colors4_spec_witness :
    ([⟨1, 2, 3, 4⟩, ⟨5, 6, 7, 8⟩, ⟨9, 10, 11, 12⟩, ⟨13, 14, 15, 16⟩] :
        List color_quad_u8).length = 4 ∧
    (⟨255, 255, 255, 255⟩ : color_quad_u8) = dxt1_block.unpack_color 0xFFFF true 255 ∧
    (⟨0, 0, 0, 255⟩ : color_quad_u8) = dxt1_block.unpack_color 0x0000 true 255 ∧
    dxt1_block.get_block_colors4
        [⟨1, 2, 3, 4⟩, ⟨5, 6, 7, 8⟩, ⟨9, 10, 11, 12⟩, ⟨13, 14, 15, 16⟩] 0xFFFF 0x0000 =
      (4, [⟨255, 255, 255, 255⟩, ⟨0, 0, 0, 255⟩, ⟨170, 170, 170, 255⟩, ⟨85, 85, 85, 255⟩]) :=
  ⟨rfl, rfl, rfl,
    (get_block_colors4_spec [⟨1, 2, 3, 4⟩, ⟨5, 6, 7, 8⟩, ⟨9, 10, 11, 12⟩, ⟨13, 14, 15, 16⟩]
      0xFFFF 0x0000 ⟨255, 255, 255, 255⟩ ⟨0, 0, 0, 255⟩ rfl rfl rfl).1⟩

/-- C2. For every pair of packed endpoints and every four-entry destination,
get_block_colors3 returns 3 and leaves the palette [c0, c1, M, (0,0,0,0)],
where c0, c1 are unpack_color of the two endpoints (scaled) and per channel
M = (c0 + c1) / 2 (truncating) with alpha 255; the fourth entry is transparent
black. -/
theorem get_block_colors3_spec (pDst : List color_quad_u8) (color0 color1 : Nat)
    (c0 c1 : color_quad_u8) (hlen : pDst.length = 4)
    (h0 : c0 = dxt1_block.unpack_color color0 true 255)
    (h1 : c1 = dxt1_block.unpack_color color1 true 255) :
    dxt1_block.get_block_colors3 pDst color0 color1 =
      (3, [c0, c1, ⟨(c0.r + c1.r) / 2, (c0.g + c1.g) / 2, (c0.b + c1.b) / 2, 255⟩,
           ⟨0, 0, 0, 0⟩]) := by
  subst h0 h1
  obtain ⟨w, x, y, z, rfl⟩ := length_four pDst hlen
  obtain ⟨h0r, h0g, h0b, -⟩ := unpack_color_le color0 true 255
  obtain ⟨h1r, h1g, h1b, -⟩ := unpack_color_le color1 true 255
  simp only [dxt1_block.get_block_colors3, cDefaultAlpha, List.set,
    color_quad_u8.set_noclamp_rgba, Nat.shiftRight_eq_div_pow, pow_one]
  rw [u8_of_le (by omega), u8_of_le (by omega), u8_of_le (by omega), u8_of_le (by omega),
    u8_of_le (by omega)]

/-- Witness of C2: endpoints 0x0000 and 0xFFFF (3-color mode). -/
theorem get_block_colors3_spec_witness :
    ([⟨1, 2, 3, 4⟩, ⟨5, 6, 7, 8⟩, ⟨9, 10, 11, 12⟩, ⟨13, 14, 15, 16⟩] :
        List color_quad_u8).length = 4 ∧
    (⟨0, 0, 0, 255⟩ : color_quad_u8) = dxt1_block.unpack_color 0x0000 true 255 ∧
    (⟨255, 255, 255, 255⟩ : color_quad_u8) = dxt1_block.unpack_color 0xFFFF true 255 ∧
    dxt1_block.get_block_colors3
        [⟨1, 2, 3, 4⟩, ⟨5, 6, 7, 8⟩, ⟨9, 10, 11, 12⟩, ⟨13, 14, 15, 16⟩] 0x0000 0xFFFF =
      (3, [⟨0, 0, 0, 255⟩, ⟨255, 255, 255, 255⟩, ⟨127, 127, 127, 255⟩, ⟨0, 0, 0, 0⟩]) :=
  ⟨rfl, rfl, rfl,
    get_block_colors3_spec [⟨1, 2, 3, 4⟩, ⟨5, 6, 7, 8⟩, ⟨9, 10, 11, 12⟩, ⟨13, 14, 15, 16⟩]
      0x0000 0xFFFF ⟨0, 0, 0, 255⟩ ⟨255, 255, 255, 255⟩ rfl rfl rfl⟩

theorem get_block_colors3_fourth (pDst : List color_quad_u8) (color0 color1 : Nat)
    (hlen : pDst.length = 4) :
    (dxt1_block.get_block_colors3 pDst color0 color1).2[3]? = some ⟨0, 0, 0, 0⟩ := by
  obtain ⟨w, x, y, z, rfl⟩ := length_four pDst hlen
  rfl

theorem get_block_colors3_round_fourth (pDst : List color_quad_u8) (color0 color1 : Nat)
    (hlen : pDst.length = 4) :
    (dxt1_block.get_block_colors3_round pDst color0 color1).2[3]? = some ⟨0, 0, 0, 0⟩ := by
  obtain ⟨w, x, y, z, rfl⟩ := length_four pDst hlen
  rfl

/-- C3. get_block_colors and get_block_colors_round select 4-color mode
(return 4, the palette of get_block_colors4 / get_block_colors4_round) exactly
when color0 > color1 as packed integers, and otherwise 3-color mode (return 3,
the palette of get_block_colors3 / get_block_colors3_round); equal endpoints
give 3-color mode with the transparent-black fourth entry. -/
theorem get_block_colors_mode (pDst : List color_quad_u8) (color0 color1 : Nat)
    (hlen : pDst.length = 4) :
    ((dxt1_block.get_block_colors pDst color0 color1).1 = 4 ↔ color0 > color1) ∧
    ((dxt1_block.get_block_colors pDst color0 color1).1 = 3 ↔ color0 ≤ color1) ∧
    (color0 > color1 → dxt1_block.get_block_colors pDst color0 color1 =
        dxt1_block.get_block_colors4 pDst color0 color1) ∧
    (color0 ≤ color1 → dxt1_block.get_block_colors pDst color0 color1 =
        dxt1_block.get_block_colors3 pDst color0 color1) ∧
    ((dxt1_block.get_block_colors_round pDst color0 color1).1 = 4 ↔ color0 > color1) ∧
    ((dxt1_block.get_block_colors_round pDst color0 color1).1 = 3 ↔ color0 ≤ color1) ∧
    (color0 > color1 → dxt1_block.get_block_colors_round pDst color0 color1 =
        dxt1_block.get_block_colors4_round pDst color0 color1) ∧
    (color0 ≤ color1 → dxt1_block.get_block_colors_round pDst color0 color1 =
        dxt1_block.get_block_colors3_round pDst color0 color1) ∧
    (color0 = color1 →
      (dxt1_block.get_block_colors pDst color0 color1).1 = 3 ∧
      (dxt1_block.get_block_colors pDst color0 color1).2[3]? = some ⟨0, 0, 0, 0⟩ ∧
      (dxt1_block.get_block_colors_round pDst color0 color1).1 = 3 ∧
      (dxt1_block.get_block_colors_round pDst color0 color1).2[3]? = some ⟨0, 0, 0, 0⟩) := by
  have h3 := get_block_colors3_fourth pDst color0 color1 hlen
  have h3r := get_block_colors3_round_fourth pDst color0 color1 hlen
  have e4 : (dxt1_block.get_block_colors4 pDst color0 color1).1 = 4 := rfl
  have e3 : (dxt1_block.get_block_colors3 pDst color0 color1).1 = 3 := rfl
  have e4r : (dxt1_block.get_block_colors4_round pDst color0 color1).1 = 4 := rfl
  have e3r : (dxt1_block.get_block_colors3_round pDst color0 color1).1 = 3 := rfl
  unfold dxt1_block.get_block_colors dxt1_block.get_block_colors_round
  by_cases hgt : color0 > color1
  · rw [if_pos hgt, if_pos hgt, e4, e4r]
    exact ⟨⟨fun _ => hgt, fun _ => rfl⟩, ⟨fun h => by omega, fun h => by omega⟩,
      fun _ => rfl, fun h => by omega,
      ⟨fun _ => hgt, fun _ => rfl⟩, ⟨fun h => by omega, fun h => by omega⟩,
      fun _ => rfl, fun h => by omega, fun h => by omega⟩
  · rw [if_neg hgt, if_neg hgt, e3, e3r]
    exact ⟨⟨fun h => by omega, fun h => by omega⟩, ⟨fun _ => by omega, fun _ => rfl⟩,
      fun h => by omega, fun _ => rfl,
      ⟨fun h => by omega, fun h => by omega⟩, ⟨fun _ => by omega, fun _ => rfl⟩,
      fun h => by omega, fun _ => rfl, fun _ => ⟨rfl, h3, rfl, h3r⟩⟩

/-- Witness of C3: the equal endpoints 0x1234, 0x1234 select 3-color mode. -/
theorem get_block_colors_mode_witness :
    ([⟨1, 2, 3, 4⟩, ⟨5, 6, 7, 8⟩, ⟨9, 10, 11, 12⟩, ⟨13, 14, 15, 16⟩] :
        List color_quad_u8).length = 4 ∧ (0x1234 : Nat) = 0x1234 ∧
    (dxt1_block.get_block_colors
        [⟨1, 2, 3, 4⟩, ⟨5, 6, 7, 8⟩, ⟨9, 10, 11, 12⟩, ⟨13, 14, 15, 16⟩] 0x1234 0x1234).1 = 3 ∧
    (dxt1_block.get_block_colors
        [⟨1, 2, 3, 4⟩, ⟨5, 6, 7, 8⟩, ⟨9, 10, 11, 12⟩, ⟨13, 14, 15, 16⟩] 0x1234 0x1234).2[3]? =
      some ⟨0, 0, 0, 0⟩ ∧
    (dxt1_block.get_block_colors_round
        [⟨1, 2, 3, 4⟩, ⟨5, 6, 7, 8⟩, ⟨9, 10, 11, 12⟩, ⟨13, 14, 15, 16⟩] 0x1234 0x1234).1 = 3 ∧
    (dxt1_block.get_block_colors_round
        [⟨1, 2, 3, 4⟩, ⟨5, 6, 7, 8⟩, ⟨9, 10, 11, 12⟩, ⟨13, 14, 15, 16⟩] 0x1234 0x1234).2[3]? =
      some ⟨0, 0, 0, 0⟩ :=
  ⟨rfl, rfl, (get_block_colors_mode
    [⟨1, 2, 3, 4⟩, ⟨5, 6, 7, 8⟩, ⟨9, 10, 11, 12⟩, ⟨13, 14, 15, 16⟩] 0x1234 0x1234 rfl).2.2.2.2.2.2.2.2 rfl⟩

/-! ## DXT5 alpha ramps -/

theorem length_eight {α : Type} (l : List α) (h : l.length = 8) :
    ∃ a b c d e f g i, l = [a, b, c, d, e, f, g, i] := by
  match l, h with
  | [a, b, c, d, e, f, g, i], _ => exact ⟨a, b, c, d, e, f, g, i, rfl⟩

theorem u32_of_lt {x : Nat} (h : x < 4294967296) : u32 x = x := by
  unfold u32; omega

/-- C4. For all alpha endpoints l, h in 0..255 and every eight-entry
destination, the integer get_block_values8 returns 8 and leaves the ramp
[l, h, (l*6+h)/7, (l*5+h*2)/7, (l*4+h*3)/7, (l*3+h*4)/7, (l*2+h*5)/7,
(l+h*6)/7] with truncating division. -/
theorem get_block_values8_spec (pDst : List Nat) (l h : Nat)
    (hlen : pDst.length = 8) (hl : l ≤ 255) (hh : h ≤ 255) :
    dxt5_block.get_block_values8 pDst l h =
      (8, [l, h, (l * 6 + h) / 7, (l * 5 + h * 2) / 7, (l * 4 + h * 3) / 7,
           (l * 3 + h * 4) / 7, (l * 2 + h * 5) / 7, (l + h * 6) / 7]) := by
  obtain ⟨a, b, c, d, e, f, g, i, rfl⟩ := length_eight pDst hlen
  simp only [dxt5_block.get_block_values8, List.set]
  rw [u32_of_lt (by omega), u32_of_lt (by omega), u32_of_lt (by omega), u32_of_lt (by omega),
    u32_of_lt (by omega), u32_of_lt (by omega)]

/-- Witness of C4: l = 255, h = 0 gives entry 3 = 182. -/
theorem get_block_values8_spec_witness :
    ([9, 9, 9, 9, 9, 9, 9, 9] : List Nat).length = 8 ∧ 255 ≤ 255 ∧ 0 ≤ 255 ∧
    dxt5_block.get_block_values8 [9, 9, 9, 9, 9, 9, 9, 9] 255 0 =
      (8, [255, 0, 218, 182, 145, 109, 72, 36]) :=
  ⟨rfl, Nat.le_refl _, Nat.zero_le _,
    get_block_values8_spec [9, 9, 9, 9, 9, 9, 9, 9] 255 0 rfl (Nat.le_refl _) (Nat.zero_le _)⟩

/-- C5. For all alpha endpoints l, h in 0..255 and every eight-entry
destination, the integer get_block_values6 returns 6 and leaves the ramp
[l, h, (l*4+h)/5, (l*3+h*2)/5, (l*2+h*3)/5, (l+h*4)/5, 0, 255] with truncating
division; entries 6 and 7 are the constants 0 and 255. -/
theorem get_block_values6_spec (pDst : List Nat) (l h : Nat)
    (hlen : pDst.length = 8) (hl : l ≤ 255) (hh : h ≤ 255) :
    dxt5_block.get_block_values6 pDst l h =
      (6, [l, h, (l * 4 + h) / 5, (l * 3 + h * 2) / 5, (l * 2 + h * 3) / 5,
           (l + h * 4) / 5, 0, 255]) := by
  obtain ⟨a, b, c, d, e, f, g, i, rfl⟩ := length_eight pDst hlen
  simp only [dxt5_block.get_block_values6, List.set]
  rw [u32_of_lt (by omega), u32_of_lt (by omega), u32_of_lt (by omega), u32_of_lt (by omega)]

/-- Witness of C5: l = 10, h = 200. -/
theorem get_block_values6_spec_witness :
    ([9, 9, 9, 9, 9, 9, 9, 9] : List Nat).length = 8 ∧ 10 ≤ 255 ∧ 200 ≤ 255 ∧
    dxt5_block.get_block_values6 [9, 9, 9, 9, 9, 9, 9, 9] 10 200 =
      (6, [10, 200, 48, 86, 124, 162, 0, 255]) :=
  ⟨rfl, by decide, by decide,
    get_block_values6_spec [9, 9, 9, 9, 9, 9, 9, 9] 10 200 rfl (by decide) (by decide)⟩

theorem get_block_values6_sentinels (pDst : List Nat) (l h : Nat) (hlen : pDst.length = 8) :
    (dxt5_block.get_block_values6 pDst l h).2[6]? = some 0 ∧
    (dxt5_block.get_block_values6 pDst l h).2[7]? = some 255 := by
  obtain ⟨a, b, c, d, e, f, g, i, rfl⟩ := length_eight pDst hlen
  exact ⟨rfl, rfl⟩

theorem get_block_values6_quad_sentinels (pDst : List color_quad_u8) (l h : Nat)
    (hlen : pDst.length = 8) :
    ((dxt5_block.get_block_values6_quad pDst l h).2[6]?).map color_quad_u8.a = some 0 ∧
    ((dxt5_block.get_block_values6_quad pDst l h).2[7]?).map color_quad_u8.a = some 255 := by
  obtain ⟨a, b, c, d, e, f, g, i, rfl⟩ := length_eight pDst hlen
  simp [dxt5_block.get_block_values6_quad, set_a, u8]

/-- C6. Both overloads of get_block_values select 8-value mode (return 8, the
ramp of get_block_values8) exactly when l > h, and otherwise 6-value mode
(return 6, the ramp of get_block_values6); l = h gives 6-value mode with
entries 6 and 7 equal to 0 and 255. -/
theorem get_block_values_mode (pDst : List Nat) (pQuad : List color_quad_u8) (l h : Nat)
    (hlen : pDst.length = 8) (hquad : pQuad.length = 8) :
    ((dxt5_block.get_block_values pDst l h).1 = 8 ↔ l > h) ∧
    ((dxt5_block.get_block_values pDst l h).1 = 6 ↔ l ≤ h) ∧
    (l > h → dxt5_block.get_block_values pDst l h = dxt5_block.get_block_values8 pDst l h) ∧
    (l ≤ h → dxt5_block.get_block_values pDst l h = dxt5_block.get_block_values6 pDst l h) ∧
    ((dxt5_block.get_block_values_quad pQuad l h).1 = 8 ↔ l > h) ∧
    ((dxt5_block.get_block_values_quad pQuad l h).1 = 6 ↔ l ≤ h) ∧
    (l > h → dxt5_block.get_block_values_quad pQuad l h =
        dxt5_block.get_block_values8_quad pQuad l h) ∧
    (l ≤ h → dxt5_block.get_block_values_quad pQuad l h =
        dxt5_block.get_block_values6_quad pQuad l h) ∧
    (l = h →
      (dxt5_block.get_block_values pDst l h).1 = 6 ∧
      (dxt5_block.get_block_values pDst l h).2[6]? = some 0 ∧
      (dxt5_block.get_block_values pDst l h).2[7]? = some 255 ∧
      (dxt5_block.get_block_values_quad pQuad l h).1 = 6 ∧
      ((dxt5_block.get_block_values_quad pQuad l h).2[6]?).map color_quad_u8.a = some 0 ∧
      ((dxt5_block.get_block_values_quad pQuad l h).2[7]?).map color_quad_u8.a = some 255) := by
  obtain ⟨s6, s7⟩ := get_block_values6_sentinels pDst l h hlen
  obtain ⟨q6, q7⟩ := get_block_values6_quad_sentinels pQuad l h hquad
  have e8 : (dxt5_block.get_block_values8 pDst l h).1 = 8 := rfl
  have e6 : (dxt5_block.get_block_values6 pDst l h).1 = 6 := rfl
  have e8q : (dxt5_block.get_block_values8_quad pQuad l h).1 = 8 := rfl
  have e6q : (dxt5_block.get_block_values6_quad pQuad l h).1 = 6 := rfl
  unfold dxt5_block.get_block_values dxt5_block.get_block_values_quad
  by_cases hgt : l > h
  · rw [if_pos hgt, if_pos hgt, e8, e8q]
    exact ⟨⟨fun _ => hgt, fun _ => rfl⟩, ⟨fun h => by omega, fun h => by omega⟩,
      fun _ => rfl, fun h => by omega,
      ⟨fun _ => hgt, fun _ => rfl⟩, ⟨fun h => by omega, fun h => by omega⟩,
      fun _ => rfl, fun h => by omega, fun h => by omega⟩
  · rw [if_neg hgt, if_neg hgt, e6, e6q]
    exact ⟨⟨fun h => by omega, fun h => by omega⟩, ⟨fun _ => by omega, fun _ => rfl⟩,
      fun h => by omega, fun _ => rfl,
      ⟨fun h => by omega, fun h => by omega⟩, ⟨fun _ => by omega, fun _ => rfl⟩,
      fun h => by omega, fun _ => rfl, fun _ => ⟨rfl, s6, s7, rfl, q6, q7⟩⟩

/-- Witness of C6: the equal endpoints l = h = 77 select 6-value mode in both
overloads. -/
theorem get_block_values_mode_witness :
    ([9, 9, 9, 9, 9, 9, 9, 9] : List Nat).length = 8 ∧
    (List.replicate 8 (⟨1, 2, 3, 4⟩ : color_quad_u8)).length = 8 ∧ (77 : Nat) = 77 ∧
    (dxt5_block.get_block_values [9, 9, 9, 9, 9, 9, 9, 9] 77 77).1 = 6 ∧
    (dxt5_block.get_block_values [9, 9, 9, 9, 9, 9, 9, 9] 77 77).2[6]? = some 0 ∧
    (dxt5_block.get_block_values [9, 9, 9, 9, 9, 9, 9, 9] 77 77).2[7]? = some 255 ∧
    (dxt5_block.get_block_values_quad (List.replicate 8 ⟨1, 2, 3, 4⟩) 77 77).1 = 6 ∧
    ((dxt5_block.get_block_values_quad (List.replicate 8 ⟨1, 2, 3, 4⟩) 77 77).2[6]?).map
      color_quad_u8.a = some 0 ∧
    ((dxt5_block.get_block_values_quad (List.replicate 8 ⟨1, 2, 3, 4⟩) 77 77).2[7]?).map
      color_quad_u8.a = some 255 :=
  ⟨rfl, rfl, rfl, (get_block_values_mode [9, 9, 9, 9, 9, 9, 9, 9]
    (List.replicate 8 ⟨1, 2, 3, 4⟩) 77 77 rfl rfl).2.2.2.2.2.2.2.2 rfl⟩

/-! ## Palette entry identity -/

theorem set_a_zero_one (pQuad : List color_quad_u8) (hquad : pQuad.length = 8) (l h : Nat)
    (hl : l ≤ 255) (hh : h ≤ 255) :
    ((dxt5_block.get_block_values6_quad pQuad l h).2[0]?).map color_quad_u8.a = some l ∧
    ((dxt5_block.get_block_values6_quad pQuad l h).2[1]?).map color_quad_u8.a = some h ∧
    ((dxt5_block.get_block_values8_quad pQuad l h).2[0]?).map color_quad_u8.a = some l ∧
    ((dxt5_block.get_block_values8_quad pQuad l h).2[1]?).map color_quad_u8.a = some h := by
  obtain ⟨a, b, c, d, e, f, g, i, rfl⟩ := length_eight pQuad hquad
  have el := u8_of_le hl
  have eh := u8_of_le hh
  simp [dxt5_block.get_block_values6_quad, dxt5_block.get_block_values8_quad, set_a, el, eh]

/-- C7. Palette entry identity. For every pair of packed DXT1 endpoints, in
3-color and 4-color mode and in the truncating and the rounding family,
palette[0] = unpack_color(color0, scaled) and palette[1] =
unpack_color(color1, scaled); for all DXT5 alpha endpoints l, h in 0..255, in
6-value and 8-value mode of both overloads, ramp[0] = l and ramp[1] = h. -/
theorem palette_entry_identity (pDst : List color_quad_u8) (color0 color1 : Nat)
    (pVal : List Nat) (pQuad : List color_quad_u8) (l h : Nat)
    (hlen : pDst.length = 4) (hval : pVal.length = 8) (hquad : pQuad.length = 8)
    (hl : l ≤ 255) (hh : h ≤ 255) :
    (∀ f ∈ [dxt1_block.get_block_colors3, dxt1_block.get_block_colors4,
            dxt1_block.get_block_colors3_round, dxt1_block.get_block_colors4_round,
            dxt1_block.get_block_colors, dxt1_block.get_block_colors_round],
      (f pDst color0 color1).2[0]? = some (dxt1_block.unpack_color color0 true 255) ∧
      (f pDst color0 color1).2[1]? = some (dxt1_block.unpack_color color1 true 255)) ∧
    (∀ f ∈ [dxt5_block.get_block_values6, dxt5_block.get_block_values8,
            dxt5_block.get_block_values],
      (f pVal l h).2[0]? = some l ∧ (f pVal l h).2[1]? = some h) ∧
    (∀ f ∈ [dxt5_block.get_block_values6_quad, dxt5_block.get_block_values8_quad,
            dxt5_block.get_block_values_quad],
      ((f pQuad l h).2[0]?).map color_quad_u8.a = some l ∧
      ((f pQuad l h).2[1]?).map color_quad_u8.a = some h) := by
  obtain ⟨q60, q61, q80, q81⟩ := set_a_zero_one pQuad hquad l h hl hh
  refine ⟨?_, ?_, ?_⟩
  · obtain ⟨w, x, y, z, rfl⟩ := length_four pDst hlen
    intro f hf
    simp only [List.mem_cons, List.mem_singleton, List.not_mem_nil, or_false] at hf
    rcases hf with rfl | rfl | rfl | rfl | rfl | rfl
    · exact ⟨rfl, rfl⟩
    · exact ⟨rfl, rfl⟩
    · exact ⟨rfl, rfl⟩
    · exact ⟨rfl, rfl⟩
    · unfold dxt1_block.get_block_colors; split <;> exact ⟨rfl, rfl⟩
    · unfold dxt1_block.get_block_colors_round; split <;> exact ⟨rfl, rfl⟩
  · obtain ⟨a, b, c, d, e, f, g, i, rfl⟩ := length_eight pVal hval
    intro f hf
    simp only [List.mem_cons, List.mem_singleton, List.not_mem_nil, or_false] at hf
    rcases hf with rfl | rfl | rfl
    · exact ⟨rfl, rfl⟩
    · exact ⟨rfl, rfl⟩
    · unfold dxt5_block.get_block_values; split <;> exact ⟨rfl, rfl⟩
  · intro f hf
    simp only [List.mem_cons, List.mem_singleton, List.not_mem_nil, or_false] at hf
    rcases hf with rfl | rfl | rfl
    · exact ⟨q60, q61⟩
    · exact ⟨q80, q81⟩
    · unfold dxt5_block.get_block_values_quad; split
      · exact ⟨q80, q81⟩
      · exact ⟨q60, q61⟩

/-- Witness of C7: endpoints 0xFFFF, 0x0000 in the rounding family. -/
theorem palette_entry_identity_witness :
    ([⟨1, 2, 3, 4⟩, ⟨5, 6, 7, 8⟩, ⟨9, 10, 11, 12⟩, ⟨13, 14, 15, 16⟩] :
        List color_quad_u8).length = 4 ∧
    ([9, 9, 9, 9, 9, 9, 9, 9] : List Nat).length = 8 ∧
    (List.replicate 8 (⟨1, 2, 3, 4⟩ : color_quad_u8)).length = 8 ∧ 200 ≤ 255 ∧ 10 ≤ 255 ∧
    (dxt1_block.get_block_colors_round
        [⟨1, 2, 3, 4⟩, ⟨5, 6, 7, 8⟩, ⟨9, 10, 11, 12⟩, ⟨13, 14, 15, 16⟩] 0xFFFF 0x0000).2[0]? =
      some ⟨255, 255, 255, 255⟩ ∧
    (dxt1_block.get_block_colors_round
        [⟨1, 2, 3, 4⟩, ⟨5, 6, 7, 8⟩, ⟨9, 10, 11, 12⟩, ⟨13, 14, 15, 16⟩] 0xFFFF 0x0000).2[1]? =
      some ⟨0, 0, 0, 255⟩ :=
  ⟨rfl, rfl, rfl, by decide, by decide,
    (palette_entry_identity [⟨1, 2, 3, 4⟩, ⟨5, 6, 7, 8⟩, ⟨9, 10, 11, 12⟩, ⟨13, 14, 15, 16⟩]
      0xFFFF 0x0000 [9, 9, 9, 9, 9, 9, 9, 9] (List.replicate 8 ⟨1, 2, 3, 4⟩) 200 10
      rfl rfl rfl (by decide) (by decide)).1 dxt1_block.get_block_colors_round (by simp)⟩

/-! ## Packing primitives -/

theorem and31_eq_mod (p : Nat) : p &&& 31 = p % 32 := Nat.and_pow_two_sub_one_eq_mod p 5

theorem and63_eq_mod (p : Nat) : p &&& 63 = p % 64 := Nat.and_pow_two_sub_one_eq_mod p 6

/-- A value below `2 ^ k` shares no bit with a value shifted left by `k`. -/
theorem and_shiftLeft_eq_zero (b x k : Nat) (hb : b < 2 ^ k) : b &&& (x <<< k) = 0 := by
  apply Nat.eq_of_testBit_eq
  intro i
  rw [Nat.testBit_and, Nat.testBit_shiftLeft, Nat.zero_testBit]
  by_cases hik : k ≤ i
  · have hlt : b < 2 ^ i := lt_of_lt_of_le hb (Nat.pow_le_pow_right (by decide) hik)
    rw [Nat.testBit_lt_two_pow hlt]
    rfl
  · simp [hik]

/-- The three bit fields of a packed color add up without carries. -/
theorem pack565 (r g b : Nat) (hg : g ≤ 63) (hb : b ≤ 31) :
    b ||| (g <<< 5) ||| (r <<< 11) = b + 32 * g + 2048 * r := by
  have h1 : b ||| (g <<< 5) = 32 * g + b := by
    rw [Nat.or_comm, Nat.shiftLeft_eq, Nat.mul_comm g]
    exact (Nat.mul_add_lt_is_or (i := 5) (by omega) g).symm
  have h2 : (32 * g + b) ||| (r <<< 11) = 2048 * r + (32 * g + b) := by
    rw [Nat.or_comm, Nat.shiftLeft_eq, Nat.mul_comm r]
    exact (Nat.mul_add_lt_is_or (i := 11) (by omega) r).symm
  rw [h1, h2]; omega

/-- C8. pack_color returns B | (G << 5) | (R << 11) where, when scaled,
R = min((r*31 + bias)/255, 31), G = min((g*63 + bias)/255, 63),
B = min((b*31 + bias)/255, 31) for every bias whose 32-bit sums do not
overflow, and when not scaled R = min(r, 31), G = min(g, 63), B = min(b, 31);
the three fields never overlap: they share no bit, and each is read back
from the result by its shift and mask. -/
theorem dxt1_pack_color_spec (r g b a bias : Nat) (scaled : Bool) (R G B : Nat)
    (hr : r ≤ 255) (hg : g ≤ 255) (hb : b ≤ 255)
    (hov : scaled = true →
      r * 31 + bias < 2 ^ 32 ∧ g * 63 + bias < 2 ^ 32 ∧ b * 31 + bias < 2 ^ 32)
    (hR : R = if scaled then min ((r * 31 + bias) / 255) 31 else min r 31)
    (hG : G = if scaled then min ((g * 63 + bias) / 255) 63 else min g 63)
    (hB : B = if scaled then min ((b * 31 + bias) / 255) 31 else min b 31) :
    dxt1_block.pack_color ⟨r, g, b, a⟩ scaled bias = B ||| (G <<< 5) ||| (R <<< 11) ∧
    B &&& (G <<< 5) = 0 ∧ B &&& (R <<< 11) = 0 ∧ (G <<< 5) &&& (R <<< 11) = 0 ∧
    dxt1_block.pack_color ⟨r, g, b, a⟩ scaled bias &&& 31 = B ∧
    (dxt1_block.pack_color ⟨r, g, b, a⟩ scaled bias >>> 5) &&& 63 = G ∧
    (dxt1_block.pack_color ⟨r, g, b, a⟩ scaled bias >>> 11) &&& 31 = R ∧
    dxt1_block.pack_color ⟨r, g, b, a⟩ scaled bias < 2 ^ 16 := by
  have hR31 : R ≤ 31 := by rw [hR]; split <;> omega
  have hG63 : G ≤ 63 := by rw [hG]; split <;> omega
  have hB31 : B ≤ 31 := by rw [hB]; split <;> omega
  have hp : dxt1_block.pack_color ⟨r, g, b, a⟩ scaled bias =
      u16 (B ||| (G <<< 5) ||| (R <<< 11)) := by
    cases scaled
    · simp only [hR, hG, hB, dxt1_block.pack_color, minimum_eq_min, Bool.false_eq_true,
        if_false]
    · obtain ⟨h1, h2, h3⟩ := hov rfl
      simp only [hR, hG, hB, dxt1_block.pack_color, minimum_eq_min, if_true]
      rw [u32_of_lt (by omega), u32_of_lt (by omega), u32_of_lt (by omega)]
  have hsum := pack565 R G B hG63 hB31
  have hG5 : G <<< 5 = G * 32 := Nat.shiftLeft_eq G 5
  have hp2 : dxt1_block.pack_color ⟨r, g, b, a⟩ scaled bias = B + 32 * G + 2048 * R := by
    rw [hp, hsum]; unfold u16; omega
  refine ⟨?_, ?_, ?_, ?_, ?_, ?_, ?_, ?_⟩
  · rw [hp2, hsum]
  · exact and_shiftLeft_eq_zero B G 5 (by omega)
  · exact and_shiftLeft_eq_zero B R 11 (by omega)
  · exact and_shiftLeft_eq_zero (G <<< 5) R 11 (by omega)
  · rw [and31_eq_mod, hp2]; omega
  · rw [and63_eq_mod, Nat.shiftRight_eq_div_pow, hp2]; omega
  · rw [and31_eq_mod, Nat.shiftRight_eq_div_pow, hp2]; omega
  · rw [hp2]; omega

/-- Witness of C8: the color (255, 128, 7) with the rounding bias 128 packs to
R = 31, G = 32, B = 1, that is 0xFC01. -/
theorem dxt1_pack_color_spec_witness :
    (255 ≤ 255 ∧ 128 ≤ 255 ∧ 7 ≤ 255) ∧
    (true = true → 255 * 31 + 128 < 2 ^ 32 ∧ 128 * 63 + 128 < 2 ^ 32 ∧ 7 * 31 + 128 < 2 ^ 32) ∧
    (31 = if true = true then min ((255 * 31 + 128) / 255) 31 else min 255 31) ∧
    (32 = if true = true then min ((128 * 63 + 128) / 255) 63 else min 128 63) ∧
    (1 = if true = true then min ((7 * 31 + 128) / 255) 31 else min 7 31) ∧
    dxt1_block.pack_color ⟨255, 128, 7, 255⟩ true 128 = 1 ||| (32 <<< 5) ||| (31 <<< 11) ∧
    dxt1_block.pack_color ⟨255, 128, 7, 255⟩ true 128 = 0xFC01 :=
  ⟨by decide, fun _ => by decide, by decide, by decide, by decide,
    (dxt1_pack_color_spec 255 128 7 255 128 true 31 32 1 (by decide) (by decide) (by decide)
      (fun _ => by decide) (by decide) (by decide) (by decide)).1, by decide⟩

/-- C9. For every packed color p (16-bit or not) and every alpha argument a,
unpack_color returns the color with fields b5 = p & 31, g6 = (p >> 5) & 63,
r5 = (p >> 11) & 31, expanded when scaled to r = (r5 << 3) | (r5 >> 2),
g = (g6 << 2) | (g6 >> 4), b = (b5 << 3) | (b5 >> 2) and left as r5, g6, b5
when not scaled, with alpha = min(a, 255); every channel is at most 255, so
the unclamped store loses nothing. -/
theorem dxt1_unpack_color_spec (p a : Nat) (scaled : Bool) (b5 g6 r5 : Nat)
    (hb5 : b5 = p &&& 31) (hg6 : g6 = (p >>> 5) &&& 63) (hr5 : r5 = (p >>> 11) &&& 31) :
    dxt1_block.unpack_color p scaled a =
      ⟨if scaled then (r5 <<< 3) ||| (r5 >>> 2) else r5,
       if scaled then (g6 <<< 2) ||| (g6 >>> 4) else g6,
       if scaled then (b5 <<< 3) ||| (b5 >>> 2) else b5,
       min a 255⟩ ∧
    (dxt1_block.unpack_color p scaled a).r ≤ 255 ∧
    (dxt1_block.unpack_color p scaled a).g ≤ 255 ∧
    (dxt1_block.unpack_color p scaled a).b ≤ 255 ∧
    (dxt1_block.unpack_color p scaled a).a ≤ 255 := by
  subst hb5 hg6 hr5
  exact ⟨unpack_color_eq p scaled a, unpack_color_le p scaled a⟩

/-- Witness of C9: the packed color 0xABCD with alpha argument 300, scaled. -/
theorem dxt1_unpack_color_spec_witness :
    13 = 0xABCD &&& 31 ∧ 30 = (0xABCD >>> 5) &&& 63 ∧ 21 = (0xABCD >>> 11) &&& 31 ∧
    dxt1_block.unpack_color 0xABCD true 300 = ⟨173, 121, 107, 255⟩ :=
  ⟨by decide, by decide, by decide,
    (dxt1_unpack_color_spec 0xABCD 300 true 13 30 21 (by decide) (by decide) (by decide)).1⟩

theorem round5 : ∀ v < 32, ((v <<< 3 ||| v >>> 2) * 31 + 128) / 255 = v := by decide

theorem round6 : ∀ v < 64, ((v <<< 2 ||| v >>> 4) * 63 + 128) / 255 = v := by decide

/-- C10. pack_color inverts unpack_color under the round-to-nearest bias: for
every 16-bit packed color p (and every alpha argument),
pack_color(unpack_color(p, scaled), scaled, 128) = p. -/
theorem pack_unpack_color (p a : Nat) (hp : p < 2 ^ 16) :
    dxt1_block.pack_color (dxt1_block.unpack_color p true a) true 128 = p := by
  have hb := and31_lt p
  have hg := and63_lt (p >>> 5)
  have hr := and31_lt (p >>> 11)
  have eb := expand5_le _ hb
  have eg := expand6_le _ hg
  have er := expand5_le _ hr
  have rb := round5 _ hb
  have rg := round6 _ hg
  have rr := round5 _ hr
  have s5 : p >>> 5 = p / 32 := Nat.shiftRight_eq_div_pow p 5
  have s11 : p >>> 11 = p / 2048 := Nat.shiftRight_eq_div_pow p 11
  rw [unpack_color_eq]
  simp only [dxt1_block.pack_color, minimum_eq_min, if_true]
  rw [u32_of_lt (by omega), u32_of_lt (by omega), u32_of_lt (by omega), rb, rg, rr,
    pack565 _ _ _ (by omega) (by omega)]
  rw [and31_eq_mod, and63_eq_mod, and31_eq_mod, s5, s11]
  have hp2 : p < 65536 := hp
  unfold u16
  omega

/-- Witness of C10: the packed color 0xABCD. -/
theorem pack_unpack_color_witness :
    0xABCD < 2 ^ 16 ∧
    dxt1_block.pack_color (dxt1_block.unpack_color 0xABCD true 255) true 128 = 0xABCD :=
  ⟨by decide, pack_unpack_color 0xABCD 255 (by decide)⟩

/-! ## Quantization error -/

theorem expand5_eq : ∀ v < 32, (v <<< 3) ||| (v >>> 2) = 8 * v + v / 4 := by decide

theorem expand6_eq : ∀ v < 64, (v <<< 2) ||| (v >>> 4) = 4 * v + v / 16 := by decide

/-- The value of `pack_color` in scaled mode when the three sums do not wrap. -/
theorem pack_color_scaled_eq (r g b a bias : Nat)
    (h1 : r * 31 + bias < 2 ^ 32) (h2 : g * 63 + bias < 2 ^ 32) (h3 : b * 31 + bias < 2 ^ 32) :
    dxt1_block.pack_color ⟨r, g, b, a⟩ true bias =
      min ((b * 31 + bias) / 255) 31 + 32 * min ((g * 63 + bias) / 255) 63 +
        2048 * min ((r * 31 + bias) / 255) 31 := by
  simp only [dxt1_block.pack_color, minimum_eq_min, if_true]
  rw [u32_of_lt (by omega), u32_of_lt (by omega), u32_of_lt (by omega),
    pack565 _ _ _ (by omega) (by omega)]
  unfold u16
  omega

set_option maxRecDepth 8000 in
/-- Round trip of one 5-bit channel: quantise with bias 128, expand by bit
replication; the result is within 4 of the input. -/
theorem quant5_error : ∀ c < 256,
    8 * min ((c * 31 + 128) / 255) 31 + min ((c * 31 + 128) / 255) 31 / 4 ≤ c + 4 ∧
    c ≤ 8 * min ((c * 31 + 128) / 255) 31 + min ((c * 31 + 128) / 255) 31 / 4 + 4 := by
  decide

set_option maxRecDepth 8000 in
/-- Round trip of the 6-bit channel: the result is within 2 of the input. -/
theorem quant6_error : ∀ c < 256,
    4 * min ((c * 63 + 128) / 255) 63 + min ((c * 63 + 128) / 255) 63 / 16 ≤ c + 2 ∧
    c ≤ 4 * min ((c * 63 + 128) / 255) 63 + min ((c * 63 + 128) / 255) 63 / 16 + 2 := by
  decide

/-- The three fields of a packed color are read back by shift and mask. -/
theorem unpack565 (R G B : Nat) (hR : R ≤ 31) (hG : G ≤ 63) (hB : B ≤ 31) :
    (B + 32 * G + 2048 * R) &&& 31 = B ∧
    ((B + 32 * G + 2048 * R) >>> 5) &&& 63 = G ∧
    ((B + 32 * G + 2048 * R) >>> 11) &&& 31 = R := by
  have s5 : (B + 32 * G + 2048 * R) >>> 5 = (B + 32 * G + 2048 * R) / 32 :=
    Nat.shiftRight_eq_div_pow _ 5
  have s11 : (B + 32 * G + 2048 * R) >>> 11 = (B + 32 * G + 2048 * R) / 2048 :=
    Nat.shiftRight_eq_div_pow _ 11
  rw [s5, s11, and31_eq_mod, and63_eq_mod, and31_eq_mod]
  refine ⟨by omega, by omega, by omega⟩

/-- C11. Quantization error of the endpoint round trip: for every 8-bit
triple (r, g, b), the color c = unpack_color(pack_color(r, g, b, scaled,
bias 128), scaled) satisfies |c.r - r| ≤ 4, |c.b - b| ≤ 4 and |c.g - g| ≤ 2. -/
theorem pack_unpack_error_bound (r g b a alpha : Nat) (c : color_quad_u8)
    (hr : r ≤ 255) (hg : g ≤ 255) (hb : b ≤ 255)
    (hc : c = dxt1_block.unpack_color (dxt1_block.pack_color ⟨r, g, b, a⟩ true 128) true alpha) :
    |(c.r : Int) - (r : Int)| ≤ 4 ∧ |(c.b : Int) - (b : Int)| ≤ 4 ∧
    |(c.g : Int) - (g : Int)| ≤ 2 := by
  subst hc
  have hp := pack_color_scaled_eq r g b a 128 (by omega) (by omega) (by omega)
  have qr := quant5_error r (by omega)
  have qg := quant6_error g (by omega)
  have qb := quant5_error b (by omega)
  rw [hp]
  generalize min ((r * 31 + 128) / 255) 31 = R at qr
  generalize min ((g * 63 + 128) / 255) 63 = G at qg
  generalize min ((b * 31 + 128) / 255) 31 = B at qb
  have hR31 : R ≤ 31 := by omega
  have hG63 : G ≤ 63 := by omega
  have hB31 : B ≤ 31 := by omega
  obtain ⟨fB, fG, fR⟩ := unpack565 R G B hR31 hG63 hB31
  rw [unpack_color_eq]
  simp only [if_true]
  rw [fB, fG, fR, expand5_eq B (by omega), expand6_eq G (by omega), expand5_eq R (by omega)]
  simp only [abs_le]
  omega

/-- Witness of C11: the triple (100, 150, 200) comes back as (99, 150, 198). -/
theorem pack_unpack_error_bound_witness :
    (100 ≤ 255 ∧ 150 ≤ 255 ∧ 200 ≤ 255) ∧
    (⟨99, 150, 198, 255⟩ : color_quad_u8) =
      dxt1_block.unpack_color (dxt1_block.pack_color ⟨100, 150, 200, 0⟩ true 128) true 255 ∧
    |((99 : Nat) : Int) - ((100 : Nat) : Int)| ≤ 4 ∧
    |((198 : Nat) : Int) - ((200 : Nat) : Int)| ≤ 4 ∧
    |((150 : Nat) : Int) - ((150 : Nat) : Int)| ≤ 2 :=
  ⟨by decide, by decide,
    pack_unpack_error_bound 100 150 200 0 255 ⟨99, 150, 198, 255⟩ (by decide) (by decide)
      (by decide) (by decide)⟩

/-! ## The rounding family -/

/-- The palette of `get_block_colors4` on a four-entry destination. -/
theorem colors4_eq (pDst : List color_quad_u8) (color0 color1 : Nat) (c0 c1 : color_quad_u8)
    (hlen : pDst.length = 4) (h0 : c0 = dxt1_block.unpack_color color0 true 255)
    (h1 : c1 = dxt1_block.unpack_color color1 true 255) :
    dxt1_block.get_block_colors4 pDst color0 color1 =
      (4, [c0, c1,
           ⟨(c0.r * 2 + c1.r) / 3, (c0.g * 2 + c1.g) / 3, (c0.b * 2 + c1.b) / 3, 255⟩,
           ⟨(c1.r * 2 + c0.r) / 3, (c1.g * 2 + c0.g) / 3, (c1.b * 2 + c0.b) / 3, 255⟩]) := by
  subst h0 h1
  obtain ⟨w, x, y, z, rfl⟩ := length_four pDst hlen
  obtain ⟨h0r, h0g, h0b, -⟩ := unpack_color_le color0 true 255
  obtain ⟨h1r, h1g, h1b, -⟩ := unpack_color_le color1 true 255
  simp only [dxt1_block.get_block_colors4, cDefaultAlpha, List.set,
    color_quad_u8.set_noclamp_rgba]
  rw [u8_of_le (by omega), u8_of_le (by omega), u8_of_le (by omega), u8_of_le (by omega),
    u8_of_le (by omega), u8_of_le (by omega), u8_of_le (by omega)]

/-- The palette of `get_block_colors3` on a four-entry destination. -/
theorem colors3_eq (pDst : List color_quad_u8) (color0 color1 : Nat) (c0 c1 : color_quad_u8)
    (hlen : pDst.length = 4) (h0 : c0 = dxt1_block.unpack_color color0 true 255)
    (h1 : c1 = dxt1_block.unpack_color color1 true 255) :
    dxt1_block.get_block_colors3 pDst color0 color1 =
      (3, [c0, c1, ⟨(c0.r + c1.r) / 2, (c0.g + c1.g) / 2, (c0.b + c1.b) / 2, 255⟩,
           ⟨0, 0, 0, 0⟩]) := by
  subst h0 h1
  obtain ⟨w, x, y, z, rfl⟩ := length_four pDst hlen
  obtain ⟨h0r, h0g, h0b, -⟩ := unpack_color_le color0 true 255
  obtain ⟨h1r, h1g, h1b, -⟩ := unpack_color_le color1 true 255
  simp only [dxt1_block.get_block_colors3, cDefaultAlpha, List.set,
    color_quad_u8.set_noclamp_rgba, Nat.shiftRight_eq_div_pow, pow_one]
  rw [u8_of_le (by omega), u8_of_le (by omega), u8_of_le (by omega), u8_of_le (by omega),
    u8_of_le (by omega)]

/-- The palette of `get_block_colors4_round` on a four-entry destination. -/
theorem colors4_round_eq (pDst : List color_quad_u8) (color0 color1 : Nat)
    (c0 c1 : color_quad_u8)
    (hlen : pDst.length = 4) (h0 : c0 = dxt1_block.unpack_color color0 true 255)
    (h1 : c1 = dxt1_block.unpack_color color1 true 255) :
    dxt1_block.get_block_colors4_round pDst color0 color1 =
      (4, [c0, c1,
           ⟨(c0.r * 2 + c1.r + 1) / 3, (c0.g * 2 + c1.g + 1) / 3,
            (c0.b * 2 + c1.b + 1) / 3, 255⟩,
           ⟨(c1.r * 2 + c0.r + 1) / 3, (c1.g * 2 + c0.g + 1) / 3,
            (c1.b * 2 + c0.b + 1) / 3, 255⟩]) := by
  subst h0 h1
  obtain ⟨w, x, y, z, rfl⟩ := length_four pDst hlen
  obtain ⟨h0r, h0g, h0b, -⟩ := unpack_color_le color0 true 255
  obtain ⟨h1r, h1g, h1b, -⟩ := unpack_color_le color1 true 255
  simp only [dxt1_block.get_block_colors4_round, cDefaultAlpha, List.set,
    color_quad_u8.set_noclamp_rgba]
  rw [u8_of_le (by omega), u8_of_le (by omega), u8_of_le (by omega), u8_of_le (by omega),
    u8_of_le (by omega), u8_of_le (by omega), u8_of_le (by omega)]

/-- The palette of `get_block_colors3_round` on a four-entry destination. -/
theorem colors3_round_eq (pDst : List color_quad_u8) (color0 color1 : Nat)
    (c0 c1 : color_quad_u8)
    (hlen : pDst.length = 4) (h0 : c0 = dxt1_block.unpack_color color0 true 255)
    (h1 : c1 = dxt1_block.unpack_color color1 true 255) :
    dxt1_block.get_block_colors3_round pDst color0 color1 =
      (3, [c0, c1,
           ⟨(c0.r + c1.r + 1) / 2, (c0.g + c1.g + 1) / 2, (c0.b + c1.b + 1) / 2, 255⟩,
           ⟨0, 0, 0, 0⟩]) := by
  subst h0 h1
  obtain ⟨w, x, y, z, rfl⟩ := length_four pDst hlen
  obtain ⟨h0r, h0g, h0b, -⟩ := unpack_color_le color0 true 255
  obtain ⟨h1r, h1g, h1b, -⟩ := unpack_color_le color1 true 255
  simp only [dxt1_block.get_block_colors3_round, cDefaultAlpha, List.set,
    color_quad_u8.set_noclamp_rgba, Nat.shiftRight_eq_div_pow, pow_one]
  rw [u8_of_le (by omega), u8_of_le (by omega), u8_of_le (by omega), u8_of_le (by omega),
    u8_of_le (by omega)]

/-- C12. The rounding family adds the bias before dividing and is otherwise
the truncating family: get_block_colors4_round writes entries 2 and 3 as
(c0*2 + c1 + 1) / 3 and (c1*2 + c0 + 1) / 3 per channel, get_block_colors3_round
writes entry 2 as (c0 + c1 + 1) / 2 per channel; the counts, entries 0 and 1,
the alpha of every entry and the transparent-black entry 3 of 3-color mode
are those of the truncating variants. -/
theorem round_family_spec (pDst : List color_quad_u8) (color0 color1 : Nat)
    (c0 c1 : color_quad_u8)
    (hlen : pDst.length = 4) (h0 : c0 = dxt1_block.unpack_color color0 true 255)
    (h1 : c1 = dxt1_block.unpack_color color1 true 255) :
    dxt1_block.get_block_colors4_round pDst color0 color1 =
      (4, [c0, c1,
           ⟨(c0.r * 2 + c1.r + 1) / 3, (c0.g * 2 + c1.g + 1) / 3,
            (c0.b * 2 + c1.b + 1) / 3, 255⟩,
           ⟨(c1.r * 2 + c0.r + 1) / 3, (c1.g * 2 + c0.g + 1) / 3,
            (c1.b * 2 + c0.b + 1) / 3, 255⟩]) ∧
    dxt1_block.get_block_colors3_round pDst color0 color1 =
      (3, [c0, c1,
           ⟨(c0.r + c1.r + 1) / 2, (c0.g + c1.g + 1) / 2, (c0.b + c1.b + 1) / 2, 255⟩,
           ⟨0, 0, 0, 0⟩]) ∧
    (dxt1_block.get_block_colors4_round pDst color0 color1).1 =
      (dxt1_block.get_block_colors4 pDst color0 color1).1 ∧
    (dxt1_block.get_block_colors4_round pDst color0 color1).2.take 2 =
      (dxt1_block.get_block_colors4 pDst color0 color1).2.take 2 ∧
    (dxt1_block.get_block_colors4_round pDst color0 color1).2.map color_quad_u8.a =
      (dxt1_block.get_block_colors4 pDst color0 color1).2.map color_quad_u8.a ∧
    (dxt1_block.get_block_colors3_round pDst color0 color1).1 =
      (dxt1_block.get_block_colors3 pDst color0 color1).1 ∧
    (dxt1_block.get_block_colors3_round pDst color0 color1).2.take 2 =
      (dxt1_block.get_block_colors3 pDst color0 color1).2.take 2 ∧
    (dxt1_block.get_block_colors3_round pDst color0 color1).2.map color_quad_u8.a =
      (dxt1_block.get_block_colors3 pDst color0 color1).2.map color_quad_u8.a ∧
    (dxt1_block.get_block_colors3_round pDst color0 color1).2.drop 3 =
      (dxt1_block.get_block_colors3 pDst color0 color1).2.drop 3 ∧
    (dxt1_block.get_block_colors3 pDst color0 color1).2.drop 3 = [⟨0, 0, 0, 0⟩] := by
  rw [colors4_eq pDst color0 color1 c0 c1 hlen h0 h1,
    colors3_eq pDst color0 color1 c0 c1 hlen h0 h1,
    colors4_round_eq pDst color0 color1 c0 c1 hlen h0 h1,
    colors3_round_eq pDst color0 color1 c0 c1 hlen h0 h1]
  simp

/-- Witness of C12: endpoints 0xFFFF and 0x0001 (blue 8); the rounded entries
are (170, 170, 173) and (85, 85, 90), the truncated ones (170, 170, 172) and
(85, 85, 90). -/
theorem round_family_spec_witness :
    ([⟨1, 2, 3, 4⟩, ⟨5, 6, 7, 8⟩, ⟨9, 10, 11, 12⟩, ⟨13, 14, 15, 16⟩] :
        List color_quad_u8).length = 4 ∧
    (⟨255, 255, 255, 255⟩ : color_quad_u8) = dxt1_block.unpack_color 0xFFFF true 255 ∧
    (⟨0, 0, 8, 255⟩ : color_quad_u8) = dxt1_block.unpack_color 0x0001 true 255 ∧
    dxt1_block.get_block_colors4_round
        [⟨1, 2, 3, 4⟩, ⟨5, 6, 7, 8⟩, ⟨9, 10, 11, 12⟩, ⟨13, 14, 15, 16⟩] 0xFFFF 0x0001 =
      (4, [⟨255, 255, 255, 255⟩, ⟨0, 0, 8, 255⟩, ⟨170, 170, 173, 255⟩, ⟨85, 85, 90, 255⟩]) :=
  ⟨rfl, rfl, rfl,
    (round_family_spec [⟨1, 2, 3, 4⟩, ⟨5, 6, 7, 8⟩, ⟨9, 10, 11, 12⟩, ⟨13, 14, 15, 16⟩]
      0xFFFF 0x0001 ⟨255, 255, 255, 255⟩ ⟨0, 0, 8, 255⟩ rfl rfl rfl).1⟩

/-! ## DXT3 explicit alpha -/

set_option maxRecDepth 8000 in
theorem nibble_clear_lo : ∀ c < 256, c &&& not32 (0xF <<< 0) = 16 * (c / 16) := by decide

set_option maxRecDepth 8000 in
theorem nibble_clear_hi : ∀ c < 256, c &&& not32 (0xF <<< 4) = c % 16 := by decide

theorem nibble_replicate : ∀ n < 16, (n <<< 4) ||| n = 17 * n := by decide

/-- Every byte read from an array of bytes is a byte. -/
theorem byte_lt (m : List Nat) (hbytes : ∀ c ∈ m, c < 256) (i : Nat) : m.getD i 0 < 256 := by
  by_cases hi : i < m.length
  · rw [List.getD_eq_getElem m 0 hi]
    exact hbytes _ (List.getElem_mem hi)
  · rw [List.getD_eq_default m 0 (by omega)]
    decide

/-- The store of `set_alpha` in arithmetic form: the nibble of texel (x, y)
becomes `v`, the other nibble of that byte is kept. -/
theorem set_alpha_store_eq (m : List Nat) (x y v : Nat) (hbytes : ∀ c ∈ m, c < 256)
    (hx : x < 4) (hv : v ≤ 15) :
    dxt3_block.set_alpha_store m x y v =
      m.set (y * 2 + x / 2)
        (if x % 2 = 0 then 16 * (m.getD (y * 2 + x / 2) 0 / 16) + v
         else 16 * v + m.getD (y * 2 + x / 2) 0 % 16) := by
  have hy1 : y <<< 1 = y * 2 := by rw [Nat.shiftLeft_eq, pow_one]
  have hor4 : ∀ c, c < 16 → c ||| (v <<< 4) = 16 * v + c := by
    intro c hc
    rw [Nat.or_comm, Nat.shiftLeft_eq, Nat.mul_comm v]
    exact (Nat.mul_add_lt_is_or (i := 4) hc v).symm
  have hor0 : ∀ c, 16 * c ||| (v <<< 0) = 16 * c + v := by
    intro c
    rw [Nat.shiftLeft_zero]
    exact (Nat.mul_add_lt_is_or (i := 4) (by omega) c).symm
  unfold dxt3_block.set_alpha_store
  simp only [hy1]
  interval_cases x
  · have hb := byte_lt m hbytes (y * 2 + 0)
    have e : ((0 : Nat) &&& 1) <<< 2 = 0 := by decide
    have e2 : (0 : Nat) >>> 1 = 0 := by decide
    simp only [e, e2, Nat.zero_div, Nat.zero_mod, if_true]
    rw [nibble_clear_lo _ hb, hor0, u8_of_le (by omega)]
  · have hb := byte_lt m hbytes (y * 2 + 0)
    have e : ((1 : Nat) &&& 1) <<< 2 = 4 := by decide
    have e2 : (1 : Nat) >>> 1 = 0 := by decide
    have e3 : (1 : Nat) / 2 = 0 := by decide
    simp only [e, e2, e3]
    rw [nibble_clear_hi _ hb, hor4 _ (by omega), u8_of_le (by omega)]
    simp
  · have hb := byte_lt m hbytes (y * 2 + 1)
    have e : ((2 : Nat) &&& 1) <<< 2 = 0 := by decide
    have e2 : (2 : Nat) >>> 1 = 1 := by decide
    have e3 : (2 : Nat) / 2 = 1 := by decide
    simp only [e, e2, e3]
    rw [nibble_clear_lo _ hb, hor0, u8_of_le (by omega)]
    simp
  · have hb := byte_lt m hbytes (y * 2 + 1)
    have e : ((3 : Nat) &&& 1) <<< 2 = 4 := by decide
    have e2 : (3 : Nat) >>> 1 = 1 := by decide
    have e3 : (3 : Nat) / 2 = 1 := by decide
    simp only [e, e2, e3]
    rw [nibble_clear_hi _ hb, hor4 _ (by omega), u8_of_le (by omega)]
    simp

/-- The value of `get_alpha` in arithmetic form. -/
theorem get_alpha_eq (m : List Nat) (x y : Nat) (scaled : Bool) (hx : x < 4) (hy : y < 4) :
    dxt3_block.get_alpha m x y scaled =
      some (if scaled then
              17 * (if x % 2 = 0 then m.getD (y * 2 + x / 2) 0 % 16
                    else m.getD (y * 2 + x / 2) 0 / 16 % 16)
            else (if x % 2 = 0 then m.getD (y * 2 + x / 2) 0 % 16
                  else m.getD (y * 2 + x / 2) 0 / 16 % 16)) := by
  have hy1 : y <<< 1 = y * 2 := by rw [Nat.shiftLeft_eq, pow_one]
  have h15 : ∀ c, c &&& 0xF = c % 16 := fun c => Nat.and_pow_two_sub_one_eq_mod c 4
  have s4 : ∀ c, c >>> 4 = c / 16 := fun c => Nat.shiftRight_eq_div_pow c 4
  have hx1 : x &&& 1 = x % 2 := Nat.and_pow_two_sub_one_eq_mod x 1
  have hx2 : x >>> 1 = x / 2 := by rw [Nat.shiftRight_eq_div_pow, pow_one]
  unfold dxt3_block.get_alpha
  rw [if_pos (by unfold cDXTBlockSize; exact ⟨hx, hy⟩)]
  simp only [hy1, hx1, hx2, h15, s4]
  have hn : ∀ n, ((n % 16) <<< 4) ||| n % 16 = 17 * (n % 16) :=
    fun n => nibble_replicate _ (Nat.mod_lt _ (by decide))
  by_cases hpar : x % 2 = 0
  · simp only [hpar, ne_eq, not_true_eq_false, if_false, if_true, hn]
  · simp only [hpar, ne_eq, not_false_eq_true, if_true, if_false, hn]

theorem getD_set_same (m : List Nat) (i a : Nat) (hi : i < m.length) :
    (m.set i a).getD i 0 = a := by
  rw [List.getD_eq_getElem?_getD, List.getElem?_set, if_pos rfl, if_pos hi]
  rfl

theorem getD_set_other (m : List Nat) (i j a : Nat) (hne : i ≠ j) :
    (m.set i a).getD j 0 = m.getD j 0 := by
  rw [List.getD_eq_getElem?_getD, List.getD_eq_getElem?_getD, List.getElem?_set_ne hne]

/-- C13. DXT3 set/get round trip: for every 8-byte alpha array and every
texel (x, y) with x, y < 4, set_alpha(x, y, v, unscaled) with v ≤ 15 succeeds
and get_alpha(x, y, unscaled) then returns v; set_alpha(x, y, v, scaled) with
v ≤ 255 succeeds and get_alpha(x, y, scaled) then returns
17 * ((v*15 + 128) / 255). -/
theorem set_get_alpha (m_alpha : List Nat) (x y v : Nat)
    (hlen : m_alpha.length = 8) (hbytes : ∀ c ∈ m_alpha, c < 256)
    (hx : x < 4) (hy : y < 4) :
    (v ≤ 15 → ∃ m, dxt3_block.set_alpha m_alpha x y v false = Outcome.ok m ∧
        dxt3_block.get_alpha m x y false = some v) ∧
    (v ≤ 255 → ∃ m, dxt3_block.set_alpha m_alpha x y v true = Outcome.ok m ∧
        dxt3_block.get_alpha m x y true = some (17 * ((v * 15 + 128) / 255))) := by
  have hofs : y * 2 + x / 2 < m_alpha.length := by omega
  constructor
  · intro hv
    refine ⟨dxt3_block.set_alpha_store m_alpha x y v, ?_, ?_⟩
    · unfold dxt3_block.set_alpha cDXTBlockSize
      rw [if_pos ⟨hx, hy⟩, if_neg (by decide), if_pos hv]
    · rw [set_alpha_store_eq m_alpha x y v hbytes hx hv, get_alpha_eq _ x y false hx hy,
        getD_set_same _ _ _ hofs]
      simp only [Bool.false_eq_true, if_false]
      congr 1
      split <;> omega
  · intro hv
    have hq : (v * 15 + 128) / 255 ≤ 15 := by omega
    refine ⟨dxt3_block.set_alpha_store m_alpha x y ((v * 15 + 128) / 255), ?_, ?_⟩
    · unfold dxt3_block.set_alpha cDXTBlockSize
      rw [if_pos ⟨hx, hy⟩, if_pos rfl, if_pos hv]
    · rw [set_alpha_store_eq m_alpha x y _ hbytes hx hq, get_alpha_eq _ x y true hx hy,
        getD_set_same _ _ _ hofs]
      simp only [if_true]
      congr 1
      split <;> omega

/-- Witness of C13: texel (3, 2) of an array of eight bytes 0xAB, value 7. -/
theorem set_get_alpha_witness :
    (List.replicate 8 0xAB).length = 8 ∧ (∀ c ∈ List.replicate 8 0xAB, c < 256) ∧
    3 < 4 ∧ 2 < 4 ∧ 7 ≤ 15 ∧
    ∃ m, dxt3_block.set_alpha (List.replicate 8 0xAB) 3 2 7 false = Outcome.ok m ∧
      dxt3_block.get_alpha m 3 2 false = some 7 :=
  ⟨rfl, by decide, by decide, by decide, by decide,
    (set_get_alpha (List.replicate 8 0xAB) 3 2 7 rfl (by decide) (by decide) (by decide)).1
      (by decide)⟩

/-- C14. DXT3 nibble isolation: for every 8-byte alpha array, every in-range
texel (x, y), every admissible value and either scaled flag, set_alpha
succeeds and leaves get_alpha(x2, y2, s) unchanged for every other in-range
texel (x2, y2) ≠ (x, y), the neighbour in the same byte included; the array
keeps its eight bytes and every byte other than byte y*2 + x/2 is unchanged. -/
theorem set_alpha_isolation (m_alpha : List Nat) (x y v : Nat) (scaled : Bool)
    (hlen : m_alpha.length = 8) (hbytes : ∀ c ∈ m_alpha, c < 256)
    (hx : x < 4) (hy : y < 4) (hv : v ≤ (if scaled then 255 else 15)) :
    ∃ m, dxt3_block.set_alpha m_alpha x y v scaled = Outcome.ok m ∧
      m.length = 8 ∧
      (∀ i, i ≠ y * 2 + x / 2 → m[i]? = m_alpha[i]?) ∧
      (∀ x2 y2 s, x2 < 4 → y2 < 4 → (x2, y2) ≠ (x, y) →
        dxt3_block.get_alpha m x2 y2 s = dxt3_block.get_alpha m_alpha x2 y2 s) := by
  have hofs : y * 2 + x / 2 < m_alpha.length := by omega
  have key : ∀ w, w ≤ 15 →
      (dxt3_block.set_alpha_store m_alpha x y w).length = 8 ∧
      (∀ i, i ≠ y * 2 + x / 2 → (dxt3_block.set_alpha_store m_alpha x y w)[i]? = m_alpha[i]?) ∧
      (∀ x2 y2 s, x2 < 4 → y2 < 4 → (x2, y2) ≠ (x, y) →
        dxt3_block.get_alpha (dxt3_block.set_alpha_store m_alpha x y w) x2 y2 s =
          dxt3_block.get_alpha m_alpha x2 y2 s) := by
    intro w hw
    rw [set_alpha_store_eq m_alpha x y w hbytes hx hw]
    refine ⟨by rw [List.length_set]; exact hlen, ?_, ?_⟩
    · intro i hi
      exact List.getElem?_set_ne (Ne.symm hi)
    · intro x2 y2 s hx2 hy2 hne
      rw [get_alpha_eq _ x2 y2 s hx2 hy2, get_alpha_eq _ x2 y2 s hx2 hy2]
      by_cases hsame : y * 2 + x / 2 = y2 * 2 + x2 / 2
      · have hpar : x % 2 ≠ x2 % 2 := by
          intro hp
          apply hne
          have h1 : x2 = x := by omega
          have h2 : y2 = y := by omega
          rw [h1, h2]
        rw [← hsame, getD_set_same _ _ _ hofs]
        have hb := byte_lt m_alpha hbytes (y * 2 + x / 2)
        generalize m_alpha.getD (y * 2 + x / 2) 0 = b at hb
        have hnib : (if x2 % 2 = 0 then
              (if x % 2 = 0 then 16 * (b / 16) + w else 16 * w + b % 16) % 16
            else (if x % 2 = 0 then 16 * (b / 16) + w else 16 * w + b % 16) / 16 % 16) =
            (if x2 % 2 = 0 then b % 16 else b / 16 % 16) := by
          split <;> split <;> omega
        rw [hnib]
      · rw [getD_set_other _ _ _ _ hsame]
  cases scaled
  · simp only [Bool.false_eq_true, if_false] at hv
    refine ⟨dxt3_block.set_alpha_store m_alpha x y v, ?_, key v hv⟩
    unfold dxt3_block.set_alpha cDXTBlockSize
    rw [if_pos ⟨hx, hy⟩, if_neg (by decide), if_pos hv]
  · simp only [if_true] at hv
    refine ⟨dxt3_block.set_alpha_store m_alpha x y ((v * 15 + 128) / 255), ?_,
      key _ (by omega)⟩
    unfold dxt3_block.set_alpha cDXTBlockSize
    rw [if_pos ⟨hx, hy⟩, if_pos rfl, if_pos hv]

/-- Witness of C14: writing 0x5 to texel (2, 1) of the bytes 0x10 .. 0x87
changes byte 3 from 0x43 to 0x45 and nothing else; the neighbour (3, 1) in
the same byte still reads 4. -/
theorem set_alpha_isolation_witness :
    ([0x10, 0x21, 0x32, 0x43, 0x54, 0x65, 0x76, 0x87] : List Nat).length = 8 ∧
    (∀ c ∈ ([0x10, 0x21, 0x32, 0x43, 0x54, 0x65, 0x76, 0x87] : List Nat), c < 256) ∧
    2 < 4 ∧ 1 < 4 ∧ 5 ≤ (if false = true then 255 else 15) ∧
    dxt3_block.set_alpha [0x10, 0x21, 0x32, 0x43, 0x54, 0x65, 0x76, 0x87] 2 1 5 false =
      Outcome.ok [0x10, 0x21, 0x32, 0x45, 0x54, 0x65, 0x76, 0x87] ∧
    dxt3_block.get_alpha [0x10, 0x21, 0x32, 0x45, 0x54, 0x65, 0x76, 0x87] 3 1 false =
      dxt3_block.get_alpha [0x10, 0x21, 0x32, 0x43, 0x54, 0x65, 0x76, 0x87] 3 1 false :=
  ⟨rfl, by decide, by decide, by decide, by decide, by decide,
    (set_alpha_isolation [0x10, 0x21, 0x32, 0x43, 0x54, 0x65, 0x76, 0x87] 2 1 5 false rfl
      (by decide) (by decide) (by decide) (by decide)).elim
      (fun m hm => by
        have hm0 : m = [0x10, 0x21, 0x32, 0x45, 0x54, 0x65, 0x76, 0x87] :=
          Outcome.ok.inj (hm.1.symm.trans (by decide))
        rw [← hm0]
        exact hm.2.2.2 3 1 false (by decide) (by decide) (by decide))⟩

/-- C15. For every 8-byte alpha array and every texel (x, y) with x, y < 4,
get_alpha reads byte index y*2 + x/2, which lies in 0..7, takes its low
nibble when x is even and its high nibble when x is odd, and returns that
nibble n when not scaled and (n << 4) | n when scaled. -/
theorem get_alpha_spec (m_alpha : List Nat) (x y : Nat) (scaled : Bool)
    (hlen : m_alpha.length = 8) (hx : x < 4) (hy : y < 4) :
    y * 2 + x / 2 < 8 ∧
    ∃ byte n, m_alpha[y * 2 + x / 2]? = some byte ∧
      n = (if x % 2 = 0 then byte &&& 0xF else (byte >>> 4) &&& 0xF) ∧
      dxt3_block.get_alpha m_alpha x y scaled =
        some (if scaled then (n <<< 4) ||| n else n) := by
  have h15 : ∀ c, c &&& 0xF = c % 16 := fun c => Nat.and_pow_two_sub_one_eq_mod c 4
  have s4 : ∀ c, c >>> 4 = c / 16 := fun c => Nat.shiftRight_eq_div_pow c 4
  have hofs : y * 2 + x / 2 < m_alpha.length := by omega
  refine ⟨by omega, m_alpha[y * 2 + x / 2], _, List.getElem?_eq_getElem hofs, rfl, ?_⟩
  rw [get_alpha_eq m_alpha x y scaled hx hy, List.getD_eq_getElem m_alpha 0 hofs, h15, s4, h15]
  have hn16 : (if x % 2 = 0 then m_alpha[y * 2 + x / 2] % 16
      else m_alpha[y * 2 + x / 2] / 16 % 16) < 16 := by
    split <;> omega
  rw [nibble_replicate _ hn16]

/-- Witness of C15: texel (1, 0) of an array whose byte 0 is 0xC4 reads the
high nibble 0xC, scaled to 0xCC. -/
theorem get_alpha_spec_witness :
    (([0xC4, 0, 0, 0, 0, 0, 0, 0] : List Nat).length = 8 ∧ 1 < 4 ∧ 0 < 4 ∧
    ∃ byte n, ([0xC4, 0, 0, 0, 0, 0, 0, 0] : List Nat)[0 * 2 + 1 / 2]? = some byte ∧
      n = (if 1 % 2 = 0 then byte &&& 0xF else (byte >>> 4) &&& 0xF) ∧
      dxt3_block.get_alpha [0xC4, 0, 0, 0, 0, 0, 0, 0] 1 0 true =
        some (if true = true then (n <<< 4) ||| n else n)) ∧
    dxt3_block.get_alpha [0xC4, 0, 0, 0, 0, 0, 0, 0] 1 0 true = some 0xCC :=
  ⟨⟨rfl, by decide, by decide,
    (get_alpha_spec [0xC4, 0, 0, 0, 0, 0, 0, 0] 1 0 true rfl (by decide) (by decide)).2⟩,
    by decide⟩

/-- C16. set_alpha fails its assertion exactly when x ≥ 4 or y ≥ 4, or
scaled is false and value > 15, or scaled is true and value > 255; a failing
call leaves the alpha array as it was, and every other call succeeds. -/
theorem set_alpha_assert (m_alpha : List Nat) (x y value : Nat) (scaled : Bool) :
    (dxt3_block.set_alpha m_alpha x y value scaled = Outcome.assert_failed m_alpha ↔
      (x ≥ 4 ∨ y ≥ 4 ∨ (scaled = false ∧ value > 15) ∨ (scaled = true ∧ value > 255))) ∧
    (∀ s, dxt3_block.set_alpha m_alpha x y value scaled = Outcome.assert_failed s →
      s = m_alpha) ∧
    ((∃ m, dxt3_block.set_alpha m_alpha x y value scaled = Outcome.ok m) ↔
      ¬ (x ≥ 4 ∨ y ≥ 4 ∨ (scaled = false ∧ value > 15) ∨ (scaled = true ∧ value > 255))) := by
  unfold dxt3_block.set_alpha cDXTBlockSize
  by_cases hxy : x < 4 ∧ y < 4
  · rw [if_pos hxy]
    cases scaled
    · rw [if_neg (by decide)]
      by_cases hv : value ≤ 0xF
      · rw [if_pos hv]
        have hv2 : value ≤ 15 := hv
        refine ⟨⟨fun h => (by cases h), fun h => by simp at h; omega⟩,
          fun s h => (by cases h), ⟨fun _ => by simp; omega, fun _ => ⟨_, rfl⟩⟩⟩
      · rw [if_neg hv]
        have hv2 : ¬ value ≤ 15 := hv
        refine ⟨⟨fun _ => by simp; omega, fun _ => rfl⟩,
          fun s h => (Outcome.assert_failed.inj h).symm,
          ⟨fun ⟨m, h⟩ => (by cases h), fun h => by simp at h; omega⟩⟩
    · rw [if_pos rfl]
      by_cases hv : value ≤ 0xFF
      · rw [if_pos hv]
        have hv2 : value ≤ 255 := hv
        refine ⟨⟨fun h => (by cases h), fun h => by simp at h; omega⟩,
          fun s h => (by cases h), ⟨fun _ => by simp; omega, fun _ => ⟨_, rfl⟩⟩⟩
      · rw [if_neg hv]
        have hv2 : ¬ value ≤ 255 := hv
        refine ⟨⟨fun _ => by simp; omega, fun _ => rfl⟩,
          fun s h => (Outcome.assert_failed.inj h).symm,
          ⟨fun ⟨m, h⟩ => (by cases h), fun h => by simp at h; omega⟩⟩
  · rw [if_neg hxy]
    refine ⟨⟨fun _ => by omega, fun _ => rfl⟩,
      fun s h => (Outcome.assert_failed.inj h).symm,
      ⟨fun ⟨m, h⟩ => (by cases h), fun h => by omega⟩⟩

/-! ## Selector tables -/

/-- C17. Table bijectivity: for every i in 0..3,
g_dxt1_to_linear[g_dxt1_from_linear[i]] = i and
g_dxt1_from_linear[g_dxt1_to_linear[i]] = i; for every i in 0..7,
g_dxt5_to_linear[g_dxt5_from_linear[i]] = i and
g_dxt5_from_linear[g_dxt5_to_linear[i]] = i. -/
theorem table_bijectivity :
    (∀ i < 4, lookup2 g_dxt1_from_linear g_dxt1_to_linear i = some i) ∧
    (∀ i < 4, lookup2 g_dxt1_to_linear g_dxt1_from_linear i = some i) ∧
    (∀ i < 8, lookup2 g_dxt5_from_linear g_dxt5_to_linear i = some i) ∧
    (∀ i < 8, lookup2 g_dxt5_to_linear g_dxt5_from_linear i = some i) := by
  decide

/-! ## Invert tables and linear order -/

/-- The ramp of the integer `get_block_values8` for byte endpoints. -/
theorem values8_eq (pDst : List Nat) (l h : Nat)
    (hlen : pDst.length = 8) (hl : l ≤ 255) (hh : h ≤ 255) :
    dxt5_block.get_block_values8 pDst l h =
      (8, [l, h, (l * 6 + h) / 7, (l * 5 + h * 2) / 7, (l * 4 + h * 3) / 7,
           (l * 3 + h * 4) / 7, (l * 2 + h * 5) / 7, (l + h * 6) / 7]) := by
  obtain ⟨a, b, c, d, e, f, g, i, rfl⟩ := length_eight pDst hlen
  simp only [dxt5_block.get_block_values8, List.set]
  rw [u32_of_lt (by omega), u32_of_lt (by omega), u32_of_lt (by omega), u32_of_lt (by omega),
    u32_of_lt (by omega), u32_of_lt (by omega)]

/-- The ramp of the integer `get_block_values6` for byte endpoints. -/
theorem values6_eq (pDst : List Nat) (l h : Nat)
    (hlen : pDst.length = 8) (hl : l ≤ 255) (hh : h ≤ 255) :
    dxt5_block.get_block_values6 pDst l h =
      (6, [l, h, (l * 4 + h) / 5, (l * 3 + h * 2) / 5, (l * 2 + h * 3) / 5,
           (l + h * 4) / 5, 0, 255]) := by
  obtain ⟨a, b, c, d, e, f, g, i, rfl⟩ := length_eight pDst hlen
  simp only [dxt5_block.get_block_values6, List.set]
  rw [u32_of_lt (by omega), u32_of_lt (by omega), u32_of_lt (by omega), u32_of_lt (by omega)]

/-- C18. Invert tables express endpoint swapping: for all l, h in 0..255 and
every selector i in 0..7, get_block_values8(h, l)[g_eight_alpha_invert_table[i]]
= get_block_values8(l, h)[i] and get_block_values6(h, l)[g_six_alpha_invert_table[i]]
= get_block_values6(l, h)[i]; each invert table is an involution on 0..7. -/
theorem invert_tables_swap (pSwap pDst : List Nat) (l h i : Nat)
    (hswap : pSwap.length = 8) (hlen : pDst.length = 8)
    (hl : l ≤ 255) (hh : h ≤ 255) (hi : i < 8) :
    (∃ j v, g_eight_alpha_invert_table[i]? = some j ∧
      (dxt5_block.get_block_values8 pSwap h l).2[j]? = some v ∧
      (dxt5_block.get_block_values8 pDst l h).2[i]? = some v) ∧
    (∃ j v, g_six_alpha_invert_table[i]? = some j ∧
      (dxt5_block.get_block_values6 pSwap h l).2[j]? = some v ∧
      (dxt5_block.get_block_values6 pDst l h).2[i]? = some v) ∧
    lookup2 g_eight_alpha_invert_table g_eight_alpha_invert_table i = some i ∧
    lookup2 g_six_alpha_invert_table g_six_alpha_invert_table i = some i := by
  rw [values8_eq pSwap h l hswap hh hl, values8_eq pDst l h hlen hl hh,
    values6_eq pSwap h l hswap hh hl, values6_eq pDst l h hlen hl hh]
  have c1 : ∀ a b : Nat, a + b = b + a := Nat.add_comm
  interval_cases i
  · exact ⟨⟨1, l, rfl, rfl, rfl⟩, ⟨1, l, rfl, rfl, rfl⟩, rfl, rfl⟩
  · exact ⟨⟨0, h, rfl, rfl, rfl⟩, ⟨0, h, rfl, rfl, rfl⟩, rfl, rfl⟩
  · exact ⟨⟨7, (h + l * 6) / 7, rfl, rfl, by rw [c1 h]; rfl⟩,
      ⟨5, (h + l * 4) / 5, rfl, rfl, by rw [c1 h]; rfl⟩, rfl, rfl⟩
  · exact ⟨⟨6, (h * 2 + l * 5) / 7, rfl, rfl, by rw [c1 (h * 2)]; rfl⟩,
      ⟨4, (h * 2 + l * 3) / 5, rfl, rfl, by rw [c1 (h * 2)]; rfl⟩, rfl, rfl⟩
  · exact ⟨⟨5, (h * 3 + l * 4) / 7, rfl, rfl, by rw [c1 (h * 3)]; rfl⟩,
      ⟨3, (h * 3 + l * 2) / 5, rfl, rfl, by rw [c1 (h * 3)]; rfl⟩, rfl, rfl⟩
  · exact ⟨⟨4, (h * 4 + l * 3) / 7, rfl, rfl, by rw [c1 (h * 4)]; rfl⟩,
      ⟨2, (h * 4 + l) / 5, rfl, rfl, by rw [c1 (h * 4)]; rfl⟩, rfl, rfl⟩
  · exact ⟨⟨3, (h * 5 + l * 2) / 7, rfl, rfl, by rw [c1 (h * 5)]; rfl⟩,
      ⟨6, 0, rfl, rfl, rfl⟩, rfl, rfl⟩
  · exact ⟨⟨2, (h * 6 + l) / 7, rfl, rfl, by rw [c1 (h * 6)]; rfl⟩,
      ⟨7, 255, rfl, rfl, rfl⟩, rfl, rfl⟩

/-- Witness of C18: l = 200, h = 10, selector 3; both sides read 145 in
8-value mode and 124 in 6-value mode. -/
theorem invert_tables_swap_witness :
    (List.replicate 8 0).length = 8 ∧ (List.replicate 8 9).length = 8 ∧
    200 ≤ 255 ∧ 10 ≤ 255 ∧ 3 < 8 ∧
    ∃ j v, g_eight_alpha_invert_table[3]? = some j ∧
      (dxt5_block.get_block_values8 (List.replicate 8 0) 10 200).2[j]? = some v ∧
      (dxt5_block.get_block_values8 (List.replicate 8 9) 200 10).2[3]? = some v :=
  ⟨rfl, rfl, by decide, by decide, by decide,
    (invert_tables_swap (List.replicate 8 0) (List.replicate 8 9) 200 10 3 rfl rfl
      (by decide) (by decide) (by decide)).1⟩

/-- C19. DXT5 linear order follows the ramp: for all l, h in 0..255 the eight
values of get_block_values8(l, h) read in linear order,
v_i = ramp[g_dxt5_from_linear[i]], run from v_0 = l to v_7 = h and are
non-decreasing when l ≤ h and non-increasing when l ≥ h. -/
theorem dxt5_linear_order (pDst : List Nat) (l h : Nat) (v : List Nat)
    (hlen : pDst.length = 8) (hl : l ≤ 255) (hh : h ≤ 255)
    (hv : v = g_dxt5_from_linear.filterMap
      (fun j => (dxt5_block.get_block_values8 pDst l h).2[j]?)) :
    v.length = 8 ∧ v[0]? = some l ∧ v[7]? = some h ∧
    (l ≤ h → v.Pairwise (fun a b => a ≤ b)) ∧
    (l ≥ h → v.Pairwise (fun a b => a ≥ b)) := by
  rw [values8_eq pDst l h hlen hl hh] at hv
  have hv2 : v = [l, (l * 6 + h) / 7, (l * 5 + h * 2) / 7, (l * 4 + h * 3) / 7,
      (l * 3 + h * 4) / 7, (l * 2 + h * 5) / 7, (l + h * 6) / 7, h] := by
    rw [hv]; rfl
  subst hv2
  refine ⟨rfl, rfl, rfl, ?_, ?_⟩
  · intro hle
    simp only [List.pairwise_cons, List.mem_cons, List.mem_singleton, List.not_mem_nil,
      forall_eq_or_imp, forall_eq, List.Pairwise.nil, and_true, false_imp_iff, implies_true]
    omega
  · intro hge
    simp only [List.pairwise_cons, List.mem_cons, List.mem_singleton, List.not_mem_nil,
      forall_eq_or_imp, forall_eq, List.Pairwise.nil, and_true, false_imp_iff, implies_true]
    omega

/-- Witness of C19: l = 255, h = 0 reads 255, 218, 182, 145, 109, 72, 36, 0 in
linear order. -/
theorem dxt5_linear_order_witness :
    (List.replicate 8 9).length = 8 ∧ 255 ≤ 255 ∧ 0 ≤ 255 ∧
    [255, 218, 182, 145, 109, 72, 36, 0] = g_dxt5_from_linear.filterMap
      (fun j => (dxt5_block.get_block_values8 (List.replicate 8 9) 255 0).2[j]?) ∧
    (255 ≥ 0 → [255, 218, 182, 145, 109, 72, 36, 0].Pairwise (fun a b => a ≥ b)) :=
  ⟨rfl, by decide, by decide, by decide,
    (dxt5_linear_order (List.replicate 8 9) 255 0 [255, 218, 182, 145, 109, 72, 36, 0] rfl
      (by decide) (by decide) (by decide)).2.2.2.2⟩


/-- C20. DXT1 linear order follows the ramp: for every pair of packed
endpoints and every channel c in r, g, b, the four values of
get_block_colors4 and of get_block_colors4_round read in linear order,
v_i = palette[g_dxt1_from_linear[i]].c, run from endpoint 0 to endpoint 1 and
are non-decreasing when c0 ≤ c1 and non-increasing when c0 ≥ c1. -/
theorem dxt1_linear_order (pDst : List color_quad_u8) (color0 color1 : Nat)
    (c0 c1 : color_quad_u8)
    (hlen : pDst.length = 4) (h0 : c0 = dxt1_block.unpack_color color0 true 255)
    (h1 : c1 = dxt1_block.unpack_color color1 true 255) :
    ∀ f ∈ [dxt1_block.get_block_colors4, dxt1_block.get_block_colors4_round],
    ∀ chan ∈ [color_quad_u8.r, color_quad_u8.g, color_quad_u8.b],
    ∃ v : List Nat,
      v = g_dxt1_from_linear.filterMap (fun j => ((f pDst color0 color1).2[j]?).map chan) ∧
      v.length = 4 ∧ v[0]? = some (chan c0) ∧ v[3]? = some (chan c1) ∧
      (chan c0 ≤ chan c1 → v.Pairwise (fun a b => a ≤ b)) ∧
      (chan c0 ≥ chan c1 → v.Pairwise (fun a b => a ≥ b)) := by
  have e4 := colors4_eq pDst color0 color1 c0 c1 hlen h0 h1
  have e4r := colors4_round_eq pDst color0 color1 c0 c1 hlen h0 h1
  intro f hf chan hchan
  simp only [List.mem_cons, List.mem_singleton, List.not_mem_nil, or_false] at hf hchan
  refine ⟨_, rfl, ?_⟩
  rcases hf with rfl | rfl
  · rw [e4]
    rcases hchan with rfl | rfl | rfl <;>
    · refine ⟨rfl, rfl, rfl, ?_, ?_⟩ <;>
      · intro hle
        simp only [g_dxt1_from_linear, List.filterMap_cons, List.filterMap_nil,
          List.getElem?_cons_zero, List.getElem?_cons_succ, Option.map_some',
          List.pairwise_cons, List.mem_cons, List.mem_singleton, List.not_mem_nil,
          forall_eq_or_imp, forall_eq, List.Pairwise.nil, and_true, false_imp_iff,
          implies_true]
        omega
  · rw [e4r]
    rcases hchan with rfl | rfl | rfl <;>
    · refine ⟨rfl, rfl, rfl, ?_, ?_⟩ <;>
      · intro hle
        simp only [g_dxt1_from_linear, List.filterMap_cons, List.filterMap_nil,
          List.getElem?_cons_zero, List.getElem?_cons_succ, Option.map_some',
          List.pairwise_cons, List.mem_cons, List.mem_singleton, List.not_mem_nil,
          forall_eq_or_imp, forall_eq, List.Pairwise.nil, and_true, false_imp_iff,
          implies_true]
        omega

/-- Witness of C20: endpoints 0xFFFF and 0x0000, red channel of the truncating
palette: 255, 170, 85, 0. -/
theorem dxt1_linear_order_witness :
    ([⟨1, 2, 3, 4⟩, ⟨5, 6, 7, 8⟩, ⟨9, 10, 11, 12⟩, ⟨13, 14, 15, 16⟩] :
        List color_quad_u8).length = 4 ∧
    (⟨255, 255, 255, 255⟩ : color_quad_u8) = dxt1_block.unpack_color 0xFFFF true 255 ∧
    (⟨0, 0, 0, 255⟩ : color_quad_u8) = dxt1_block.unpack_color 0x0000 true 255 ∧
    ∃ v : List Nat,
      v = g_dxt1_from_linear.filterMap (fun j => ((dxt1_block.get_block_colors4
        [⟨1, 2, 3, 4⟩, ⟨5, 6, 7, 8⟩, ⟨9, 10, 11, 12⟩, ⟨13, 14, 15, 16⟩]
        0xFFFF 0x0000).2[j]?).map color_quad_u8.r) ∧
      v.length = 4 ∧ v[0]? = some 255 ∧ v[3]? = some 0 ∧
      ((255 : Nat) ≤ 0 → v.Pairwise (fun a b => a ≤ b)) ∧
      ((255 : Nat) ≥ 0 → v.Pairwise (fun a b => a ≥ b)) :=
  ⟨rfl, rfl, rfl,
    dxt1_linear_order [⟨1, 2, 3, 4⟩, ⟨5, 6, 7, 8⟩, ⟨9, 10, 11, 12⟩, ⟨13, 14, 15, 16⟩]
      0xFFFF 0x0000 ⟨255, 255, 255, 255⟩ ⟨0, 0, 0, 255⟩ rfl rfl rfl
      dxt1_block.get_block_colors4 (by simp) color_quad_u8.r (by simp)⟩

/-! ## Endpoint words -/

/-- A low part below `2 ^ k` and a high part shifted by `k` add up without carries. -/
theorem or_shiftLeft_eq_add (lo hi k : Nat) (hlo : lo < 2 ^ k) :
    lo ||| (hi <<< k) = 2 ^ k * hi + lo := by
  rw [Nat.or_comm, Nat.shiftLeft_eq, Nat.mul_comm hi]
  exact (Nat.mul_add_lt_is_or hlo hi).symm

/-- C21. DXT5 endpoint packing round trip: for all lo, hi in 0..255,
pack_endpoints(lo, hi) = lo | (hi << 8), unpack_endpoint of that word at
index 0 is lo and at index 1 is hi. -/
theorem dxt5_endpoints_roundtrip (lo hi : Nat) (hlo : lo ≤ 255) (hhi : hi ≤ 255) :
    dxt5_block.pack_endpoints lo hi = some (lo ||| (hi <<< 8)) ∧
    dxt5_block.unpack_endpoint (lo ||| (hi <<< 8)) 0 = some lo ∧
    dxt5_block.unpack_endpoint (lo ||| (hi <<< 8)) 1 = some hi := by
  have hsum : lo ||| (hi <<< 8) = 256 * hi + lo := or_shiftLeft_eq_add lo hi 8 (by omega)
  have hsh : hi <<< 8 = hi * 256 := Nat.shiftLeft_eq hi 8
  have hmask : ∀ c, c &&& 0xFF = c % 256 := fun c => Nat.and_pow_two_sub_one_eq_mod c 8
  have s8 : ∀ c, c >>> (8 * 1) = c / 256 := fun c => Nat.shiftRight_eq_div_pow c 8
  have s0 : ∀ c, c >>> (8 * 0) = c := fun c => rfl
  refine ⟨?_, ?_, ?_⟩
  · unfold dxt5_block.pack_endpoints
    rw [if_pos ⟨hlo, hhi⟩, u32_of_lt (by omega)]
  · unfold dxt5_block.unpack_endpoint
    rw [if_pos (by decide), s0, hmask, hsum]
    congr 1; omega
  · unfold dxt5_block.unpack_endpoint
    rw [if_pos (by decide), s8, hmask, hsum]
    congr 1; omega

/-- Witness of C21: lo = 0x12, hi = 0xAB pack to 0xAB12. -/
theorem dxt5_endpoints_roundtrip_witness :
    (0x12 ≤ 255 ∧ 0xAB ≤ 255) ∧
    dxt5_block.pack_endpoints 0x12 0xAB = some 0xAB12 ∧
    dxt5_block.unpack_endpoint 0xAB12 0 = some 0x12 ∧
    dxt5_block.unpack_endpoint 0xAB12 1 = some 0xAB :=
  ⟨by decide, dxt5_endpoints_roundtrip 0x12 0xAB (by decide) (by decide)⟩

/-- C22. DXT1 endpoint packing round trip: for all lo, hi in 0..0xFFFF,
pack_endpoints(lo, hi) = lo | (hi << 16), and for either scaled flag and
every alpha a, unpack_endpoint of that word at index 0 is
unpack_color(lo, scaled, a) and at index 1 is unpack_color(hi, scaled, a). -/
theorem dxt1_endpoints_roundtrip (lo hi a : Nat) (scaled : Bool)
    (hlo : lo ≤ 0xFFFF) (hhi : hi ≤ 0xFFFF) :
    dxt1_block.pack_endpoints lo hi = some (lo ||| (hi <<< 16)) ∧
    dxt1_block.unpack_endpoint (lo ||| (hi <<< 16)) 0 scaled a =
      some (dxt1_block.unpack_color lo scaled a) ∧
    dxt1_block.unpack_endpoint (lo ||| (hi <<< 16)) 1 scaled a =
      some (dxt1_block.unpack_color hi scaled a) := by
  have hlo2 : lo ≤ 65535 := hlo
  have hhi2 : hi ≤ 65535 := hhi
  have hsum : lo ||| (hi <<< 16) = 65536 * hi + lo := or_shiftLeft_eq_add lo hi 16 (by omega)
  have hsh : hi <<< 16 = hi * 65536 := Nat.shiftLeft_eq hi 16
  have hmask : ∀ c, c &&& 0xFFFF = c % 65536 := fun c => Nat.and_pow_two_sub_one_eq_mod c 16
  have s16 : ∀ c, c >>> (1 * 16) = c / 65536 := fun c => Nat.shiftRight_eq_div_pow c 16
  have s0 : ∀ c, c >>> (0 * 16) = c := fun c => rfl
  refine ⟨?_, ?_, ?_⟩
  · unfold dxt1_block.pack_endpoints
    rw [if_pos ⟨hlo, hhi⟩, u32_of_lt (by omega)]
  · unfold dxt1_block.unpack_endpoint
    rw [if_pos (by decide), s0, hmask, hsum]
    have e : u16 ((65536 * hi + lo) % 65536) = lo := by unfold u16; omega
    rw [e]
  · unfold dxt1_block.unpack_endpoint
    rw [if_pos (by decide), s16, hmask, hsum]
    have e : u16 ((65536 * hi + lo) / 65536 % 65536) = hi := by unfold u16; omega
    rw [e]

/-- Witness of C22: lo = 0xF800 (red), hi = 0x001F (blue) pack to 0x001FF800. -/
theorem dxt1_endpoints_roundtrip_witness :
    (0xF800 ≤ 0xFFFF ∧ 0x001F ≤ 0xFFFF) ∧
    dxt1_block.pack_endpoints 0xF800 0x001F = some 0x001FF800 ∧
    dxt1_block.unpack_endpoint 0x001FF800 0 true 255 = some ⟨255, 0, 0, 255⟩ ∧
    dxt1_block.unpack_endpoint 0x001FF800 1 true 255 = some ⟨0, 0, 255, 255⟩ :=
  ⟨by decide, dxt1_endpoints_roundtrip 0xF800 0x001F 255 true (by decide) (by decide)⟩

/-- C23. The endpoint helpers reject out-of-range arguments:
dxt5_block::pack_endpoints fails its assertion exactly when lo > 255 or
hi > 255, dxt1_block::pack_endpoints exactly when lo > 0xFFFF or hi > 0xFFFF,
and unpack_endpoint of either block type exactly when index ≥ 2. -/
theorem endpoint_helpers_assert (lo hi packed index alpha : Nat) (scaled : Bool) :
    (dxt5_block.pack_endpoints lo hi = none ↔ (lo > 255 ∨ hi > 255)) ∧
    (dxt1_block.pack_endpoints lo hi = none ↔ (lo > 0xFFFF ∨ hi > 0xFFFF)) ∧
    (dxt5_block.unpack_endpoint packed index = none ↔ index ≥ 2) ∧
    (dxt1_block.unpack_endpoint packed index scaled alpha = none ↔ index ≥ 2) := by
  unfold dxt5_block.pack_endpoints dxt1_block.pack_endpoints dxt5_block.unpack_endpoint
    dxt1_block.unpack_endpoint
  refine ⟨?_, ?_, ?_, ?_⟩
  · by_cases h : lo ≤ 0xFF ∧ hi ≤ 0xFF
    · rw [if_pos h]
      have h1 : lo ≤ 255 := h.1
      have h2 : hi ≤ 255 := h.2
      exact ⟨fun e => (by cases e), fun e => by omega⟩
    · rw [if_neg h]
      have h3 : ¬ (lo ≤ 255 ∧ hi ≤ 255) := h
      exact ⟨fun _ => by omega, fun _ => rfl⟩
  · by_cases h : lo ≤ 0xFFFF ∧ hi ≤ 0xFFFF
    · rw [if_pos h]
      have h1 : lo ≤ 65535 := h.1
      have h2 : hi ≤ 65535 := h.2
      exact ⟨fun e => (by cases e), fun e => by omega⟩
    · rw [if_neg h]
      have h3 : ¬ (lo ≤ 65535 ∧ hi ≤ 65535) := h
      exact ⟨fun _ => by omega, fun _ => rfl⟩
  · by_cases h : index < 2
    · rw [if_pos h]
      exact ⟨fun e => (by cases e), fun e => by omega⟩
    · rw [if_neg h]
      exact ⟨fun _ => by omega, fun _ => rfl⟩
  · by_cases h : index < 2
    · rw [if_pos h]
      exact ⟨fun e => (by cases e), fun e => by omega⟩
    · rw [if_neg h]
      exact ⟨fun _ => by omega, fun _ => rfl⟩

/-! ## Format metadata -/

/-- C24. get_dxt_format_bits_per_pixel returns 4 for exactly the formats
DXT1, DXT1A, DXT5A and ETC1, and 8 for exactly the formats DXT3, DXT5, DXN_XY
and DXN_YX; for every known format the result is 4 or 8. -/
theorem bits_per_pixel_spec (fmt : dxt_format) :
    (get_dxt_format_bits_per_pixel fmt = some 4 ↔
      fmt ∈ [dxt_format.cDXT1, dxt_format.cDXT1A, dxt_format.cDXT5A, dxt_format.cETC1]) ∧
    (get_dxt_format_bits_per_pixel fmt = some 8 ↔
      fmt ∈ [dxt_format.cDXT3, dxt_format.cDXT5, dxt_format.cDXN_XY, dxt_format.cDXN_YX]) ∧
    ((∀ tag, fmt ≠ dxt_format.other tag) →
      get_dxt_format_bits_per_pixel fmt = some 4 ∨
      get_dxt_format_bits_per_pixel fmt = some 8) := by
  cases fmt <;> simp [get_dxt_format_bits_per_pixel]

/-- C25. get_dxt_format_has_alpha returns true for exactly the formats DXT1A,
DXT3, DXT5 and DXT5A, and false for DXT1, DXN_XY, DXN_YX and ETC1. -/
theorem has_alpha_spec (fmt : dxt_format) :
    (get_dxt_format_has_alpha fmt = some true ↔
      fmt ∈ [dxt_format.cDXT1A, dxt_format.cDXT3, dxt_format.cDXT5, dxt_format.cDXT5A]) ∧
    (fmt ∈ [dxt_format.cDXT1, dxt_format.cDXN_XY, dxt_format.cDXN_YX, dxt_format.cETC1] →
      get_dxt_format_has_alpha fmt = some false) := by
  cases fmt <;> simp [get_dxt_format_has_alpha]

/-- C26, as stated, fails: on the unknown tag -1 get_dxt_format_has_alpha
does not fail its assertion, it returns false. -/
theorem unknown_format_counterexample :
    (dxt_format.other (-1) ∉ [dxt_format.cDXT1, dxt_format.cDXT1A, dxt_format.cDXT3,
      dxt_format.cDXT5, dxt_format.cDXT5A, dxt_format.cDXN_XY, dxt_format.cDXN_YX,
      dxt_format.cETC1]) ∧
    get_dxt_format_has_alpha (dxt_format.other (-1)) = some false ∧
    ¬ (get_dxt_format_string (dxt_format.other (-1)) = none ∧
       get_dxt_format_bits_per_pixel (dxt_format.other (-1)) = none ∧
       get_dxt_format_has_alpha (dxt_format.other (-1)) = none) := by
  refine ⟨by decide, rfl, by decide⟩

/-- C26, amended. For every format tag that is not one of the eight known
formats, get_dxt_format_string and get_dxt_format_bits_per_pixel fail their
assertion instead of returning a value, and get_dxt_format_has_alpha, which
has no assertion, returns false. -/
theorem unknown_format_queries (fmt : dxt_format)
    (hfmt : fmt ∉ [dxt_format.cDXT1, dxt_format.cDXT1A, dxt_format.cDXT3, dxt_format.cDXT5,
      dxt_format.cDXT5A, dxt_format.cDXN_XY, dxt_format.cDXN_YX, dxt_format.cETC1]) :
    get_dxt_format_string fmt = none ∧
    get_dxt_format_bits_per_pixel fmt = none ∧
    get_dxt_format_has_alpha fmt = some false := by
  cases fmt <;> simp [get_dxt_format_string, get_dxt_format_bits_per_pixel,
    get_dxt_format_has_alpha] at hfmt ⊢

/-- Witness of the amended C26: the tag 99. -/
theorem unknown_format_queries_witness :
    (dxt_format.other 99 ∉ [dxt_format.cDXT1, dxt_format.cDXT1A, dxt_format.cDXT3,
      dxt_format.cDXT5, dxt_format.cDXT5A, dxt_format.cDXN_XY, dxt_format.cDXN_YX,
      dxt_format.cETC1]) ∧
    get_dxt_format_string (dxt_format.other 99) = none ∧
    get_dxt_format_bits_per_pixel (dxt_format.other 99) = none ∧
    get_dxt_format_has_alpha (dxt_format.other 99) = some false :=
  ⟨by decide, unknown_format_queries (dxt_format.other 99) (by decide)⟩

/-! ## The NV5x palette -/

/-- The C division by 4 in terms of the floor division. -/
theorem tdiv_four (d : Int) : d.tdiv 4 = if 0 ≤ d then d / 4 else -((-d) / 4) := by
  by_cases h : 0 ≤ d
  · rw [if_pos h, Int.tdiv_eq_ediv h (by decide)]
  · have h2 : 0 ≤ -d := by omega
    rw [if_neg h, ← Int.tdiv_eq_ediv h2 (by decide), Int.neg_tdiv, neg_neg]

/-- An `int` in 0..255 survives the conversion to `uint8_t`. -/
theorem u8_u8i (v : Int) (h0 : 0 ≤ v) (h1 : v ≤ 255) : u8 (u8i v) = v.toNat := by
  unfold u8 u8i
  omega

/-- The three green expressions of the NV5x palette stay in 0..255. -/
theorem nv5x_green_bounds (G0 G1 : Nat) (d : Int) (h0 : G0 ≤ 255) (h1 : G1 ≤ 255)
    (hd : d = (G1 : Int) - (G0 : Int)) :
    (0 ≤ (256 * (G0 : Int) + d.tdiv 4 + 128 + d * 80).tdiv 256 ∧
      (256 * (G0 : Int) + d.tdiv 4 + 128 + d * 80).tdiv 256 ≤ 255) ∧
    (0 ≤ (256 * (G1 : Int) - d.tdiv 4 + 128 - d * 80).tdiv 256 ∧
      (256 * (G1 : Int) - d.tdiv 4 + 128 - d * 80).tdiv 256 ≤ 255) ∧
    (0 ≤ (256 * (G0 : Int) + d.tdiv 4 + 128 + d * 128).tdiv 256 ∧
      (256 * (G0 : Int) + d.tdiv 4 + 128 + d * 128).tdiv 256 ≤ 255) := by
  have ht := tdiv_four d
  generalize d.tdiv 4 = q at ht
  have n1 : 0 ≤ 256 * (G0 : Int) + q + 128 + d * 80 := by split at ht <;> omega
  have n2 : 0 ≤ 256 * (G1 : Int) - q + 128 - d * 80 := by split at ht <;> omega
  have n3 : 0 ≤ 256 * (G0 : Int) + q + 128 + d * 128 := by split at ht <;> omega
  rw [Int.tdiv_eq_ediv n1 (by decide), Int.tdiv_eq_ediv n2 (by decide),
    Int.tdiv_eq_ediv n3 (by decide)]
  split at ht <;> omega

/-- The unscaled fields of a packed color are a 5-bit red, a 6-bit green and
a 5-bit blue. -/
theorem unpack_unscaled_le (p : Nat) :
    (dxt1_block.unpack_color p false 255).r ≤ 31 ∧
    (dxt1_block.unpack_color p false 255).g ≤ 63 ∧
    (dxt1_block.unpack_color p false 255).b ≤ 31 := by
  have hb := and31_lt p
  have hg := and63_lt (p >>> 5)
  have hr := and31_lt (p >>> 11)
  rw [unpack_color_eq]
  simp only [Bool.false_eq_true, if_false]
  omega

/-- The assignment `pDst[i].r = v` on a four-entry array. -/
theorem set_r_four (a b c d : color_quad_u8) (v : Nat) :
    set_r [a, b, c, d] 0 v = [{ a with r := u8 v }, b, c, d] ∧
    set_r [a, b, c, d] 1 v = [a, { b with r := u8 v }, c, d] ∧
    set_r [a, b, c, d] 2 v = [a, b, { c with r := u8 v }, d] ∧
    set_r [a, b, c, d] 3 v = [a, b, c, { d with r := u8 v }] :=
  ⟨rfl, rfl, rfl, rfl⟩

/-- The assignment `pDst[i].g = v` on a four-entry array. -/
theorem set_g_four (a b c d : color_quad_u8) (v : Nat) :
    set_g [a, b, c, d] 0 v = [{ a with g := u8 v }, b, c, d] ∧
    set_g [a, b, c, d] 1 v = [a, { b with g := u8 v }, c, d] ∧
    set_g [a, b, c, d] 2 v = [a, b, { c with g := u8 v }, d] ∧
    set_g [a, b, c, d] 3 v = [a, b, c, { d with g := u8 v }] :=
  ⟨rfl, rfl, rfl, rfl⟩

/-- The assignment `pDst[i].b = v` on a four-entry array. -/
theorem set_b_four (a b c d : color_quad_u8) (v : Nat) :
    set_b [a, b, c, d] 0 v = [{ a with b := u8 v }, b, c, d] ∧
    set_b [a, b, c, d] 1 v = [a, { b with b := u8 v }, c, d] ∧
    set_b [a, b, c, d] 2 v = [a, b, { c with b := u8 v }, d] ∧
    set_b [a, b, c, d] 3 v = [a, b, c, { d with b := u8 v }] :=
  ⟨rfl, rfl, rfl, rfl⟩

/-- The assignment `pDst[i].a = v` on a four-entry array. -/
theorem set_a_four (a b c d : color_quad_u8) (v : Nat) :
    set_a [a, b, c, d] 0 v = [{ a with a := u8 v }, b, c, d] ∧
    set_a [a, b, c, d] 1 v = [a, { b with a := u8 v }, c, d] ∧
    set_a [a, b, c, d] 2 v = [a, b, { c with a := u8 v }, d] ∧
    set_a [a, b, c, d] 3 v = [a, b, c, { d with a := u8 v }] :=
  ⟨rfl, rfl, rfl, rfl⟩

/-- The read `pDst[i].g` on a four-entry array. -/
theorem get_g_four (a b c d : color_quad_u8) :
    get_g [a, b, c, d] 0 = a.g ∧ get_g [a, b, c, d] 1 = b.g :=
  ⟨rfl, rfl⟩

/-- C27. The NV5x palette: with unscaled fields (r0, g0, b0), (r1, g1, b1) of
the two packed endpoints, expanded greens G0, G1 and d = G1 - G0, entries 0
and 1 have red/blue (3*c*22)/8, green (g << 2) | (g >> 4) and alpha 255; with
color4, entry 2 has red/blue ((2*c0 + c1)*22)/8 and green
(256*G0 + d/4 + 128 + d*80)/256, entry 3 has red/blue ((2*c1 + c0)*22)/8 and
green (256*G1 - d/4 + 128 - d*80)/256, both with alpha 255; without color4,
entry 2 has red/blue ((c0 + c1)*33)/8, green (256*G0 + d/4 + 128 + d*128)/256
and alpha 255, and entry 3 is (0,0,0,0). The divisions on d truncate toward
zero, and every green expression lies in 0..255. -/
theorem nv5x_palette (pDst : List color_quad_u8) (packed_col0 packed_col1 : Nat)
    (c0 c1 : color_quad_u8) (G0 G1 : Nat) (d : Int) (hlen : pDst.length = 4)
    (h0 : c0 = dxt1_block.unpack_color packed_col0 false 255)
    (h1 : c1 = dxt1_block.unpack_color packed_col1 false 255)
    (hG0 : G0 = (c0.g <<< 2) ||| (c0.g >>> 4)) (hG1 : G1 = (c1.g <<< 2) ||| (c1.g >>> 4))
    (hd : d = (G1 : Int) - (G0 : Int)) :
    dxt1_block.get_block_colors_NV5x pDst packed_col0 packed_col1 true =
      [⟨(3 * c0.r * 22) / 8, G0, (3 * c0.b * 22) / 8, 255⟩,
       ⟨(3 * c1.r * 22) / 8, G1, (3 * c1.b * 22) / 8, 255⟩,
       ⟨((2 * c0.r + c1.r) * 22) / 8,
        ((256 * (G0 : Int) + d.tdiv 4 + 128 + d * 80).tdiv 256).toNat,
        ((2 * c0.b + c1.b) * 22) / 8, 255⟩,
       ⟨((2 * c1.r + c0.r) * 22) / 8,
        ((256 * (G1 : Int) - d.tdiv 4 + 128 - d * 80).tdiv 256).toNat,
        ((2 * c1.b + c0.b) * 22) / 8, 255⟩] ∧
    dxt1_block.get_block_colors_NV5x pDst packed_col0 packed_col1 false =
      [⟨(3 * c0.r * 22) / 8, G0, (3 * c0.b * 22) / 8, 255⟩,
       ⟨(3 * c1.r * 22) / 8, G1, (3 * c1.b * 22) / 8, 255⟩,
       ⟨((c0.r + c1.r) * 33) / 8,
        ((256 * (G0 : Int) + d.tdiv 4 + 128 + d * 128).tdiv 256).toNat,
        ((c0.b + c1.b) * 33) / 8, 255⟩,
       ⟨0, 0, 0, 0⟩] ∧
    (0 ≤ (256 * (G0 : Int) + d.tdiv 4 + 128 + d * 80).tdiv 256 ∧
      (256 * (G0 : Int) + d.tdiv 4 + 128 + d * 80).tdiv 256 ≤ 255) ∧
    (0 ≤ (256 * (G1 : Int) - d.tdiv 4 + 128 - d * 80).tdiv 256 ∧
      (256 * (G1 : Int) - d.tdiv 4 + 128 - d * 80).tdiv 256 ≤ 255) ∧
    (0 ≤ (256 * (G0 : Int) + d.tdiv 4 + 128 + d * 128).tdiv 256 ∧
      (256 * (G0 : Int) + d.tdiv 4 + 128 + d * 128).tdiv 256 ≤ 255) := by
  obtain ⟨w, x, y, z, rfl⟩ := length_four pDst hlen
  obtain ⟨r0, g0, b0⟩ := unpack_unscaled_le packed_col0
  obtain ⟨r1, g1, b1⟩ := unpack_unscaled_le packed_col1
  rw [← h0] at r0 g0 b0
  rw [← h1] at r1 g1 b1
  have hG0le : G0 ≤ 255 := by rw [hG0]; exact expand6_le _ (by omega)
  have hG1le : G1 ≤ 255 := by rw [hG1]; exact expand6_le _ (by omega)
  obtain ⟨⟨a1, a2⟩, ⟨a3, a4⟩, ⟨a5, a6⟩⟩ := nv5x_green_bounds G0 G1 d hG0le hG1le hd
  have e255 : u8 255 = 255 := rfl
  have e0 : u8 0 = 0 := rfl
  have sr := set_r_four
  have sg := set_g_four
  have sb := set_b_four
  have sa := set_a_four
  have gg := get_g_four
  have k1 := u8_of_le (by omega : 3 * c0.r * 22 / 8 ≤ 255)
  have k2 := u8_of_le (by omega : 3 * c0.b * 22 / 8 ≤ 255)
  have k3 := u8_of_le (by omega : 3 * c1.r * 22 / 8 ≤ 255)
  have k4 := u8_of_le (by omega : 3 * c1.b * 22 / 8 ≤ 255)
  have k5 := u8_of_le (by omega : (2 * c0.r + c1.r) * 22 / 8 ≤ 255)
  have k6 := u8_of_le (by omega : (2 * c0.b + c1.b) * 22 / 8 ≤ 255)
  have k7 := u8_of_le (by omega : (2 * c1.r + c0.r) * 22 / 8 ≤ 255)
  have k8 := u8_of_le (by omega : (2 * c1.b + c0.b) * 22 / 8 ≤ 255)
  have k9 := u8_of_le (by omega : (c0.r + c1.r) * 33 / 8 ≤ 255)
  have k10 := u8_of_le (by omega : (c0.b + c1.b) * 33 / 8 ≤ 255)
  have kG0 := u8_of_le hG0le
  have kG1 := u8_of_le hG1le
  have kF1 := u8_u8i _ a1 a2
  have kF2 := u8_u8i _ a3 a4
  have kF3 := u8_u8i _ a5 a6
  refine ⟨?_, ?_, ⟨a1, a2⟩, ⟨a3, a4⟩, ⟨a5, a6⟩⟩
  · unfold dxt1_block.get_block_colors_NV5x
    simp only [cDefaultAlpha, ← h0, ← h1, ← hG0, ← hG1, (sr _ _ _ _ _).1, (sr _ _ _ _ _).2.1,
      (sr _ _ _ _ _).2.2.1, (sr _ _ _ _ _).2.2.2, (sg _ _ _ _ _).1, (sg _ _ _ _ _).2.1,
      (sg _ _ _ _ _).2.2.1, (sg _ _ _ _ _).2.2.2, (sb _ _ _ _ _).1, (sb _ _ _ _ _).2.1,
      (sb _ _ _ _ _).2.2.1, (sb _ _ _ _ _).2.2.2, (sa _ _ _ _ _).1, (sa _ _ _ _ _).2.1,
      (sa _ _ _ _ _).2.2.1, (sa _ _ _ _ _).2.2.2, (gg _ _ _ _).1, (gg _ _ _ _).2, if_true,
      kG0, kG1, ← hd, kF1, kF2, k1, k2, k3, k4, k5, k6, k7, k8, e255]
  · unfold dxt1_block.get_block_colors_NV5x
    simp only [cDefaultAlpha, ← h0, ← h1, ← hG0, ← hG1, (sr _ _ _ _ _).1, (sr _ _ _ _ _).2.1,
      (sr _ _ _ _ _).2.2.1, (sr _ _ _ _ _).2.2.2, (sg _ _ _ _ _).1, (sg _ _ _ _ _).2.1,
      (sg _ _ _ _ _).2.2.1, (sg _ _ _ _ _).2.2.2, (sb _ _ _ _ _).1, (sb _ _ _ _ _).2.1,
      (sb _ _ _ _ _).2.2.1, (sb _ _ _ _ _).2.2.2, (sa _ _ _ _ _).1, (sa _ _ _ _ _).2.1,
      (sa _ _ _ _ _).2.2.1, (sa _ _ _ _ _).2.2.2, (gg _ _ _ _).1, (gg _ _ _ _).2,
      Bool.false_eq_true, if_false, kG0, kG1, ← hd, kF3, k1, k2, k3, k4, k9, k10, e255, e0]

/-- Witness of C27: endpoints 0xFFFF and 0x0000, four-color variant: G0 = 255,
G1 = 0, d = -255, entries 2 and 3 are (170, 175, 170) and (85, 80, 85). -/
theorem nv5x_palette_witness :
    ([⟨1, 2, 3, 4⟩, ⟨5, 6, 7, 8⟩, ⟨9, 10, 11, 12⟩, ⟨13, 14, 15, 16⟩] :
        List color_quad_u8).length = 4 ∧
    (⟨31, 63, 31, 255⟩ : color_quad_u8) = dxt1_block.unpack_color 0xFFFF false 255 ∧
    (⟨0, 0, 0, 255⟩ : color_quad_u8) = dxt1_block.unpack_color 0x0000 false 255 ∧
    (255 = ((63 : Nat) <<< 2) ||| ((63 : Nat) >>> 4)) ∧
    (0 = ((0 : Nat) <<< 2) ||| ((0 : Nat) >>> 4)) ∧
    ((-255 : Int) = ((0 : Nat) : Int) - ((255 : Nat) : Int)) ∧
    dxt1_block.get_block_colors_NV5x
        [⟨1, 2, 3, 4⟩, ⟨5, 6, 7, 8⟩, ⟨9, 10, 11, 12⟩, ⟨13, 14, 15, 16⟩] 0xFFFF 0x0000 true =
      [⟨255, 255, 255, 255⟩, ⟨0, 0, 0, 255⟩, ⟨170, 175, 170, 255⟩, ⟨85, 80, 85, 255⟩] :=
  ⟨rfl, by decide, by decide, by decide, by decide, by decide,
    (nv5x_palette [⟨1, 2, 3, 4⟩, ⟨5, 6, 7, 8⟩, ⟨9, 10, 11, 12⟩, ⟨13, 14, 15, 16⟩]
      0xFFFF 0x0000 ⟨31, 63, 31, 255⟩ ⟨0, 0, 0, 255⟩ 255 0 (-255) rfl (by decide) (by decide)
      (by decide) (by decide) (by decide)).1.trans (by decide)⟩

/-! ## The two DXT5 ramp variants -/

/-- The assignment `pDst[i].a = v` on an eight-entry array: the alpha
channels after it. -/
theorem set_a_map_a (pDst : List color_quad_u8) (i v : Nat) :
    (set_a pDst i v).map color_quad_u8.a = (pDst.map color_quad_u8.a).set i (u8 v) := by
  unfold set_a
  cases hget : pDst[i]? with
  | none =>
    have hlen : pDst.length ≤ i := List.getElem?_eq_none_iff.mp hget
    simp only
    rw [List.set_eq_of_length_le (by rw [List.length_map]; exact hlen)]
  | some c =>
    simp only
    rw [List.map_set]

/-- The alpha channels left by the color-quad `get_block_values8`. -/
theorem values8_quad_map_a (pQuad : List color_quad_u8) (l h : Nat)
    (hquad : pQuad.length = 8) (hl : l ≤ 255) (hh : h ≤ 255) :
    (dxt5_block.get_block_values8_quad pQuad l h).2.map color_quad_u8.a =
      [l, h, (l * 6 + h) / 7, (l * 5 + h * 2) / 7, (l * 4 + h * 3) / 7,
       (l * 3 + h * 4) / 7, (l * 2 + h * 5) / 7, (l + h * 6) / 7] := by
  have hm : (pQuad.map color_quad_u8.a).length = 8 := by rw [List.length_map]; exact hquad
  obtain ⟨a, b, c, d, e, f, g, i, hmap⟩ := length_eight _ hm
  simp only [dxt5_block.get_block_values8_quad, set_a_map_a, hmap, List.set]
  rw [u32_of_lt (by omega), u32_of_lt (by omega), u32_of_lt (by omega), u32_of_lt (by omega),
    u32_of_lt (by omega), u32_of_lt (by omega)]
  rw [u8_of_le hl, u8_of_le hh, u8_of_le (by omega), u8_of_le (by omega), u8_of_le (by omega),
    u8_of_le (by omega), u8_of_le (by omega), u8_of_le (by omega)]

/-- The alpha channels left by the color-quad `get_block_values6`. -/
theorem values6_quad_map_a (pQuad : List color_quad_u8) (l h : Nat)
    (hquad : pQuad.length = 8) (hl : l ≤ 255) (hh : h ≤ 255) :
    (dxt5_block.get_block_values6_quad pQuad l h).2.map color_quad_u8.a =
      [l, h, (l * 4 + h) / 5, (l * 3 + h * 2) / 5, (l * 2 + h * 3) / 5,
       (l + h * 4) / 5, 0, 255] := by
  have hm : (pQuad.map color_quad_u8.a).length = 8 := by rw [List.length_map]; exact hquad
  obtain ⟨a, b, c, d, e, f, g, i, hmap⟩ := length_eight _ hm
  simp only [dxt5_block.get_block_values6_quad, set_a_map_a, hmap, List.set]
  rw [u32_of_lt (by omega), u32_of_lt (by omega), u32_of_lt (by omega), u32_of_lt (by omega)]
  rw [u8_of_le hl, u8_of_le hh, u8_of_le (by omega), u8_of_le (by omega), u8_of_le (by omega),
    u8_of_le (by omega)]
  rfl

/-- C28. The two DXT5 ramp variants agree: for all l, h in 0..255 the alpha
channels written by the color-quad overloads of get_block_values6,
get_block_values8 and get_block_values are, index by index over 0..7, the
entries written by the plain-integer overloads, and both overloads return the
same count. -/
theorem ramp_variants_agree (pDst : List Nat) (pQuad : List color_quad_u8) (l h : Nat)
    (hlen : pDst.length = 8) (hquad : pQuad.length = 8) (hl : l ≤ 255) (hh : h ≤ 255) :
    ∀ f ∈ [(dxt5_block.get_block_values6_quad, dxt5_block.get_block_values6),
           (dxt5_block.get_block_values8_quad, dxt5_block.get_block_values8),
           (dxt5_block.get_block_values_quad, dxt5_block.get_block_values)],
      (f.1 pQuad l h).1 = (f.2 pDst l h).1 ∧
      (f.2 pDst l h).2.length = 8 ∧
      (f.1 pQuad l h).2.map color_quad_u8.a = (f.2 pDst l h).2 ∧
      ∀ i < 8, ((f.1 pQuad l h).2[i]?).map color_quad_u8.a = (f.2 pDst l h).2[i]? := by
  have q8 := values8_quad_map_a pQuad l h hquad hl hh
  have q6 := values6_quad_map_a pQuad l h hquad hl hh
  have v8 := values8_eq pDst l h hlen hl hh
  have v6 := values6_eq pDst l h hlen hl hh
  have c8 : (dxt5_block.get_block_values8_quad pQuad l h).1 = 8 := rfl
  have c6 : (dxt5_block.get_block_values6_quad pQuad l h).1 = 6 := rfl
  have key : ∀ (q : Nat × List color_quad_u8) (r : Nat × List Nat),
      q.1 = r.1 → r.2.length = 8 → q.2.map color_quad_u8.a = r.2 →
      q.1 = r.1 ∧ r.2.length = 8 ∧ q.2.map color_quad_u8.a = r.2 ∧
      ∀ i < 8, (q.2[i]?).map color_quad_u8.a = r.2[i]? := by
    intro q r h1 h2 h3
    refine ⟨h1, h2, h3, fun i _ => ?_⟩
    rw [← h3, List.getElem?_map]
  have k8 := key (dxt5_block.get_block_values8_quad pQuad l h)
    (dxt5_block.get_block_values8 pDst l h) (by rw [c8, v8]) (by rw [v8]; rfl)
    (by rw [q8, v8])
  have k6 := key (dxt5_block.get_block_values6_quad pQuad l h)
    (dxt5_block.get_block_values6 pDst l h) (by rw [c6, v6]) (by rw [v6]; rfl)
    (by rw [q6, v6])
  intro f hf
  simp only [List.mem_cons, List.mem_singleton, List.not_mem_nil, or_false] at hf
  rcases hf with rfl | rfl | rfl
  · exact k6
  · exact k8
  · simp only [dxt5_block.get_block_values_quad, dxt5_block.get_block_values]
    split
    · exact k8
    · exact k6

/-- Witness of C28: l = 255, h = 0, the selecting overloads. -/
theorem ramp_variants_agree_witness :
    (List.replicate 8 9).length = 8 ∧
    (List.replicate 8 (⟨1, 2, 3, 4⟩ : color_quad_u8)).length = 8 ∧ 255 ≤ 255 ∧ 0 ≤ 255 ∧
    (dxt5_block.get_block_values_quad (List.replicate 8 ⟨1, 2, 3, 4⟩) 255 0).2.map
      color_quad_u8.a = (dxt5_block.get_block_values (List.replicate 8 9) 255 0).2 :=
  ⟨rfl, rfl, by decide, by decide,
    (ramp_variants_agree (List.replicate 8 9) (List.replicate 8 ⟨1, 2, 3, 4⟩) 255 0 rfl rfl
      (by decide) (by decide)
      (dxt5_block.get_block_values_quad, dxt5_block.get_block_values) (by simp)).2.2.1⟩

/-! ## Purity of the DXT1 palette -/

/-- C29. The DXT1 palette is a pure function of the two endpoints: for any
two initial contents of the four-entry destination, get_block_colors (and
get_block_colors_round) returns the same count and leaves the same four
entries, so every channel of every entry is overwritten. -/
theorem palette_pure (p1 p2 : List color_quad_u8) (color0 color1 : Nat)
    (hlen1 : p1.length = 4) (hlen2 : p2.length = 4) :
    dxt1_block.get_block_colors p1 color0 color1 =
      dxt1_block.get_block_colors p2 color0 color1 ∧
    (dxt1_block.get_block_colors p1 color0 color1).2.length = 4 ∧
    dxt1_block.get_block_colors_round p1 color0 color1 =
      dxt1_block.get_block_colors_round p2 color0 color1 ∧
    (dxt1_block.get_block_colors_round p1 color0 color1).2.length = 4 := by
  unfold dxt1_block.get_block_colors dxt1_block.get_block_colors_round
  rw [colors4_eq p1 color0 color1 _ _ hlen1 rfl rfl, colors4_eq p2 color0 color1 _ _ hlen2 rfl rfl,
    colors3_eq p1 color0 color1 _ _ hlen1 rfl rfl, colors3_eq p2 color0 color1 _ _ hlen2 rfl rfl,
    colors4_round_eq p1 color0 color1 _ _ hlen1 rfl rfl,
    colors4_round_eq p2 color0 color1 _ _ hlen2 rfl rfl,
    colors3_round_eq p1 color0 color1 _ _ hlen1 rfl rfl,
    colors3_round_eq p2 color0 color1 _ _ hlen2 rfl rfl]
  refine ⟨rfl, ?_, rfl, ?_⟩ <;> split <;> rfl

/-- Witness of C29: endpoints 0xFFFF and 0x0000 on two different destinations. -/
theorem palette_pure_witness :
    ([⟨1, 2, 3, 4⟩, ⟨5, 6, 7, 8⟩, ⟨9, 10, 11, 12⟩, ⟨13, 14, 15, 16⟩] :
        List color_quad_u8).length = 4 ∧
    (List.replicate 4 (⟨77, 77, 77, 77⟩ : color_quad_u8)).length = 4 ∧
    dxt1_block.get_block_colors
        [⟨1, 2, 3, 4⟩, ⟨5, 6, 7, 8⟩, ⟨9, 10, 11, 12⟩, ⟨13, 14, 15, 16⟩] 0xFFFF 0x0000 =
      dxt1_block.get_block_colors (List.replicate 4 ⟨77, 77, 77, 77⟩) 0xFFFF 0x0000 :=
  ⟨rfl, rfl,
    (palette_pure [⟨1, 2, 3, 4⟩, ⟨5, 6, 7, 8⟩, ⟨9, 10, 11, 12⟩, ⟨13, 14, 15, 16⟩]
      (List.replicate 4 ⟨77, 77, 77, 77⟩) 0xFFFF 0x0000 rfl rfl).1⟩

/-! ## The optional native decoder -/

/-- When `dlopen` fails, or succeeds with one of the four fetch symbols
missing, `init_external_dxt_library` leaves `external_dxt_functions_loaded`
false. -/
theorem init_keeps_unloaded (ld : Loader) (s : PluginState)
    (habs : ld.dlopen DXTN_LIBNAME = none ∨
      ∃ h, ld.dlopen DXTN_LIBNAME = some h ∧
        (ld.dlsym h "fetch_2d_texel_rgb_dxt1" = none ∨
         ld.dlsym h "fetch_2d_texel_rgba_dxt1" = none ∨
         ld.dlsym h "fetch_2d_texel_rgba_dxt3" = none ∨
         ld.dlsym h "fetch_2d_texel_rgba_dxt5" = none))
    (hs : s.external_dxt_functions_loaded = false) :
    (init_external_dxt_library ld s).external_dxt_functions_loaded = false := by
  unfold init_external_dxt_library
  cases hh : s.dxtlibhandle with
  | some h0 => simpa using hs
  | none =>
    rcases habs with hnone | ⟨h, hopen, hsym⟩
    · simp only [hnone]
      exact hs
    · simp only [hopen]
      rcases hsym with e | e | e | e <;> simp [e, hs]

/-- With `external_dxt_functions_loaded` false after the lazy initialisation,
`decompress_dxt` returns without touching `intermediate`. -/
theorem decompress_unloaded {F : Type} (U : Nat → F) (ld : Loader) (s : PluginState)
    (intermediate : List F) (pSrc : List Nat) (row_stride : Nat) (x y : Int)
    (fmt : pxfmt_sized_format) (tex : List Nat)
    (habs : ld.dlopen DXTN_LIBNAME = none ∨
      ∃ h, ld.dlopen DXTN_LIBNAME = some h ∧
        (ld.dlsym h "fetch_2d_texel_rgb_dxt1" = none ∨
         ld.dlsym h "fetch_2d_texel_rgba_dxt1" = none ∨
         ld.dlsym h "fetch_2d_texel_rgba_dxt3" = none ∨
         ld.dlsym h "fetch_2d_texel_rgba_dxt5" = none))
    (hs : s.external_dxt_functions_loaded = false) :
    ∃ s1, decompress_dxt U ld s intermediate pSrc row_stride x y fmt tex =
        some (s1, intermediate) ∧ s1.external_dxt_functions_loaded = false := by
  have hinit := init_keeps_unloaded ld s habs hs
  unfold decompress_dxt
  cases hi : s.external_dxt_library_initialized with
  | true =>
    refine ⟨s, ?_, hs⟩
    simp [hs]
  | false =>
    refine ⟨init_external_dxt_library ld s, ?_, hinit⟩
    simp [hinit]

/-- With the library absent or incomplete, every run from a state with
`external_dxt_functions_loaded` false completes and ends in such a state. -/
theorem run_keeps_unloaded {F : Type} (U : Nat → F) (ld : Loader)
    (habs : ld.dlopen DXTN_LIBNAME = none ∨
      ∃ h, ld.dlopen DXTN_LIBNAME = some h ∧
        (ld.dlsym h "fetch_2d_texel_rgb_dxt1" = none ∨
         ld.dlsym h "fetch_2d_texel_rgba_dxt1" = none ∨
         ld.dlsym h "fetch_2d_texel_rgba_dxt3" = none ∨
         ld.dlsym h "fetch_2d_texel_rgba_dxt5" = none))
    (calls : List (PluginCall F)) :
    ∀ s : PluginState, s.external_dxt_functions_loaded = false →
      ∃ s1, plugin_run U ld s calls = some s1 ∧ s1.external_dxt_functions_loaded = false := by
  induction calls with
  | nil => intro s hs; exact ⟨s, rfl, hs⟩
  | cons c cs ih =>
    intro s hs
    cases c with
    | init =>
      have h1 := init_keeps_unloaded ld s habs hs
      obtain ⟨s2, hrun, h2⟩ := ih _ h1
      exact ⟨s2, by simpa [plugin_run, plugin_step] using hrun, h2⟩
    | decompress intermediate pSrc row_stride x y fmt tex =>
      obtain ⟨s1, hd, h1⟩ :=
        decompress_unloaded U ld s intermediate pSrc row_stride x y fmt tex habs hs
      obtain ⟨s2, hrun, h2⟩ := ih _ h1
      exact ⟨s2, by simpa [plugin_run, plugin_step, hd] using hrun, h2⟩

/-- C30. Plugin absence is a no-op: if the native library cannot be opened,
or it opens but any of the four fetch symbols is missing, then after every
sequence of calls from the initial state, every call of decompress_dxt, for
every format tag and all coordinates, returns and leaves the intermediate
output unchanged. -/
theorem plugin_absent_noop {F : Type} (U : Nat → F) (ld : Loader)
    (calls : List (PluginCall F))
    (habs : ld.dlopen DXTN_LIBNAME = none ∨
      ∃ h, ld.dlopen DXTN_LIBNAME = some h ∧
        (ld.dlsym h "fetch_2d_texel_rgb_dxt1" = none ∨
         ld.dlsym h "fetch_2d_texel_rgba_dxt1" = none ∨
         ld.dlsym h "fetch_2d_texel_rgba_dxt3" = none ∨
         ld.dlsym h "fetch_2d_texel_rgba_dxt5" = none)) :
    ∃ s, plugin_run U ld PluginState.initial calls = some s ∧
      s.external_dxt_functions_loaded = false ∧
      ∀ (intermediate : List F) (pSrc : List Nat) (row_stride : Nat) (x y : Int)
        (fmt : pxfmt_sized_format) (tex : List Nat),
        ∃ s1, decompress_dxt U ld s intermediate pSrc row_stride x y fmt tex =
          some (s1, intermediate) := by
  obtain ⟨s, hrun, hs⟩ := run_keeps_unloaded U ld habs calls PluginState.initial rfl
  refine ⟨s, hrun, hs, ?_⟩
  intro intermediate pSrc row_stride x y fmt tex
  obtain ⟨s1, hd, -⟩ :=
    decompress_unloaded U ld s intermediate pSrc row_stride x y fmt tex habs hs
  exact ⟨s1, hd⟩

/-- Witness of C30: a loader whose library opens as handle 7 but lacks
fetch_2d_texel_rgba_dxt5; the first decompress_dxt call leaves the
intermediate output [10, 20, 30, 40] as it was. -/
theorem plugin_absent_noop_witness :
    (loader_missing_dxt5.dlopen DXTN_LIBNAME = none ∨
      ∃ h, loader_missing_dxt5.dlopen DXTN_LIBNAME = some h ∧
        (loader_missing_dxt5.dlsym h "fetch_2d_texel_rgb_dxt1" = none ∨
         loader_missing_dxt5.dlsym h "fetch_2d_texel_rgba_dxt1" = none ∨
         loader_missing_dxt5.dlsym h "fetch_2d_texel_rgba_dxt3" = none ∨
         loader_missing_dxt5.dlsym h "fetch_2d_texel_rgba_dxt5" = none)) ∧
    ∃ s1, decompress_dxt (fun u => (u : Nat)) loader_missing_dxt5
        PluginState.initial [10, 20, 30, 40] [0, 0, 0, 0, 0, 0, 0, 0] 8 1 2
        pxfmt_sized_format.PXFMT_COMPRESSED_RGB_DXT1 [0, 0, 0, 0] =
      some (s1, [10, 20, 30, 40]) :=
  ⟨Or.inr ⟨7, rfl, Or.inr (Or.inr (Or.inr rfl))⟩,
    (plugin_absent_noop (fun u => (u : Nat)) loader_missing_dxt5 []
      (Or.inr ⟨7, rfl, Or.inr (Or.inr (Or.inr rfl))⟩)).elim
      (fun s hs => by
        have hs0 : s = PluginState.initial := by
          have := hs.1
          simp only [plugin_run] at this
          exact (Option.some.inj this).symm
        rw [← hs0]
        exact hs.2.2 _ _ _ _ _ _ _)⟩

/-! ## The NV5x palette against the standard one -/

/-- The palette left by `get_block_colors_NV5x` on a four-entry destination,
in both variants. -/
theorem nv5x_eq (pDst : List color_quad_u8) (packed_col0 packed_col1 : Nat)
    (c0 c1 : color_quad_u8) (G0 G1 : Nat) (d : Int) (hlen : pDst.length = 4)
    (h0 : c0 = dxt1_block.unpack_color packed_col0 false 255)
    (h1 : c1 = dxt1_block.unpack_color packed_col1 false 255)
    (hG0 : G0 = (c0.g <<< 2) ||| (c0.g >>> 4)) (hG1 : G1 = (c1.g <<< 2) ||| (c1.g >>> 4))
    (hd : d = (G1 : Int) - (G0 : Int)) :
    dxt1_block.get_block_colors_NV5x pDst packed_col0 packed_col1 true =
      [⟨(3 * c0.r * 22) / 8, G0, (3 * c0.b * 22) / 8, 255⟩,
       ⟨(3 * c1.r * 22) / 8, G1, (3 * c1.b * 22) / 8, 255⟩,
       ⟨((2 * c0.r + c1.r) * 22) / 8,
        ((256 * (G0 : Int) + d.tdiv 4 + 128 + d * 80).tdiv 256).toNat,
        ((2 * c0.b + c1.b) * 22) / 8, 255⟩,
       ⟨((2 * c1.r + c0.r) * 22) / 8,
        ((256 * (G1 : Int) - d.tdiv 4 + 128 - d * 80).tdiv 256).toNat,
        ((2 * c1.b + c0.b) * 22) / 8, 255⟩] ∧
    dxt1_block.get_block_colors_NV5x pDst packed_col0 packed_col1 false =
      [⟨(3 * c0.r * 22) / 8, G0, (3 * c0.b * 22) / 8, 255⟩,
       ⟨(3 * c1.r * 22) / 8, G1, (3 * c1.b * 22) / 8, 255⟩,
       ⟨((c0.r + c1.r) * 33) / 8,
        ((256 * (G0 : Int) + d.tdiv 4 + 128 + d * 128).tdiv 256).toNat,
        ((c0.b + c1.b) * 33) / 8, 255⟩,
       ⟨0, 0, 0, 0⟩] := by
  obtain ⟨w, x, y, z, rfl⟩ := length_four pDst hlen
  obtain ⟨r0, g0, b0⟩ := unpack_unscaled_le packed_col0
  obtain ⟨r1, g1, b1⟩ := unpack_unscaled_le packed_col1
  rw [← h0] at r0 g0 b0
  rw [← h1] at r1 g1 b1
  have hG0le : G0 ≤ 255 := by rw [hG0]; exact expand6_le _ (by omega)
  have hG1le : G1 ≤ 255 := by rw [hG1]; exact expand6_le _ (by omega)
  obtain ⟨⟨a1, a2⟩, ⟨a3, a4⟩, ⟨a5, a6⟩⟩ := nv5x_green_bounds G0 G1 d hG0le hG1le hd
  have e255 : u8 255 = 255 := rfl
  have e0 : u8 0 = 0 := rfl
  have sr := set_r_four
  have sg := set_g_four
  have sb := set_b_four
  have sa := set_a_four
  have gg := get_g_four
  have k1 := u8_of_le (by omega : 3 * c0.r * 22 / 8 ≤ 255)
  have k2 := u8_of_le (by omega : 3 * c0.b * 22 / 8 ≤ 255)
  have k3 := u8_of_le (by omega : 3 * c1.r * 22 / 8 ≤ 255)
  have k4 := u8_of_le (by omega : 3 * c1.b * 22 / 8 ≤ 255)
  have k5 := u8_of_le (by omega : (2 * c0.r + c1.r) * 22 / 8 ≤ 255)
  have k6 := u8_of_le (by omega : (2 * c0.b + c1.b) * 22 / 8 ≤ 255)
  have k7 := u8_of_le (by omega : (2 * c1.r + c0.r) * 22 / 8 ≤ 255)
  have k8 := u8_of_le (by omega : (2 * c1.b + c0.b) * 22 / 8 ≤ 255)
  have k9 := u8_of_le (by omega : (c0.r + c1.r) * 33 / 8 ≤ 255)
  have k10 := u8_of_le (by omega : (c0.b + c1.b) * 33 / 8 ≤ 255)
  have kG0 := u8_of_le hG0le
  have kG1 := u8_of_le hG1le
  have kF1 := u8_u8i _ a1 a2
  have kF2 := u8_u8i _ a3 a4
  have kF3 := u8_u8i _ a5 a6
  refine ⟨?_, ?_⟩
  · unfold dxt1_block.get_block_colors_NV5x
    simp only [cDefaultAlpha, ← h0, ← h1, ← hG0, ← hG1, (sr _ _ _ _ _).1, (sr _ _ _ _ _).2.1,
      (sr _ _ _ _ _).2.2.1, (sr _ _ _ _ _).2.2.2, (sg _ _ _ _ _).1, (sg _ _ _ _ _).2.1,
      (sg _ _ _ _ _).2.2.1, (sg _ _ _ _ _).2.2.2, (sb _ _ _ _ _).1, (sb _ _ _ _ _).2.1,
      (sb _ _ _ _ _).2.2.1, (sb _ _ _ _ _).2.2.2, (sa _ _ _ _ _).1, (sa _ _ _ _ _).2.1,
      (sa _ _ _ _ _).2.2.1, (sa _ _ _ _ _).2.2.2, (gg _ _ _ _).1, (gg _ _ _ _).2, if_true,
      kG0, kG1, ← hd, kF1, kF2, k1, k2, k3, k4, k5, k6, k7, k8, e255]
  · unfold dxt1_block.get_block_colors_NV5x
    simp only [cDefaultAlpha, ← h0, ← h1, ← hG0, ← hG1, (sr _ _ _ _ _).1, (sr _ _ _ _ _).2.1,
      (sr _ _ _ _ _).2.2.1, (sr _ _ _ _ _).2.2.2, (sg _ _ _ _ _).1, (sg _ _ _ _ _).2.1,
      (sg _ _ _ _ _).2.2.1, (sg _ _ _ _ _).2.2.2, (sb _ _ _ _ _).1, (sb _ _ _ _ _).2.1,
      (sb _ _ _ _ _).2.2.1, (sb _ _ _ _ _).2.2.2, (sa _ _ _ _ _).1, (sa _ _ _ _ _).2.1,
      (sa _ _ _ _ _).2.2.1, (sa _ _ _ _ _).2.2.2, (gg _ _ _ _).1, (gg _ _ _ _).2,
      Bool.false_eq_true, if_false, kG0, kG1, ← hd, kF3, k1, k2, k3, k4, k9, k10, e255, e0]

/-- Each green expression of the NV5x palette lies between the two expanded
greens. -/
theorem nv5x_green_between (G0 G1 : Nat) (d : Int) (h0 : G0 ≤ 255) (h1 : G1 ≤ 255)
    (hd : d = (G1 : Int) - (G0 : Int)) :
    (min (G0 : Int) G1 ≤ (256 * (G0 : Int) + d.tdiv 4 + 128 + d * 80).tdiv 256 ∧
      (256 * (G0 : Int) + d.tdiv 4 + 128 + d * 80).tdiv 256 ≤ max (G0 : Int) G1) ∧
    (min (G0 : Int) G1 ≤ (256 * (G1 : Int) - d.tdiv 4 + 128 - d * 80).tdiv 256 ∧
      (256 * (G1 : Int) - d.tdiv 4 + 128 - d * 80).tdiv 256 ≤ max (G0 : Int) G1) ∧
    (min (G0 : Int) G1 ≤ (256 * (G0 : Int) + d.tdiv 4 + 128 + d * 128).tdiv 256 ∧
      (256 * (G0 : Int) + d.tdiv 4 + 128 + d * 128).tdiv 256 ≤ max (G0 : Int) G1) := by
  have ht := tdiv_four d
  generalize d.tdiv 4 = q at ht
  have n1 : 0 ≤ 256 * (G0 : Int) + q + 128 + d * 80 := by split at ht <;> omega
  have n2 : 0 ≤ 256 * (G1 : Int) - q + 128 - d * 80 := by split at ht <;> omega
  have n3 : 0 ≤ 256 * (G0 : Int) + q + 128 + d * 128 := by split at ht <;> omega
  rw [Int.tdiv_eq_ediv n1 (by decide), Int.tdiv_eq_ediv n2 (by decide),
    Int.tdiv_eq_ediv n3 (by decide)]
  split at ht <;> omega

/-- C32. The NV5x variant's endpoints coincide with the standard ones: for
every pair of packed endpoints and either value of color4, entries 0 and 1
written by get_block_colors_NV5x are unpack_color(packed_col0, scaled, 255)
and unpack_color(packed_col1, scaled, 255); that is, (3*c*22)/8 =
(c << 3) | (c >> 2) for every 5-bit c. -/
theorem nv5x_endpoints_standard (pDst : List color_quad_u8) (packed_col0 packed_col1 : Nat)
    (color4 : Bool) (hlen : pDst.length = 4) :
    (dxt1_block.get_block_colors_NV5x pDst packed_col0 packed_col1 color4)[0]? =
      some (dxt1_block.unpack_color packed_col0 true 255) ∧
    (dxt1_block.get_block_colors_NV5x pDst packed_col0 packed_col1 color4)[1]? =
      some (dxt1_block.unpack_color packed_col1 true 255) ∧
    (∀ c ≤ 31, (3 * c * 22) / 8 = (c <<< 3) ||| (c >>> 2)) := by
  have hexp : ∀ c ≤ 31, (3 * c * 22) / 8 = (c <<< 3) ||| (c >>> 2) := by
    intro c hc
    rw [expand5_eq c (by omega)]
    omega
  obtain ⟨e4, e3⟩ := nv5x_eq pDst packed_col0 packed_col1 _ _ _ _ _ hlen rfl rfl rfl rfl rfl
  have f0 : ∀ p : Nat,
      (⟨(3 * (dxt1_block.unpack_color p false 255).r * 22) / 8,
        ((dxt1_block.unpack_color p false 255).g <<< 2) |||
          ((dxt1_block.unpack_color p false 255).g >>> 4),
        (3 * (dxt1_block.unpack_color p false 255).b * 22) / 8, 255⟩ : color_quad_u8) =
      dxt1_block.unpack_color p true 255 := by
    intro p
    rw [unpack_color_eq p false 255, unpack_color_eq p true 255]
    simp only [Bool.false_eq_true, if_false, if_true]
    rw [hexp _ (by have := and31_lt (p >>> 11); omega), hexp _ (by have := and31_lt p; omega)]
    rfl
  refine ⟨?_, ?_, hexp⟩
  · cases color4
    · rw [e3, ← f0 packed_col0]; rfl
    · rw [e4, ← f0 packed_col0]; rfl
  · cases color4
    · rw [e3, ← f0 packed_col1]; rfl
    · rw [e4, ← f0 packed_col1]; rfl

/-- Witness of C32: endpoints 0xF81F and 0x07E0, three-color variant. -/
theorem nv5x_endpoints_standard_witness :
    ([⟨1, 2, 3, 4⟩, ⟨5, 6, 7, 8⟩, ⟨9, 10, 11, 12⟩, ⟨13, 14, 15, 16⟩] :
        List color_quad_u8).length = 4 ∧
    (dxt1_block.get_block_colors_NV5x
        [⟨1, 2, 3, 4⟩, ⟨5, 6, 7, 8⟩, ⟨9, 10, 11, 12⟩, ⟨13, 14, 15, 16⟩]
        0xF81F 0x07E0 false)[0]? = some ⟨255, 0, 255, 255⟩ ∧
    (dxt1_block.get_block_colors_NV5x
        [⟨1, 2, 3, 4⟩, ⟨5, 6, 7, 8⟩, ⟨9, 10, 11, 12⟩, ⟨13, 14, 15, 16⟩]
        0xF81F 0x07E0 false)[1]? = some ⟨0, 255, 0, 255⟩ :=
  ⟨rfl,
    (nv5x_endpoints_standard [⟨1, 2, 3, 4⟩, ⟨5, 6, 7, 8⟩, ⟨9, 10, 11, 12⟩, ⟨13, 14, 15, 16⟩]
      0xF81F 0x07E0 false rfl).1.trans (by decide),
    (nv5x_endpoints_standard [⟨1, 2, 3, 4⟩, ⟨5, 6, 7, 8⟩, ⟨9, 10, 11, 12⟩, ⟨13, 14, 15, 16⟩]
      0xF81F 0x07E0 false rfl).2.1.trans (by decide)⟩

/-- C33. The NV5x interpolated channels never wrap when narrowed to 8 bits:
every expression of get_block_colors_NV5x that is cast to uint8_t lies in
0..255, and the green of entries 2 and 3 (entry 2 only when color4 is false)
lies between the greens of entries 0 and 1 inclusive. -/
theorem nv5x_no_wrap (pDst : List color_quad_u8) (packed_col0 packed_col1 : Nat)
    (c0 c1 : color_quad_u8) (G0 G1 : Nat) (d : Int) (hlen : pDst.length = 4)
    (h0 : c0 = dxt1_block.unpack_color packed_col0 false 255)
    (h1 : c1 = dxt1_block.unpack_color packed_col1 false 255)
    (hG0 : G0 = (c0.g <<< 2) ||| (c0.g >>> 4)) (hG1 : G1 = (c1.g <<< 2) ||| (c1.g >>> 4))
    (hd : d = (G1 : Int) - (G0 : Int)) :
    (((2 * c0.r + c1.r) * 22) / 8 ≤ 255 ∧ ((2 * c0.b + c1.b) * 22) / 8 ≤ 255 ∧
      ((2 * c1.r + c0.r) * 22) / 8 ≤ 255 ∧ ((2 * c1.b + c0.b) * 22) / 8 ≤ 255 ∧
      ((c0.r + c1.r) * 33) / 8 ≤ 255 ∧ ((c0.b + c1.b) * 33) / 8 ≤ 255) ∧
    (0 ≤ (256 * (G0 : Int) + d.tdiv 4 + 128 + d * 80).tdiv 256 ∧
      (256 * (G0 : Int) + d.tdiv 4 + 128 + d * 80).tdiv 256 ≤ 255) ∧
    (0 ≤ (256 * (G1 : Int) - d.tdiv 4 + 128 - d * 80).tdiv 256 ∧
      (256 * (G1 : Int) - d.tdiv 4 + 128 - d * 80).tdiv 256 ≤ 255) ∧
    (0 ≤ (256 * (G0 : Int) + d.tdiv 4 + 128 + d * 128).tdiv 256 ∧
      (256 * (G0 : Int) + d.tdiv 4 + 128 + d * 128).tdiv 256 ≤ 255) ∧
    (∃ e0 e1 e2 e3,
      dxt1_block.get_block_colors_NV5x pDst packed_col0 packed_col1 true = [e0, e1, e2, e3] ∧
      (e2.g : Int) = (256 * (G0 : Int) + d.tdiv 4 + 128 + d * 80).tdiv 256 ∧
      (e3.g : Int) = (256 * (G1 : Int) - d.tdiv 4 + 128 - d * 80).tdiv 256 ∧
      min e0.g e1.g ≤ e2.g ∧ e2.g ≤ max e0.g e1.g ∧
      min e0.g e1.g ≤ e3.g ∧ e3.g ≤ max e0.g e1.g) ∧
    (∃ e0 e1 e2 e3,
      dxt1_block.get_block_colors_NV5x pDst packed_col0 packed_col1 false = [e0, e1, e2, e3] ∧
      (e2.g : Int) = (256 * (G0 : Int) + d.tdiv 4 + 128 + d * 128).tdiv 256 ∧
      min e0.g e1.g ≤ e2.g ∧ e2.g ≤ max e0.g e1.g) := by
  obtain ⟨r0, g0, b0⟩ := unpack_unscaled_le packed_col0
  obtain ⟨r1, g1, b1⟩ := unpack_unscaled_le packed_col1
  rw [← h0] at r0 g0 b0
  rw [← h1] at r1 g1 b1
  have hG0le : G0 ≤ 255 := by rw [hG0]; exact expand6_le _ (by omega)
  have hG1le : G1 ≤ 255 := by rw [hG1]; exact expand6_le _ (by omega)
  obtain ⟨⟨a1, a2⟩, ⟨a3, a4⟩, ⟨a5, a6⟩⟩ := nv5x_green_bounds G0 G1 d hG0le hG1le hd
  obtain ⟨⟨m1, m2⟩, ⟨m3, m4⟩, ⟨m5, m6⟩⟩ := nv5x_green_between G0 G1 d hG0le hG1le hd
  obtain ⟨e4, e3⟩ := nv5x_eq pDst packed_col0 packed_col1 c0 c1 G0 G1 d hlen h0 h1 hG0 hG1 hd
  refine ⟨⟨by omega, by omega, by omega, by omega, by omega, by omega⟩,
    ⟨a1, a2⟩, ⟨a3, a4⟩, ⟨a5, a6⟩, ?_, ?_⟩
  · refine ⟨_, _, _, _, e4, Int.toNat_of_nonneg a1, Int.toNat_of_nonneg a3, ?_⟩
    generalize (256 * (G0 : Int) + d.tdiv 4 + 128 + d * 80).tdiv 256 = F1 at *
    generalize (256 * (G1 : Int) - d.tdiv 4 + 128 - d * 80).tdiv 256 = F2 at *
    simp only
    omega
  · refine ⟨_, _, _, _, e3, Int.toNat_of_nonneg a5, ?_⟩
    generalize (256 * (G0 : Int) + d.tdiv 4 + 128 + d * 128).tdiv 256 = F3 at *
    simp only
    omega

/-- Witness of C33: endpoints 0xFFFF and 0x0000: the greens of entries 2 and
3 are 175 and 80, between 0 and 255. -/
theorem nv5x_no_wrap_witness :
    ([⟨1, 2, 3, 4⟩, ⟨5, 6, 7, 8⟩, ⟨9, 10, 11, 12⟩, ⟨13, 14, 15, 16⟩] :
        List color_quad_u8).length = 4 ∧
    (⟨31, 63, 31, 255⟩ : color_quad_u8) = dxt1_block.unpack_color 0xFFFF false 255 ∧
    (⟨0, 0, 0, 255⟩ : color_quad_u8) = dxt1_block.unpack_color 0x0000 false 255 ∧
    (255 = ((63 : Nat) <<< 2) ||| ((63 : Nat) >>> 4)) ∧
    (0 = ((0 : Nat) <<< 2) ||| ((0 : Nat) >>> 4)) ∧
    ((-255 : Int) = ((0 : Nat) : Int) - ((255 : Nat) : Int)) ∧
    (0 ≤ (256 * ((255 : Nat) : Int) + (-255 : Int).tdiv 4 + 128 + (-255) * 80).tdiv 256 ∧
      (256 * ((255 : Nat) : Int) + (-255 : Int).tdiv 4 + 128 + (-255) * 80).tdiv 256 ≤ 255) :=
  ⟨rfl, by decide, by decide, by decide, by decide, by decide,
    (nv5x_no_wrap [⟨1, 2, 3, 4⟩, ⟨5, 6, 7, 8⟩, ⟨9, 10, 11, 12⟩, ⟨13, 14, 15, 16⟩]
      0xFFFF 0x0000 ⟨31, 63, 31, 255⟩ ⟨0, 0, 0, 255⟩ 255 0 (-255) rfl (by decide) (by decide)
      (by decide) (by decide) (by decide)).2.1⟩

/-- C34. The rounding family differs from the truncating family by at most
one step: for every pair of packed endpoints, every entry i in 0..3 and every
channel, the value written by get_block_colors_round minus the value written
by get_block_colors is 0 or 1, and both functions return the same count. -/
theorem round_minus_trunc (pRound pDst : List color_quad_u8) (color0 color1 i : Nat)
    (hround : pRound.length = 4) (hlen : pDst.length = 4) (hi : i < 4) :
    (dxt1_block.get_block_colors_round pRound color0 color1).1 =
      (dxt1_block.get_block_colors pDst color0 color1).1 ∧
    ∃ cr ct,
      (dxt1_block.get_block_colors_round pRound color0 color1).2[i]? = some cr ∧
      (dxt1_block.get_block_colors pDst color0 color1).2[i]? = some ct ∧
      (cr.r = ct.r ∨ cr.r = ct.r + 1) ∧ (cr.g = ct.g ∨ cr.g = ct.g + 1) ∧
      (cr.b = ct.b ∨ cr.b = ct.b + 1) ∧ (cr.a = ct.a ∨ cr.a = ct.a + 1) := by
  have e4 := colors4_eq pDst color0 color1 _ _ hlen rfl rfl
  have e3 := colors3_eq pDst color0 color1 _ _ hlen rfl rfl
  have e4r := colors4_round_eq pRound color0 color1 _ _ hround rfl rfl
  have e3r := colors3_round_eq pRound color0 color1 _ _ hround rfl rfl
  unfold dxt1_block.get_block_colors_round dxt1_block.get_block_colors
  by_cases hgt : color0 > color1
  · rw [if_pos hgt, if_pos hgt, e4, e4r]
    refine ⟨rfl, ?_⟩
    interval_cases i
    · exact ⟨_, _, rfl, rfl, Or.inl rfl, Or.inl rfl, Or.inl rfl, Or.inl rfl⟩
    · exact ⟨_, _, rfl, rfl, Or.inl rfl, Or.inl rfl, Or.inl rfl, Or.inl rfl⟩
    · refine ⟨_, _, rfl, rfl, ?_, ?_, ?_, Or.inl rfl⟩ <;>
        simp only [List.getElem_cons_succ, List.getElem_cons_zero] <;> omega
    · refine ⟨_, _, rfl, rfl, ?_, ?_, ?_, Or.inl rfl⟩ <;>
        simp only [List.getElem_cons_succ, List.getElem_cons_zero] <;> omega
  · rw [if_neg hgt, if_neg hgt, e3, e3r]
    refine ⟨rfl, ?_⟩
    interval_cases i
    · exact ⟨_, _, rfl, rfl, Or.inl rfl, Or.inl rfl, Or.inl rfl, Or.inl rfl⟩
    · exact ⟨_, _, rfl, rfl, Or.inl rfl, Or.inl rfl, Or.inl rfl, Or.inl rfl⟩
    · refine ⟨_, _, rfl, rfl, ?_, ?_, ?_, Or.inl rfl⟩ <;>
        simp only [List.getElem_cons_succ, List.getElem_cons_zero] <;> omega
    · exact ⟨_, _, rfl, rfl, Or.inl rfl, Or.inl rfl, Or.inl rfl, Or.inl rfl⟩

/-- Witness of C34: endpoints 0xFFFF and 0x0001, entry 2: the rounded blue is
173, the truncated blue 172. -/
theorem round_minus_trunc_witness :
    (List.replicate 4 (⟨1, 2, 3, 4⟩ : color_quad_u8)).length = 4 ∧
    (List.replicate 4 (⟨5, 6, 7, 8⟩ : color_quad_u8)).length = 4 ∧ 2 < 4 ∧
    (dxt1_block.get_block_colors_round (List.replicate 4 ⟨1, 2, 3, 4⟩) 0xFFFF 0x0001).1 =
      (dxt1_block.get_block_colors (List.replicate 4 ⟨5, 6, 7, 8⟩) 0xFFFF 0x0001).1 ∧
    (dxt1_block.get_block_colors_round (List.replicate 4 ⟨1, 2, 3, 4⟩) 0xFFFF 0x0001).2[2]? =
      some ⟨170, 170, 173, 255⟩ ∧
    (dxt1_block.get_block_colors (List.replicate 4 ⟨5, 6, 7, 8⟩) 0xFFFF 0x0001).2[2]? =
      some ⟨170, 170, 172, 255⟩ :=
  ⟨rfl, rfl, by decide,
    (round_minus_trunc (List.replicate 4 ⟨1, 2, 3, 4⟩) (List.replicate 4 ⟨5, 6, 7, 8⟩)
      0xFFFF 0x0001 2 rfl rfl (by decide)).1, by decide, by decide⟩

/-- C35. Swapping DXT1 endpoints is compensated by flipping the low selector
bit: for every pair of packed endpoints c0, c1 and every selector i in 0..3,
get_block_colors4(c1, c0)[i xor 1] = get_block_colors4(c0, c1)[i], and the
same holds for get_block_colors4_round. -/
theorem swap_endpoints_flip (pSwap pDst : List color_quad_u8) (color0 color1 i : Nat)
    (hswap : pSwap.length = 4) (hlen : pDst.length = 4) (hi : i < 4) :
    (∃ c, (dxt1_block.get_block_colors4 pSwap color1 color0).2[i ^^^ 1]? = some c ∧
      (dxt1_block.get_block_colors4 pDst color0 color1).2[i]? = some c) ∧
    (∃ c, (dxt1_block.get_block_colors4_round pSwap color1 color0).2[i ^^^ 1]? = some c ∧
      (dxt1_block.get_block_colors4_round pDst color0 color1).2[i]? = some c) := by
  rw [colors4_eq pDst color0 color1 _ _ hlen rfl rfl,
    colors4_eq pSwap color1 color0 _ _ hswap rfl rfl,
    colors4_round_eq pDst color0 color1 _ _ hlen rfl rfl,
    colors4_round_eq pSwap color1 color0 _ _ hswap rfl rfl]
  have x0 : (0 : Nat) ^^^ 1 = 1 := by decide
  have x1 : (1 : Nat) ^^^ 1 = 0 := by decide
  have x2 : (2 : Nat) ^^^ 1 = 3 := by decide
  have x3 : (3 : Nat) ^^^ 1 = 2 := by decide
  interval_cases i
  · rw [x0]
    simp only [List.getElem?_cons_zero, List.getElem?_cons_succ, Option.some.injEq,
      exists_eq_left']
    exact ⟨trivial, trivial⟩
  · rw [x1]
    simp only [List.getElem?_cons_zero, List.getElem?_cons_succ, Option.some.injEq,
      exists_eq_left']
    exact ⟨trivial, trivial⟩
  · rw [x2]
    simp only [List.getElem?_cons_zero, List.getElem?_cons_succ, Option.some.injEq,
      exists_eq_left']
    exact ⟨trivial, trivial⟩
  · rw [x3]
    simp only [List.getElem?_cons_zero, List.getElem?_cons_succ, Option.some.injEq,
      exists_eq_left']
    exact ⟨trivial, trivial⟩

/-- Witness of C35: endpoints 0xFFFF and 0x0000, selector 2: both sides read
(170, 170, 170, 255). -/
theorem swap_endpoints_flip_witness :
    (List.replicate 4 (⟨1, 2, 3, 4⟩ : color_quad_u8)).length = 4 ∧
    (List.replicate 4 (⟨5, 6, 7, 8⟩ : color_quad_u8)).length = 4 ∧ 2 < 4 ∧
    (∃ c, (dxt1_block.get_block_colors4 (List.replicate 4 ⟨1, 2, 3, 4⟩) 0x0000
        0xFFFF).2[2 ^^^ 1]? = some c ∧
      (dxt1_block.get_block_colors4 (List.replicate 4 ⟨5, 6, 7, 8⟩) 0xFFFF
        0x0000).2[2]? = some c) ∧
    (dxt1_block.get_block_colors4 (List.replicate 4 ⟨5, 6, 7, 8⟩) 0xFFFF 0x0000).2[2]? =
      some ⟨170, 170, 170, 255⟩ :=
  ⟨rfl, rfl, by decide,
    (swap_endpoints_flip (List.replicate 4 ⟨1, 2, 3, 4⟩) (List.replicate 4 ⟨5, 6, 7, 8⟩)
      0xFFFF 0x0000 2 rfl rfl (by decide)).1, by decide⟩

/-! ## The 6-value selector order -/

/-- C36. g_dxt5_alpha6_to_linear orders the six interpolated selectors along
the 6-value ramp: on selectors 0..5 it is a bijection onto 0..5, and for all
l ≤ h in 0..255 and selectors s, t in 0..5, table[s] ≤ table[t] implies
get_block_values6(l, h)[s] ≤ get_block_values6(l, h)[t]; the sentinel
selectors 6 and 7 map to 0. -/
theorem alpha6_to_linear_order (pDst : List Nat) (l h s t : Nat)
    (hlen : pDst.length = 8) (hl : l ≤ 255) (hh : h ≤ 255) (hle : l ≤ h)
    (hs : s < 6) (ht : t < 6) :
    (∀ i < 6, ∃ j < 6, g_dxt5_alpha6_to_linear[i]? = some j) ∧
    (∀ j < 6, ∃ i < 6, g_dxt5_alpha6_to_linear[i]? = some j) ∧
    (∀ i < 6, ∀ k < 6, g_dxt5_alpha6_to_linear[i]? = g_dxt5_alpha6_to_linear[k]? → i = k) ∧
    (∃ a b va vb, g_dxt5_alpha6_to_linear[s]? = some a ∧
      g_dxt5_alpha6_to_linear[t]? = some b ∧
      (dxt5_block.get_block_values6 pDst l h).2[s]? = some va ∧
      (dxt5_block.get_block_values6 pDst l h).2[t]? = some vb ∧
      (a ≤ b → va ≤ vb)) ∧
    g_dxt5_alpha6_to_linear[6]? = some 0 ∧ g_dxt5_alpha6_to_linear[7]? = some 0 := by
  rw [values6_eq pDst l h hlen hl hh]
  refine ⟨by decide, by decide, by decide, ?_, rfl, rfl⟩
  have hs2 : ∃ a va, g_dxt5_alpha6_to_linear[s]? = some a ∧
      [l, h, (l * 4 + h) / 5, (l * 3 + h * 2) / 5, (l * 2 + h * 3) / 5, (l + h * 4) / 5,
        0, 255][s]? = some va ∧
      va = (a * h + (5 - a) * l) / 5 ∧ a ≤ 5 := by
    interval_cases s
    · exact ⟨0, l, rfl, rfl, by omega, by omega⟩
    · exact ⟨5, h, rfl, rfl, by omega, by omega⟩
    · exact ⟨1, (l * 4 + h) / 5, rfl, rfl, by omega, by omega⟩
    · exact ⟨2, (l * 3 + h * 2) / 5, rfl, rfl, by omega, by omega⟩
    · exact ⟨3, (l * 2 + h * 3) / 5, rfl, rfl, by omega, by omega⟩
    · exact ⟨4, (l + h * 4) / 5, rfl, rfl, by omega, by omega⟩
  have ht2 : ∃ b vb, g_dxt5_alpha6_to_linear[t]? = some b ∧
      [l, h, (l * 4 + h) / 5, (l * 3 + h * 2) / 5, (l * 2 + h * 3) / 5, (l + h * 4) / 5,
        0, 255][t]? = some vb ∧
      vb = (b * h + (5 - b) * l) / 5 ∧ b ≤ 5 := by
    interval_cases t
    · exact ⟨0, l, rfl, rfl, by omega, by omega⟩
    · exact ⟨5, h, rfl, rfl, by omega, by omega⟩
    · exact ⟨1, (l * 4 + h) / 5, rfl, rfl, by omega, by omega⟩
    · exact ⟨2, (l * 3 + h * 2) / 5, rfl, rfl, by omega, by omega⟩
    · exact ⟨3, (l * 2 + h * 3) / 5, rfl, rfl, by omega, by omega⟩
    · exact ⟨4, (l + h * 4) / 5, rfl, rfl, by omega, by omega⟩
  obtain ⟨a, va, ha, hva, eva, ha5⟩ := hs2
  obtain ⟨b, vb, hb, hvb, evb, hb5⟩ := ht2
  refine ⟨a, b, va, vb, ha, hb, hva, hvb, ?_⟩
  intro hab
  rw [eva, evb]
  apply Nat.div_le_div_right
  have h1 : a * h + (5 - a) * l = 5 * l + a * (h - l) := by
    have e : h = l + (h - l) := by omega
    have e5 : 5 = a + (5 - a) := by omega
    calc a * h + (5 - a) * l = a * (l + (h - l)) + (5 - a) * l := by rw [← e]
      _ = (a + (5 - a)) * l + a * (h - l) := by ring
      _ = 5 * l + a * (h - l) := by rw [← e5]
  have h2 : b * h + (5 - b) * l = 5 * l + b * (h - l) := by
    have e : h = l + (h - l) := by omega
    have e5 : 5 = b + (5 - b) := by omega
    calc b * h + (5 - b) * l = b * (l + (h - l)) + (5 - b) * l := by rw [← e]
      _ = (b + (5 - b)) * l + b * (h - l) := by ring
      _ = 5 * l + b * (h - l) := by rw [← e5]
  rw [h1, h2]
  exact Nat.add_le_add_left (Nat.mul_le_mul_right _ hab) _

/-- Witness of C36: l = 10, h = 200, selectors 3 and 1: table values 2 and 5,
ramp values 86 and 200. -/
theorem alpha6_to_linear_order_witness :
    (List.replicate 8 9).length = 8 ∧ 10 ≤ 255 ∧ 200 ≤ 255 ∧ 10 ≤ 200 ∧ 3 < 6 ∧ 1 < 6 ∧
    (∃ a b va vb, g_dxt5_alpha6_to_linear[3]? = some a ∧
      g_dxt5_alpha6_to_linear[1]? = some b ∧
      (dxt5_block.get_block_values6 (List.replicate 8 9) 10 200).2[3]? = some va ∧
      (dxt5_block.get_block_values6 (List.replicate 8 9) 10 200).2[1]? = some vb ∧
      (a ≤ b → va ≤ vb)) ∧
    (dxt5_block.get_block_values6 (List.replicate 8 9) 10 200).2[3]? = some 86 :=
  ⟨rfl, by decide, by decide, by decide, by decide, by decide,
    (alpha6_to_linear_order (List.replicate 8 9) 10 200 3 1 rfl (by decide) (by decide)
      (by decide) (by decide) (by decide)).2.2.2.1, by decide⟩

/-! ## Frame of the color-quad ramp functions -/

/-- The assignment `pDst[i].a = v` keeps the length of the array and the
red, green and blue channels of every entry. -/
theorem set_a_frame (pDst : List color_quad_u8) (i v : Nat) :
    (set_a pDst i v).length = pDst.length ∧
    (set_a pDst i v).map (fun c => (c.r, c.g, c.b)) = pDst.map (fun c => (c.r, c.g, c.b)) := by
  unfold set_a
  cases hget : pDst[i]? with
  | none => exact ⟨rfl, rfl⟩
  | some c =>
    refine ⟨List.length_set _ _ _, ?_⟩
    apply List.ext_getElem?
    intro j
    simp only [List.getElem?_map, List.getElem?_set]
    by_cases hij : i = j
    · subst hij
      have hlt : i < pDst.length := (List.getElem?_eq_some.mp hget).1
      rw [if_pos rfl, if_pos hlt, hget]
      rfl
    · rw [if_neg hij]

/-- C37. The color-quad DXT5 ramp functions write the alpha channel only: for
all l, h and any initial eight-entry destination, after the color-quad
overload of get_block_values6, get_block_values8 or get_block_values the
array still has eight entries and the r, g and b channels of all of them are
unchanged. -/
theorem quad_writes_alpha_only (pQuad : List color_quad_u8) (l h : Nat)
    (hquad : pQuad.length = 8) :
    ∀ f ∈ [dxt5_block.get_block_values6_quad, dxt5_block.get_block_values8_quad,
           dxt5_block.get_block_values_quad],
      (f pQuad l h).2.length = 8 ∧
      (f pQuad l h).2.map (fun c => (c.r, c.g, c.b)) =
        pQuad.map (fun c => (c.r, c.g, c.b)) := by
  have k6 : (dxt5_block.get_block_values6_quad pQuad l h).2.length = 8 ∧
      (dxt5_block.get_block_values6_quad pQuad l h).2.map (fun c => (c.r, c.g, c.b)) =
        pQuad.map (fun c => (c.r, c.g, c.b)) := by
    simp only [dxt5_block.get_block_values6_quad, (set_a_frame _ _ _).1, (set_a_frame _ _ _).2]
    exact ⟨hquad, trivial⟩
  have k8 : (dxt5_block.get_block_values8_quad pQuad l h).2.length = 8 ∧
      (dxt5_block.get_block_values8_quad pQuad l h).2.map (fun c => (c.r, c.g, c.b)) =
        pQuad.map (fun c => (c.r, c.g, c.b)) := by
    simp only [dxt5_block.get_block_values8_quad, (set_a_frame _ _ _).1, (set_a_frame _ _ _).2]
    exact ⟨hquad, trivial⟩
  intro f hf
  simp only [List.mem_cons, List.mem_singleton, List.not_mem_nil, or_false] at hf
  rcases hf with rfl | rfl | rfl
  · exact k6
  · exact k8
  · unfold dxt5_block.get_block_values_quad
    split
    · exact k8
    · exact k6

/-- Witness of C37: l = 255, h = 0 on eight entries (1, 2, 3, 4). -/
theorem quad_writes_alpha_only_witness :
    (List.replicate 8 (⟨1, 2, 3, 4⟩ : color_quad_u8)).length = 8 ∧
    (dxt5_block.get_block_values_quad (List.replicate 8 ⟨1, 2, 3, 4⟩) 255 0).2.map
        (fun c => (c.r, c.g, c.b)) =
      (List.replicate 8 (⟨1, 2, 3, 4⟩ : color_quad_u8)).map (fun c => (c.r, c.g, c.b)) :=
  ⟨rfl, (quad_writes_alpha_only (List.replicate 8 ⟨1, 2, 3, 4⟩) 255 0 rfl
    dxt5_block.get_block_values_quad (by simp)).2⟩

/-! ## Nearest level -/

/-- The 5-bit level chosen with bias 128 is a nearest one: every other level
expands at least as far from the input. -/
theorem nearest5 (c q : Nat) (hc : c ≤ 255) :
    |((8 * ((c * 31 + 128) / 255) + (c * 31 + 128) / 255 / 4 : Nat) : Int) - (c : Int)| ≤
      |((8 * q + q / 4 : Nat) : Int) - (c : Int)| := by
  have he := quant5_error c (by omega)
  have hm : min ((c * 31 + 128) / 255) 31 = (c * 31 + 128) / 255 := by omega
  rw [hm] at he
  clear hm
  generalize (c * 31 + 128) / 255 = q0 at he ⊢
  have gap1 : q < q0 → 8 * q + q / 4 + 8 ≤ 8 * q0 + q0 / 4 := by intro h; omega
  have gap2 : q0 < q → 8 * q0 + q0 / 4 + 8 ≤ 8 * q + q / 4 := by intro h; omega
  have same : q = q0 → 8 * q + q / 4 = 8 * q0 + q0 / 4 := by intro h; rw [h]
  generalize 8 * q0 + q0 / 4 = e0 at he gap1 gap2 same ⊢
  generalize 8 * q + q / 4 = e at gap1 gap2 same ⊢
  rw [abs_eq_max_neg, abs_eq_max_neg]
  rcases Nat.lt_trichotomy q q0 with h | h | h
  · have := gap1 h; omega
  · have := same h; omega
  · have := gap2 h; omega

/-- The 6-bit level chosen with bias 128 is a nearest one. -/
theorem nearest6 (c q : Nat) (hc : c ≤ 255) :
    |((4 * ((c * 63 + 128) / 255) + (c * 63 + 128) / 255 / 16 : Nat) : Int) - (c : Int)| ≤
      |((4 * q + q / 16 : Nat) : Int) - (c : Int)| := by
  have he := quant6_error c (by omega)
  have hm : min ((c * 63 + 128) / 255) 63 = (c * 63 + 128) / 255 := by omega
  rw [hm] at he
  clear hm
  generalize (c * 63 + 128) / 255 = q0 at he ⊢
  have gap1 : q < q0 → 4 * q + q / 16 + 4 ≤ 4 * q0 + q0 / 16 := by intro h; omega
  have gap2 : q0 < q → 4 * q0 + q0 / 16 + 4 ≤ 4 * q + q / 16 := by intro h; omega
  have same : q = q0 → 4 * q + q / 16 = 4 * q0 + q0 / 16 := by intro h; rw [h]
  generalize 4 * q0 + q0 / 16 = e0 at he gap1 gap2 same ⊢
  generalize 4 * q + q / 16 = e at gap1 gap2 same ⊢
  rw [abs_eq_max_neg, abs_eq_max_neg]
  rcases Nat.lt_trichotomy q q0 with h | h | h
  · have := gap1 h; omega
  · have := same h; omega
  · have := gap2 h; omega

/-- C38. With bias 128 the scaled quantizer picks a nearest representable
level: for every 8-bit channel value c, q = (c*31 + 128)/255 minimises
|((q2 << 3) | (q2 >> 2)) - c| over all q2 in 0..31, and q = (c*63 + 128)/255
minimises |((q2 << 2) | (q2 >> 4)) - c| over all q2 in 0..63. In terms of the
two functions: no packed color unpacks nearer to (r, g, b), channel by
channel, than pack_color(r, g, b, scaled, 128) does. -/
theorem pack_color_nearest (r g b a alpha p : Nat) (c cp : color_quad_u8)
    (hr : r ≤ 255) (hg : g ≤ 255) (hb : b ≤ 255)
    (hc : c = dxt1_block.unpack_color (dxt1_block.pack_color ⟨r, g, b, a⟩ true 128) true alpha)
    (hcp : cp = dxt1_block.unpack_color p true alpha) :
    |(c.r : Int) - (r : Int)| ≤ |(cp.r : Int) - (r : Int)| ∧
    |(c.g : Int) - (g : Int)| ≤ |(cp.g : Int) - (g : Int)| ∧
    |(c.b : Int) - (b : Int)| ≤ |(cp.b : Int) - (b : Int)| ∧
    (∀ q ≤ 31,
      |(((((r * 31 + 128) / 255) <<< 3) ||| (((r * 31 + 128) / 255) >>> 2) : Nat) : Int)
          - (r : Int)| ≤
        |((((q <<< 3) ||| (q >>> 2) : Nat)) : Int) - (r : Int)|) ∧
    (∀ q ≤ 63,
      |(((((g * 63 + 128) / 255) <<< 2) ||| (((g * 63 + 128) / 255) >>> 4) : Nat) : Int)
          - (g : Int)| ≤
        |((((q <<< 2) ||| (q >>> 4) : Nat)) : Int) - (g : Int)|) := by
  subst hc hcp
  have hp := pack_color_scaled_eq r g b a 128 (by omega) (by omega) (by omega)
  have mr : min ((r * 31 + 128) / 255) 31 = (r * 31 + 128) / 255 := by omega
  have mg : min ((g * 63 + 128) / 255) 63 = (g * 63 + 128) / 255 := by omega
  have mb : min ((b * 31 + 128) / 255) 31 = (b * 31 + 128) / 255 := by omega
  rw [mr, mg, mb] at hp
  obtain ⟨fB, fG, fR⟩ := unpack565 ((r * 31 + 128) / 255) ((g * 63 + 128) / 255)
    ((b * 31 + 128) / 255) (by omega) (by omega) (by omega)
  have eR := expand5_eq ((r * 31 + 128) / 255) (by omega)
  have eG := expand6_eq ((g * 63 + 128) / 255) (by omega)
  have eB := expand5_eq ((b * 31 + 128) / 255) (by omega)
  have pR := expand5_eq _ (and31_lt (p >>> 11))
  have pG := expand6_eq _ (and63_lt (p >>> 5))
  have pB := expand5_eq _ (and31_lt p)
  rw [hp, unpack_color_eq, unpack_color_eq]
  simp only [if_true]
  rw [fB, fG, fR, eR, eG, eB, pR, pG, pB]
  refine ⟨nearest5 r _ hr, nearest6 g _ hg, nearest5 b _ hb, ?_, ?_⟩
  · intro q hq
    rw [expand5_eq q (by omega)]
    exact nearest5 r q hr
  · intro q hq
    rw [expand6_eq q (by omega)]
    exact nearest6 g q hg

/-- Witness of C38: the triple (100, 150, 200) packs to levels 12, 37, 24 and
unpacks to (99, 150, 198); the packed color 0x6CB9 unpacks to (107, 150, 206),
which is no nearer. -/
theorem pack_color_nearest_witness :
    (100 ≤ 255 ∧ 150 ≤ 255 ∧ 200 ≤ 255) ∧
    (⟨99, 150, 198, 255⟩ : color_quad_u8) =
      dxt1_block.unpack_color (dxt1_block.pack_color ⟨100, 150, 200, 0⟩ true 128) true 255 ∧
    (⟨107, 150, 206, 255⟩ : color_quad_u8) = dxt1_block.unpack_color 0x6CB9 true 255 ∧
    |((99 : Nat) : Int) - ((100 : Nat) : Int)| ≤ |((107 : Nat) : Int) - ((100 : Nat) : Int)| :=
  ⟨by decide, by decide, by decide,
    (pack_color_nearest 100 150 200 0 255 0x6CB9 ⟨99, 150, 198, 255⟩ ⟨107, 150, 206, 255⟩
      (by decide) (by decide) (by decide) (by decide) (by decide)).1⟩

/-! ## DXT3 scaled quantization error -/

/-- C39. DXT3 scaled alpha quantization error: for every texel (x, y) with
x, y < 4 and every v in 0..255, set_alpha(x, y, v, scaled) succeeds and the
value a that get_alpha(x, y, scaled) then returns satisfies |a - v| ≤ 8, and
a = v whenever v is a multiple of 17. -/
theorem scaled_alpha_error (m_alpha : List Nat) (x y v : Nat)
    (hlen : m_alpha.length = 8) (hbytes : ∀ c ∈ m_alpha, c < 256)
    (hx : x < 4) (hy : y < 4) (hv : v ≤ 255) :
    ∃ m a, dxt3_block.set_alpha m_alpha x y v true = Outcome.ok m ∧
      dxt3_block.get_alpha m x y true = some a ∧
      |(a : Int) - (v : Int)| ≤ 8 ∧ (17 ∣ v → a = v) := by
  have hofs : y * 2 + x / 2 < m_alpha.length := by omega
  have hq : (v * 15 + 128) / 255 ≤ 15 := by omega
  refine ⟨dxt3_block.set_alpha_store m_alpha x y ((v * 15 + 128) / 255),
    17 * ((v * 15 + 128) / 255), ?_, ?_, ?_, ?_⟩
  · unfold dxt3_block.set_alpha cDXTBlockSize
    rw [if_pos ⟨hx, hy⟩, if_pos rfl, if_pos hv]
  · rw [set_alpha_store_eq m_alpha x y _ hbytes hx hq, get_alpha_eq _ x y true hx hy,
      getD_set_same _ _ _ hofs]
    simp only [if_true]
    congr 1
    split <;> omega
  · rw [abs_le]
    push_cast
    omega
  · rintro ⟨k, rfl⟩
    omega

/-- Witness of C39: texel (1, 3) of the bytes 0x10 .. 0x87, value 100: the
stored level is 6 and the value read back 102. -/
theorem scaled_alpha_error_witness :
    ([0x10, 0x21, 0x32, 0x43, 0x54, 0x65, 0x76, 0x87] : List Nat).length = 8 ∧
    (∀ c ∈ ([0x10, 0x21, 0x32, 0x43, 0x54, 0x65, 0x76, 0x87] : List Nat), c < 256) ∧
    1 < 4 ∧ 3 < 4 ∧ 100 ≤ 255 ∧
    (∃ m a, dxt3_block.set_alpha [0x10, 0x21, 0x32, 0x43, 0x54, 0x65, 0x76, 0x87] 1 3 100 true
        = Outcome.ok m ∧
      dxt3_block.get_alpha m 1 3 true = some a ∧
      |(a : Int) - ((100 : Nat) : Int)| ≤ 8 ∧ (17 ∣ 100 → a = 100)) ∧
    dxt3_block.set_alpha [0x10, 0x21, 0x32, 0x43, 0x54, 0x65, 0x76, 0x87] 1 3 100 true =
      Outcome.ok [0x10, 0x21, 0x32, 0x43, 0x54, 0x65, 0x66, 0x87] ∧
    dxt3_block.get_alpha [0x10, 0x21, 0x32, 0x43, 0x54, 0x65, 0x66, 0x87] 1 3 true = some 102 :=
  ⟨rfl, by decide, by decide, by decide, by decide,
    scaled_alpha_error [0x10, 0x21, 0x32, 0x43, 0x54, 0x65, 0x76, 0x87] 1 3 100 rfl
      (by decide) (by decide) (by decide) (by decide), by decide, by decide⟩

/-! ## The optional native decoder: invariant -/

theorem plugin_inv_initial (ld : Loader) : PluginInv ld PluginState.initial := by
  unfold PluginInv PluginState.initial
  simp

/-- `init_external_dxt_library` keeps the invariant and leaves
`external_dxt_library_initialized` true. -/
theorem plugin_inv_init (ld : Loader) (s : PluginState) (hinv : PluginInv ld s) :
    PluginInv ld (init_external_dxt_library ld s) ∧
    (init_external_dxt_library ld s).external_dxt_library_initialized = true := by
  unfold PluginInv at hinv ⊢
  obtain ⟨i1, i3, i4⟩ := hinv
  unfold init_external_dxt_library
  cases hh : s.dxtlibhandle with
  | some h0 =>
    simp only [hh, reduceCtorEq, false_imp_iff, and_true]
    exact ⟨i1, i3⟩
  | none =>
    obtain ⟨hloaded, htrace⟩ := i4 hh
    obtain ⟨p1, p2, p3, p4⟩ := i3 hloaded
    cases hopen : ld.dlopen DXTN_LIBNAME with
    | none =>
      simp only [hopen, hloaded, p1, p2, p3, p4, Bool.false_eq_true, false_imp_iff, true_and,
        and_true, true_imp_iff, and_self, imp_self, List.mem_append, List.mem_singleton,
        reduceCtorEq, or_false]
      intro h n hmem
      exact htrace h n hmem
    | some h =>
      simp only [hopen]
      cases e1 : ld.dlsym h "fetch_2d_texel_rgb_dxt1" with
      | none => simp [hloaded]
      | some f1 =>
        cases e2 : ld.dlsym h "fetch_2d_texel_rgba_dxt1" with
        | none => simp [hloaded]
        | some f2 =>
          cases e3 : ld.dlsym h "fetch_2d_texel_rgba_dxt3" with
          | none => simp [hloaded]
          | some f3 =>
            cases e4 : ld.dlsym h "fetch_2d_texel_rgba_dxt5" with
            | none => simp [hloaded]
            | some f4 =>
              simp only [Option.isNone_some, Bool.or_self, Bool.false_eq_true, if_false,
                Option.isSome_some, and_self, true_and, true_imp_iff, false_imp_iff,
                reduceCtorEq, and_true]
              intro h2 n hmem
              simp only [List.mem_append, List.mem_cons, List.mem_singleton, List.not_mem_nil,
                or_false, LoaderCall.dlsym.injEq, reduceCtorEq] at hmem
              rcases hmem with hmem | hmem
              · exact absurd hmem (htrace h2 n)
              · rcases hmem with ⟨rfl, rfl⟩ | ⟨rfl, rfl⟩ | ⟨rfl, rfl⟩ | ⟨rfl, rfl⟩
                · rw [e1]; rfl
                · rw [e2]; rfl
                · rw [e3]; rfl
                · rw [e4]; rfl

/-- Under the invariant every `decompress_dxt` call returns (no call goes
through a null pointer), keeps the invariant and leaves
`external_dxt_library_initialized` true; from a state in which that flag is
already true the state is left as it was. -/
theorem plugin_inv_decompress {F : Type} (U : Nat → F) (ld : Loader) (s : PluginState)
    (intermediate : List F) (pSrc : List Nat) (row_stride : Nat) (x y : Int)
    (fmt : pxfmt_sized_format) (tex : List Nat) (hinv : PluginInv ld s) :
    ∃ s1 out, decompress_dxt U ld s intermediate pSrc row_stride x y fmt tex = some (s1, out) ∧
      PluginInv ld s1 ∧ s1.external_dxt_library_initialized = true ∧
      (s.external_dxt_library_initialized = true → s1 = s) ∧
      (s.external_dxt_library_initialized = false → s1 = init_external_dxt_library ld s) := by
  have key : ∀ t : PluginState, PluginInv ld t → t.external_dxt_library_initialized = true →
      ∃ out, (if t.external_dxt_functions_loaded = true then
          match (match fmt with
            | pxfmt_sized_format.PXFMT_COMPRESSED_RGB_DXT1 =>
                call_decomp t.ext_decomp_rgb_dxt1 row_stride pSrc x y tex
            | pxfmt_sized_format.PXFMT_COMPRESSED_RGBA_DXT1 =>
                call_decomp t.ext_decomp_rgba_dxt1 row_stride pSrc x y tex
            | pxfmt_sized_format.PXFMT_COMPRESSED_RGBA_DXT3 =>
                call_decomp t.ext_decomp_rgba_dxt3 row_stride pSrc x y tex
            | pxfmt_sized_format.PXFMT_COMPRESSED_RGBA_DXT5 =>
                call_decomp t.ext_decomp_rgba_dxt5 row_stride pSrc x y tex
            | pxfmt_sized_format.other _ => some tex) with
          | none => none
          | some tex =>
            some (t, (((intermediate.set 0 (U (tex.getD 0 0))).set 1 (U (tex.getD 1 0))).set 2
              (U (tex.getD 2 0))).set 3 (U (tex.getD 3 0)))
        else some (t, intermediate)) = some (t, out) := by
    intro t ht _
    cases hl : t.external_dxt_functions_loaded with
    | false => exact ⟨intermediate, by simp⟩
    | true =>
      obtain ⟨⟨q1, q2, q3, q4⟩, -⟩ := ht.1 hl
      obtain ⟨f1, hf1⟩ := Option.isSome_iff_exists.mp q1
      obtain ⟨f2, hf2⟩ := Option.isSome_iff_exists.mp q2
      obtain ⟨f3, hf3⟩ := Option.isSome_iff_exists.mp q3
      obtain ⟨f4, hf4⟩ := Option.isSome_iff_exists.mp q4
      cases fmt <;> simp [hf1, hf2, hf3, hf4, call_decomp]
  unfold decompress_dxt
  cases hi : s.external_dxt_library_initialized with
  | true =>
    obtain ⟨out, hout⟩ := key s hinv hi
    refine ⟨s, out, ?_, hinv, hi, fun _ => rfl, fun h => (by cases h)⟩
    simpa using hout
  | false =>
    obtain ⟨hinv1, hi1⟩ := plugin_inv_init ld s hinv
    obtain ⟨out, hout⟩ := key _ hinv1 hi1
    refine ⟨init_external_dxt_library ld s, out, ?_, hinv1, hi1, fun h => (by cases h),
      fun _ => rfl⟩
    simpa using hout

/-- Every run from a state with the invariant completes and ends in a state
with the invariant. -/
theorem plugin_inv_run {F : Type} (U : Nat → F) (ld : Loader) (calls : List (PluginCall F)) :
    ∀ s : PluginState, PluginInv ld s →
      ∃ s1, plugin_run U ld s calls = some s1 ∧ PluginInv ld s1 := by
  induction calls with
  | nil => intro s hs; exact ⟨s, rfl, hs⟩
  | cons c cs ih =>
    intro s hs
    cases c with
    | init =>
      obtain ⟨s2, hrun, h2⟩ := ih _ (plugin_inv_init ld s hs).1
      exact ⟨s2, by simpa [plugin_run, plugin_step] using hrun, h2⟩
    | decompress intermediate pSrc row_stride x y fmt tex =>
      obtain ⟨s1, out, hd, h1, -⟩ :=
        plugin_inv_decompress U ld s intermediate pSrc row_stride x y fmt tex hs
      obtain ⟨s2, hrun, h2⟩ := ih _ h1
      exact ⟨s2, by simpa [plugin_run, plugin_step, hd] using hrun, h2⟩

/-- C40. Plugin dispatch never calls a null function: every sequence of
init_external_dxt_library and decompress_dxt calls from the initial state
completes; in the state it reaches, external_dxt_functions_loaded true
implies that the four function pointers are non-null, a failed symbol lookup
implies that all four are null and external_dxt_functions_loaded is false,
and every further decompress_dxt call returns without going through a null
pointer. -/
theorem plugin_never_null {F : Type} (U : Nat → F) (ld : Loader)
    (calls : List (PluginCall F)) :
    ∃ s, plugin_run U ld PluginState.initial calls = some s ∧
      (s.external_dxt_functions_loaded = true →
        s.ext_decomp_rgb_dxt1 ≠ none ∧ s.ext_decomp_rgba_dxt1 ≠ none ∧
        s.ext_decomp_rgba_dxt3 ≠ none ∧ s.ext_decomp_rgba_dxt5 ≠ none) ∧
      ((∃ h n, LoaderCall.dlsym h n ∈ s.loader_calls ∧ ld.dlsym h n = none) →
        s.ext_decomp_rgb_dxt1 = none ∧ s.ext_decomp_rgba_dxt1 = none ∧
        s.ext_decomp_rgba_dxt3 = none ∧ s.ext_decomp_rgba_dxt5 = none ∧
        s.external_dxt_functions_loaded = false) ∧
      ∀ (intermediate : List F) (pSrc : List Nat) (row_stride : Nat) (x y : Int)
        (fmt : pxfmt_sized_format) (tex : List Nat),
        (decompress_dxt U ld s intermediate pSrc row_stride x y fmt tex).isSome = true := by
  obtain ⟨s, hrun, hinv⟩ := plugin_inv_run U ld calls PluginState.initial (plugin_inv_initial ld)
  have hinv2 := hinv
  unfold PluginInv at hinv2
  obtain ⟨i1, i3, -⟩ := hinv2
  refine ⟨s, hrun, ?_, ?_, ?_⟩
  · intro hl
    obtain ⟨⟨q1, q2, q3, q4⟩, -⟩ := i1 hl
    refine ⟨?_, ?_, ?_, ?_⟩ <;> intro hn <;> simp [hn] at q1 q2 q3 q4
  · rintro ⟨h, n, hmem, hnone⟩
    cases hl : s.external_dxt_functions_loaded with
    | true =>
      have := (i1 hl).2 h n hmem
      rw [hnone] at this
      cases this
    | false =>
      obtain ⟨p1, p2, p3, p4⟩ := i3 hl
      exact ⟨Option.isNone_iff_eq_none.mp p1, Option.isNone_iff_eq_none.mp p2,
        Option.isNone_iff_eq_none.mp p3, Option.isNone_iff_eq_none.mp p4, rfl⟩
  · intro intermediate pSrc row_stride x y fmt tex
    obtain ⟨s1, out, hd, -⟩ :=
      plugin_inv_decompress U ld s intermediate pSrc row_stride x y fmt tex hinv
    rw [hd]
    rfl

/-- From a state with `external_dxt_library_initialized` true and the
invariant, a sequence of `decompress_dxt` calls completes and leaves every
file-scope variable, and the list of loader calls, as it was. -/
theorem run_initialized {F : Type} (U : Nat → F) (ld : Loader) (rest : List (PluginCall F))
    (hrest : ∀ d ∈ rest, d ≠ PluginCall.init) :
    ∀ s : PluginState, PluginInv ld s → s.external_dxt_library_initialized = true →
      plugin_run U ld s rest = some s := by
  induction rest with
  | nil => intro s _ _; rfl
  | cons c cs ih =>
    intro s hs hi
    cases c with
    | init => exact absurd rfl (hrest PluginCall.init (List.mem_cons_self _ _))
    | decompress intermediate pSrc row_stride x y fmt tex =>
      obtain ⟨s1, out, hd, -, -, hsame, -⟩ :=
        plugin_inv_decompress U ld s intermediate pSrc row_stride x y fmt tex hs
      have h1 : s1 = s := hsame hi
      subst h1
      have hrun := ih (fun d hd2 => hrest d (List.mem_cons_of_mem _ hd2)) s1 hs hi
      simpa [plugin_run, plugin_step, hd] using hrun

/-- The loader calls of the first initialisation: one `dlopen`, made first. -/
theorem init_initial_calls (ld : Loader) :
    (init_external_dxt_library ld PluginState.initial).loader_calls.head? =
      some (LoaderCall.dlopen DXTN_LIBNAME) ∧
    (init_external_dxt_library ld PluginState.initial).loader_calls.count
      (LoaderCall.dlopen DXTN_LIBNAME) = 1 := by
  unfold init_external_dxt_library PluginState.initial
  cases hopen : ld.dlopen DXTN_LIBNAME with
  | none => simp [hopen]
  | some h =>
    simp only [hopen]
    split <;> simp

/-- C31. The plugin load is never retried: in every sequence of
decompress_dxt calls from the initial state, the first call attempts the
load (one dlopen, made first) and sets external_dxt_library_initialized;
every later call leaves that flag true and makes no loader call at all, so
the state after the whole sequence is the state after the first call,
whether the load succeeded or failed. In any state with the flag true a
decompress_dxt call that returns leaves the state as it was. -/
theorem load_not_retried {F : Type} (U : Nat → F) (ld : Loader) (c : PluginCall F)
    (rest : List (PluginCall F)) (hc : c ≠ PluginCall.init)
    (hrest : ∀ d ∈ rest, d ≠ PluginCall.init) :
    (∀ (s s1 : PluginState) (intermediate out : List F) (pSrc : List Nat) (row_stride : Nat)
        (x y : Int) (fmt : pxfmt_sized_format) (tex : List Nat),
        s.external_dxt_library_initialized = true →
        decompress_dxt U ld s intermediate pSrc row_stride x y fmt tex = some (s1, out) →
        s1 = s) ∧
    ∃ s1, plugin_run U ld PluginState.initial [c] = some s1 ∧
      plugin_run U ld PluginState.initial (c :: rest) = some s1 ∧
      s1.external_dxt_library_initialized = true ∧
      s1.loader_calls.head? = some (LoaderCall.dlopen DXTN_LIBNAME) ∧
      s1.loader_calls.count (LoaderCall.dlopen DXTN_LIBNAME) = 1 := by
  constructor
  · intro s s1 intermediate out pSrc row_stride x y fmt tex hi hd
    unfold decompress_dxt at hd
    simp only [hi, Bool.not_true, Bool.false_eq_true, if_false] at hd
    split at hd
    · split at hd
      · cases hd
      · exact (congrArg Prod.fst (Option.some.inj hd)).symm
    · exact (congrArg Prod.fst (Option.some.inj hd)).symm
  · cases c with
    | init => exact absurd rfl hc
    | decompress intermediate pSrc row_stride x y fmt tex =>
      obtain ⟨s1, out, hd, hinv1, hi1, -, hfirst⟩ :=
        plugin_inv_decompress U ld PluginState.initial intermediate pSrc row_stride x y fmt tex
          (plugin_inv_initial ld)
      have hs1 : s1 = init_external_dxt_library ld PluginState.initial := hfirst rfl
      have hrun := run_initialized U ld rest hrest s1 hinv1 hi1
      obtain ⟨c1, c2⟩ := init_initial_calls ld
      refine ⟨s1, ?_, ?_, hi1, ?_, ?_⟩
      · simp [plugin_run, plugin_step, hd]
      · simpa [plugin_run, plugin_step, hd] using hrun
      · rw [hs1]; exact c1
      · rw [hs1]; exact c2

/-- Witness of C31: three decompress_dxt calls with a loader that lacks one
symbol: the loader is called in the first call only (one dlopen, four dlsym,
one dlclose). -/
theorem load_not_retried_witness :
    ((PluginCall.decompress [10, 20, 30, 40] [0, 0, 0, 0, 0, 0, 0, 0] 8 0 0
        pxfmt_sized_format.PXFMT_COMPRESSED_RGB_DXT1 [0, 0, 0, 0] : PluginCall Nat) ≠
      PluginCall.init) ∧
    (∀ d ∈ [(PluginCall.decompress [10, 20, 30, 40] [0, 0, 0, 0, 0, 0, 0, 0] 8 1 0
        pxfmt_sized_format.PXFMT_COMPRESSED_RGBA_DXT5 [0, 0, 0, 0] : PluginCall Nat),
        PluginCall.decompress [10, 20, 30, 40] [0, 0, 0, 0, 0, 0, 0, 0] 8 2 0
        pxfmt_sized_format.PXFMT_COMPRESSED_RGBA_DXT3 [0, 0, 0, 0]],
      d ≠ PluginCall.init) ∧
    ∃ s1, plugin_run (fun u => u) loader_missing_dxt5 PluginState.initial
        [PluginCall.decompress [10, 20, 30, 40] [0, 0, 0, 0, 0, 0, 0, 0] 8 0 0
          pxfmt_sized_format.PXFMT_COMPRESSED_RGB_DXT1 [0, 0, 0, 0]] = some s1 ∧
      plugin_run (fun u => u) loader_missing_dxt5 PluginState.initial
        [PluginCall.decompress [10, 20, 30, 40] [0, 0, 0, 0, 0, 0, 0, 0] 8 0 0
          pxfmt_sized_format.PXFMT_COMPRESSED_RGB_DXT1 [0, 0, 0, 0],
         PluginCall.decompress [10, 20, 30, 40] [0, 0, 0, 0, 0, 0, 0, 0] 8 1 0
          pxfmt_sized_format.PXFMT_COMPRESSED_RGBA_DXT5 [0, 0, 0, 0],
         PluginCall.decompress [10, 20, 30, 40] [0, 0, 0, 0, 0, 0, 0, 0] 8 2 0
          pxfmt_sized_format.PXFMT_COMPRESSED_RGBA_DXT3 [0, 0, 0, 0]] = some s1 ∧
      s1.external_dxt_library_initialized = true ∧
      s1.loader_calls.head? = some (LoaderCall.dlopen DXTN_LIBNAME) ∧
      s1.loader_calls.count (LoaderCall.dlopen DXTN_LIBNAME) = 1 :=
  ⟨fun h => (by cases h),
    fun d hd => by
      simp only [List.mem_cons, List.mem_singleton, List.not_mem_nil, or_false] at hd
      rcases hd with rfl | rfl <;> exact fun h => (by cases h),
    (load_not_retried (fun u => u) loader_missing_dxt5 _ _ (fun h => (by cases h))
      (fun d hd => by
        simp only [List.mem_cons, List.mem_singleton, List.not_mem_nil, or_false] at hd
        rcases hd with rfl | rfl <;> exact fun h => (by cases h))).2⟩

end vogl
